import Mathlib

/-!
rMqtt32 : session-lifecycle controller (`src/reMqtt.cpp`)

A shallow embedding of the dual-broker build (`CONFIG_MQTT2_TYPE` defined) of
`reMqtt.cpp`.  The module-level `static` variables of the C++ file become the
fields of `State`; the functions of the file become functions on `State`.
The two functions that differ when `CONFIG_MQTT2_TYPE` is not defined,
`mqttStart` and `mqttServerSelectAuto`, are embedded a second time under
`SingleBroker`.

External collaborators (the ESP-IDF MQTT client, the event loop, the allocator)
are not part of the file.  Every call to one of them is appended to
`State.trace`, in call order, together with the value it returned; the returned
value is read from the environment `Env` at the position of the call in the
trace.  Logging calls (`rlog_*`) have no effect on the state and are left out.
-/

namespace ReMqtt

/-! ## Data model -/

/-- The `mqtt_client_state_t` enumeration. -/
inductive mqtt_client_state_t
  | MQTT_CLIENT_STOPPED
  | MQTT_CLIENT_STARTED
  | MQTT_CLIENT_SUSPENDED
  deriving DecidableEq, Repr

open mqtt_client_state_t

/-- Compile-time configuration (`project_config.h`, `def_consts.h`), which is
not part of the file: every `CONFIG_*` macro the code reads is a field.
`conn_attempt_bits` is the width of the `conn_attempt` field of
`re_mqtt_event_data_t`, declared in `reEvents.h`.  `mqttGetTopicDevice1` is the
topic builder of `reMqtt.h` applied to `CONFIG_MQTT_STATUS_LOCAL` and
`CONFIG_MQTT_STATUS_TOPIC`; `wifiGetGatewayIP` is the gateway address. -/
structure Config where
  CONFIG_MQTT1_TYPE : Nat
  CONFIG_MQTT2_TYPE : Nat
  CONFIG_MQTT_BACK_TO_PRIMARY_TIME_MINUTES : Nat
  CONFIG_MQTT_CONNECT_ATTEMPTS : Nat
  CONFIG_MQTT1_HOST : String
  CONFIG_MQTT2_HOST : String
  CONFIG_MQTT1_TLS_ENABLED : Bool
  CONFIG_MQTT2_TLS_ENABLED : Bool
  CONFIG_MQTT1_PORT_TLS : Nat
  CONFIG_MQTT1_PORT_TCP : Nat
  CONFIG_MQTT2_PORT_TLS : Nat
  CONFIG_MQTT2_PORT_TCP : Nat
  CONFIG_MQTT_STATUS_LWT : Bool
  CONFIG_MQTT_STATUS_ONLINE : Bool
  CONFIG_MQTT_STATUS_ONLINE_SYSINFO : Bool
  CONFIG_MQTT_STATUS_ONLINE_PAYLOAD : String
  CONFIG_MQTT_STATUS_QOS : Int
  CONFIG_MQTT_STATUS_RETAINED : Bool
  CONFIG_MQTT1_PING_CHECK : Bool
  CONFIG_MQTT2_PING_CHECK : Bool
  conn_attempt_bits : Nat
  mqttGetTopicDevice1 : Bool → Option String
  wifiGetGatewayIP : Option String

/-- The `esp_mqtt_error_codes_t` record of the MQTT client library. -/
structure esp_mqtt_error_codes_t where
  esp_tls_last_esp_err : Int
  esp_tls_stack_err : Int
  esp_tls_cert_verify_flags : Int
  error_type : Nat
  connect_return_code : Nat
  esp_transport_sock_errno : Int
  deriving DecidableEq, Repr

/-- Value of `MQTT_ERROR_TYPE_TCP_TRANSPORT` in `esp_mqtt_error_type_t`. -/
def MQTT_ERROR_TYPE_TCP_TRANSPORT : Nat := 1

/-- Value of `MQTT_ERROR_TYPE_CONNECTION_REFUSED` in `esp_mqtt_error_type_t`. -/
def MQTT_ERROR_TYPE_CONNECTION_REFUSED : Nat := 2

/-- The all-zero error record (`memset(&err_codes, 0, ...)`). -/
def esp_mqtt_error_codes_t.zero : esp_mqtt_error_codes_t :=
  { esp_tls_last_esp_err := 0, esp_tls_stack_err := 0, esp_tls_cert_verify_flags := 0,
    error_type := 0, connect_return_code := 0, esp_transport_sock_errno := 0 }

/-- The session record `re_mqtt_event_data_t` (`_mqttData`).  The field
`local` of the C struct is named `local_` here. -/
structure re_mqtt_event_data_t where
  primary : Bool
  local_ : Bool
  connected : Bool
  conn_attempt : Nat
  host : Option String
  port : Nat
  err_codes : esp_mqtt_error_codes_t
  deriving DecidableEq, Repr

/-- The all-zero session record (`memset(&_mqttData, 0, sizeof(_mqttData))`). -/
def re_mqtt_event_data_t.zero : re_mqtt_event_data_t :=
  { primary := false, local_ := false, connected := false, conn_attempt := 0,
    host := none, port := 0, err_codes := esp_mqtt_error_codes_t.zero }

/-- The reassembly record `re_mqtt_incoming_data_t` (`in_buffer`).  A pointer
is `none` when null; a buffer is the list of its bytes. -/
structure re_mqtt_incoming_data_t where
  topic : Option (List Nat)
  data : Option (List Nat)
  topic_len : Nat
  data_len : Nat
  deriving DecidableEq, Repr

/-- The all-zero reassembly record (`memset(&in_buffer, 0, ...)`). -/
def re_mqtt_incoming_data_t.zero : re_mqtt_incoming_data_t :=
  { topic := none, data := none, topic_len := 0, data_len := 0 }

/-- The fields of `esp_mqtt_client_config_t` that depend on the broker slot;
the fields copied from constants shared by both slots are left out. -/
structure esp_mqtt_client_config_t where
  host : Option String
  port : Nat
  transport_ssl : Bool
  lwt_topic : Option String
  deriving DecidableEq, Repr

/-- The event identifiers of the MQTT client library; `MQTT_EVENT_DELETED`
stands for every identifier `mqttEventHandler` has no case for. -/
inductive esp_mqtt_event_id_t
  | MQTT_EVENT_ERROR
  | MQTT_EVENT_CONNECTED
  | MQTT_EVENT_DISCONNECTED
  | MQTT_EVENT_SUBSCRIBED
  | MQTT_EVENT_UNSUBSCRIBED
  | MQTT_EVENT_PUBLISHED
  | MQTT_EVENT_DATA
  | MQTT_EVENT_BEFORE_CONNECT
  | MQTT_EVENT_DELETED
  deriving DecidableEq, Repr

open esp_mqtt_event_id_t

/-- The callback argument `esp_mqtt_event_t`.  The pairs (`data`, `data_len`)
and (`topic`, `topic_len`) are lists of bytes, the length being the length of
the list. -/
structure esp_mqtt_event_t where
  event_id : esp_mqtt_event_id_t
  data : List Nat
  topic : List Nat
  total_data_len : Nat
  current_data_offset : Nat
  error_handle : esp_mqtt_error_codes_t
  deriving DecidableEq, Repr

/-- Text built by `malloc_stringf` in the `MQTT_EVENT_ERROR` branch, kept as
the format chosen and its arguments. -/
inductive ErrorMessage
  | transport_error (sock_errno tls_last_esp_err tls_stack_err : Int)
  | connection_refused (connect_return_code : Nat)
  | unknown_error_type (error_type : Nat)
  deriving DecidableEq, Repr

/-- Events of the base `RE_MQTT_EVENTS` posted with `eventLoopPost`, with the
payload copied into the event loop. -/
inductive re_mqtt_event_id_t
  | RE_MQTT_ERROR (message : Option ErrorMessage)
  | RE_MQTT_ERROR_CLEAR
  | RE_MQTT_CONNECTED (data : re_mqtt_event_data_t)
  | RE_MQTT_CONN_LOST (data : re_mqtt_event_data_t)
  | RE_MQTT_CONN_FAILED (data : re_mqtt_event_data_t)
  | RE_MQTT_INCOMING_DATA (in_buffer : re_mqtt_incoming_data_t)
  | RE_MQTT_SERVER_PRIMARY
  | RE_MQTT_SERVER_RESERVED
  deriving DecidableEq, Repr

open re_mqtt_event_id_t

/-- Handlers registered by `mqttEventHandlerRegister`. -/
inductive HandlerId
  | RE_WIFI_EVENTS_ANY
  | RE_PING_MQTT1_AVAILABLE
  | RE_PING_MQTT1_UNAVAILABLE
  | RE_PING_MQTT2_AVAILABLE
  | RE_PING_MQTT2_UNAVAILABLE
  | RE_MQTT_SERVER_PRIMARY
  | RE_MQTT_SERVER_RESERVED
  deriving DecidableEq, Repr

/-- One call to an external collaborator, with the value it returned where the
code reads it.  A client handle is a number. -/
inductive Call
  | eventLoopPost (event : re_mqtt_event_id_t) (ret : Bool)
  | eventLoopPostSystem_RE_SYS_ERROR_SET
  | eventHandlerRegister_RE_TIME_EVERY_MINUTE
  | eventHandlerUnregister_RE_TIME_EVERY_MINUTE
  | eventHandlerRegister (handler : HandlerId) (ret : Bool)
  | esp_mqtt_client_init (mqttCfg : esp_mqtt_client_config_t) (ret : Option Nat)
  | esp_mqtt_client_register_event (client : Nat) (ret_ok : Bool)
  | esp_mqtt_client_start (client : Nat) (ret_ok : Bool)
  | esp_mqtt_client_stop (client : Nat) (ret_ok : Bool)
  | esp_mqtt_client_destroy (client : Nat) (ret_ok : Bool)
  | esp_mqtt_client_subscribe (client : Option Nat) (topic : String) (qos : Int) (msg_id : Int)
  | esp_mqtt_client_unsubscribe (client : Option Nat) (topic : String) (msg_id : Int)
  | esp_mqtt_client_publish (client : Option Nat) (topic : String) (payload : Option String)
      (len : Nat) (qos : Int) (retain : Bool) (msg_id : Int)
  | esp_mqtt_client_enqueue (client : Option Nat) (topic : String) (payload : Option String)
      (len : Nat) (qos : Int) (retain : Bool) (store : Bool) (msg_id : Int)
  | calloc (size : Nat) (ret_ok : Bool)
  | vTaskDelay (ms : Nat)
  | ledSysActivity
  deriving DecidableEq, Repr

/-- Answers of the external collaborators.  The call that becomes entry `n` of
the trace succeeds iff `ok n` (a handle or buffer is non-null, an `esp_err_t`
is `ESP_OK`, `eventLoopPost` returns `true`); `msg_id n` is the message id a
publish, enqueue, subscribe or unsubscribe call returns there, and `time n` is
what `time(nullptr)` returns when the trace has `n` entries. -/
structure Env where
  ok : Nat → Bool
  msg_id : Nat → Int
  time : Nat → Nat

/-- The module-level variables of `reMqtt.cpp`, the function-level `static`
buffer `in_buffer` of `mqttEventHandler`, and two pieces of bookkeeping:
`timeHandlerRegistered` tells whether the last call for `mqttTimeEventHandler`
was `eventHandlerRegister` (rather than `eventHandlerUnregister`), and `trace`
is the list of external calls made so far. -/
structure State where
  _mqttClient : Option Nat
  _mqttData : re_mqtt_event_data_t
  _mqttState : mqtt_client_state_t
  _mqttError : Bool
  _mqttBackToPrimarty : Nat
  _mqttTopicStatus : Option String
  _mqttInternetAvailable : Bool
  _mqttServer1Available : Bool
  _mqttPrimary : Bool
  _mqttServer2Available : Bool
  _mqttServer2Activate : Nat
  in_buffer : re_mqtt_incoming_data_t
  timeHandlerRegistered : Bool
  trace : List Call
  deriving DecidableEq, Repr

/-- The state at program start: the initialisers of the `static` variables. -/
def State.init : State :=
  { _mqttClient := none
    _mqttData := re_mqtt_event_data_t.zero
    _mqttState := MQTT_CLIENT_STOPPED
    _mqttError := false
    _mqttBackToPrimarty := 0
    _mqttTopicStatus := none
    _mqttInternetAvailable := false
    _mqttServer1Available := true
    _mqttPrimary := true
    _mqttServer2Available := true
    _mqttServer2Activate := 0
    in_buffer := re_mqtt_incoming_data_t.zero
    timeHandlerRegistered := false
    trace := [] }

/-! ## External calls -/

/-- Posts an event to the main event loop (`eventLoopPost(RE_MQTT_EVENTS, ...)`). -/
def eventLoopPost (env : Env) (event : re_mqtt_event_id_t) (s : State) : Bool × State :=
  (env.ok s.trace.length,
    { s with trace := s.trace ++ [Call.eventLoopPost event (env.ok s.trace.length)] })

/-- The call `eventLoopPostSystem(RE_SYS_ERROR, RE_SYS_SET, false)`. -/
def eventLoopPostSystem (s : State) : State :=
  { s with trace := s.trace ++ [Call.eventLoopPostSystem_RE_SYS_ERROR_SET] }

/-- The call `ledSysActivity()`. -/
def ledSysActivity (s : State) : State :=
  { s with trace := s.trace ++ [Call.ledSysActivity] }

/-- The call `vTaskDelay(pdMS_TO_TICKS(ms))`. -/
def vTaskDelay (ms : Nat) (s : State) : State :=
  { s with trace := s.trace ++ [Call.vTaskDelay ms] }

/-- Registers `mqttTimeEventHandler` for `RE_TIME_EVERY_MINUTE`; the code
ignores the returned value. -/
def eventHandlerRegisterTime (s : State) : State :=
  { s with timeHandlerRegistered := true,
           trace := s.trace ++ [Call.eventHandlerRegister_RE_TIME_EVERY_MINUTE] }

/-- Unregisters `mqttTimeEventHandler`; the code ignores the returned value. -/
def eventHandlerUnregisterTime (s : State) : State :=
  { s with timeHandlerRegistered := false,
           trace := s.trace ++ [Call.eventHandlerUnregister_RE_TIME_EVERY_MINUTE] }

/-- Registers one of the handlers of `mqttEventHandlerRegister`. -/
def eventHandlerRegister (env : Env) (handler : HandlerId) (s : State) : Bool × State :=
  (env.ok s.trace.length,
    { s with trace := s.trace ++ [Call.eventHandlerRegister handler (env.ok s.trace.length)] })

/-- Creates a client: `esp_mqtt_client_init(&_mqttCfg)`.  A new handle is
numbered by the position of the call in the trace. -/
def esp_mqtt_client_init (env : Env) (mqttCfg : esp_mqtt_client_config_t) (s : State) :
    Option Nat × State :=
  let ret : Option Nat := if env.ok s.trace.length then some s.trace.length else none
  (ret, { s with trace := s.trace ++ [Call.esp_mqtt_client_init mqttCfg ret] })

/-- The call `esp_mqtt_client_register_event(client, MQTT_EVENT_ANY, ...) == ESP_OK`. -/
def esp_mqtt_client_register_event (env : Env) (client : Nat) (s : State) : Bool × State :=
  (env.ok s.trace.length,
    { s with trace := s.trace ++
        [Call.esp_mqtt_client_register_event client (env.ok s.trace.length)] })

/-- The call `esp_mqtt_client_start(client) == ESP_OK`. -/
def esp_mqtt_client_start (env : Env) (client : Nat) (s : State) : Bool × State :=
  (env.ok s.trace.length,
    { s with trace := s.trace ++ [Call.esp_mqtt_client_start client (env.ok s.trace.length)] })

/-- The call `esp_mqtt_client_stop(client) == ESP_OK`. -/
def esp_mqtt_client_stop (env : Env) (client : Nat) (s : State) : Bool × State :=
  (env.ok s.trace.length,
    { s with trace := s.trace ++ [Call.esp_mqtt_client_stop client (env.ok s.trace.length)] })

/-- The call `esp_mqtt_client_destroy(client) == ESP_OK`. -/
def esp_mqtt_client_destroy (env : Env) (client : Nat) (s : State) : Bool × State :=
  (env.ok s.trace.length,
    { s with trace := s.trace ++ [Call.esp_mqtt_client_destroy client (env.ok s.trace.length)] })

/-- The call `calloc(1, size)`: a zero-filled buffer of `size` bytes or null. -/
def calloc (env : Env) (size : Nat) (s : State) : Option (List Nat) × State :=
  (if env.ok s.trace.length then some (List.replicate size 0) else none,
    { s with trace := s.trace ++ [Call.calloc size (env.ok s.trace.length)] })

/-- The call `memcpy(dst + offset, src, src.length)` on a buffer `dst`.  Bytes
that would fall outside the buffer (undefined behaviour in C) are dropped. -/
def memcpy (dst : List Nat) (offset : Nat) (src : List Nat) : List Nat :=
  dst.take offset ++ src.take (dst.length - offset) ++ dst.drop (offset + src.length)

/-! ## Utilities -/

/-- Source: `mqttErrorEventSend`. -/
def mqttErrorEventSend (env : Env) (message : Option ErrorMessage) (s : State) : State :=
  (eventLoopPost env (RE_MQTT_ERROR message) { s with _mqttError := true }).2

/-- Source: `mqttErrorEventClear`. -/
def mqttErrorEventClear (env : Env) (s : State) : State :=
  if s._mqttError then
    (eventLoopPost env RE_MQTT_ERROR_CLEAR { s with _mqttError := false }).2
  else s

/-! ## Publish system status -/

/-- Source: `mqttTopicStatusCreate`. -/
def mqttTopicStatusCreate (cfg : Config) (primary : Bool) (s : State) : Option String × State :=
  (cfg.mqttGetTopicDevice1 primary, { s with _mqttTopicStatus := cfg.mqttGetTopicDevice1 primary })

/-- Source: `mqttTopicStatusGet`. -/
def mqttTopicStatusGet (cfg : Config) (s : State) : Option String × State :=
  if s._mqttTopicStatus.isNone && s._mqttData.connected then
    mqttTopicStatusCreate cfg s._mqttData.primary s
  else (s._mqttTopicStatus, s)

/-- Source: `mqttTopicStatusFree`. -/
def mqttTopicStatusFree (s : State) : State :=
  { s with _mqttTopicStatus := none }

/-! ## Task routines -/

/-- Source: `mqttSetConfigPrimary`. -/
def mqttSetConfigPrimary (cfg : Config) (s : State) : esp_mqtt_client_config_t × State :=
  let host := if cfg.CONFIG_MQTT1_TYPE = 2 then cfg.wifiGetGatewayIP else some cfg.CONFIG_MQTT1_HOST
  let port := if cfg.CONFIG_MQTT1_TLS_ENABLED then cfg.CONFIG_MQTT1_PORT_TLS
              else cfg.CONFIG_MQTT1_PORT_TCP
  let s := { s with _mqttData := { s._mqttData with
                primary := true, local_ := decide (cfg.CONFIG_MQTT1_TYPE ≠ 0),
                host := host, port := port } }
  if cfg.CONFIG_MQTT_STATUS_LWT then
    ({ host := host, port := port, transport_ssl := cfg.CONFIG_MQTT1_TLS_ENABLED,
       lwt_topic := (mqttTopicStatusCreate cfg true s).1 }, (mqttTopicStatusCreate cfg true s).2)
  else
    ({ host := host, port := port, transport_ssl := cfg.CONFIG_MQTT1_TLS_ENABLED,
       lwt_topic := none }, s)

/-- Source: `mqttSetConfigReserved`. -/
def mqttSetConfigReserved (cfg : Config) (s : State) : esp_mqtt_client_config_t × State :=
  let host := if cfg.CONFIG_MQTT2_TYPE = 2 then cfg.wifiGetGatewayIP else some cfg.CONFIG_MQTT2_HOST
  let port := if cfg.CONFIG_MQTT2_TLS_ENABLED then cfg.CONFIG_MQTT2_PORT_TLS
              else cfg.CONFIG_MQTT2_PORT_TCP
  let s := { s with _mqttData := { s._mqttData with
                primary := false, local_ := decide (cfg.CONFIG_MQTT2_TYPE ≠ 0),
                host := host, port := port } }
  if cfg.CONFIG_MQTT_STATUS_LWT then
    ({ host := host, port := port, transport_ssl := cfg.CONFIG_MQTT2_TLS_ENABLED,
       lwt_topic := (mqttTopicStatusCreate cfg false s).1 }, (mqttTopicStatusCreate cfg false s).2)
  else
    ({ host := host, port := port, transport_ssl := cfg.CONFIG_MQTT2_TLS_ENABLED,
       lwt_topic := none }, s)

/-- Source: `mqttTaskStop`. -/
def mqttTaskStop (cfg : Config) (env : Env) (s : State) : Bool × State :=
  match s._mqttClient with
  | some client =>
    if (esp_mqtt_client_destroy env client s).1 then
      let s1 := (esp_mqtt_client_destroy env client s).2
      let s2 := { s1 with
        _mqttClient := none
        _mqttState := MQTT_CLIENT_STOPPED
        _mqttData := { s1._mqttData with connected := false, conn_attempt := 0, host := none } }
      (true, if cfg.CONFIG_MQTT_STATUS_LWT || cfg.CONFIG_MQTT_STATUS_ONLINE
             then mqttTopicStatusFree s2 else s2)
    else
      (false, eventLoopPostSystem (esp_mqtt_client_destroy env client s).2)
  | none => (false, s)

/-- Source: `mqttTaskSuspend`. -/
def mqttTaskSuspend (env : Env) (s : State) : Bool × State :=
  match s._mqttClient with
  | some client =>
    if (esp_mqtt_client_stop env client s).1 then
      (true, { (esp_mqtt_client_stop env client s).2 with _mqttState := MQTT_CLIENT_SUSPENDED })
    else
      (false, eventLoopPostSystem (esp_mqtt_client_stop env client s).2)
  | none => (false, s)

/-- Source: `mqttTaskResume`. -/
def mqttTaskResume (env : Env) (s : State) : Bool × State :=
  match s._mqttClient with
  | some client =>
    if (esp_mqtt_client_start env client s).1 then
      (true, { (esp_mqtt_client_start env client s).2 with _mqttState := MQTT_CLIENT_STARTED })
    else
      (false, eventLoopPostSystem (esp_mqtt_client_start env client s).2)
  | none => (false, s)

/-- The part of `mqttStart` after the client has been created: the second and
third `START_CHECK`. -/
def mqttStart_launch (env : Env) (client : Nat) (s : State) : Bool × State :=
  if (esp_mqtt_client_register_event env client s).1 then
    let s1 := (esp_mqtt_client_register_event env client s).2
    if (esp_mqtt_client_start env client s1).1 then
      (true, { (esp_mqtt_client_start env client s1).2 with _mqttState := MQTT_CLIENT_STARTED })
    else
      (false, eventLoopPostSystem (esp_mqtt_client_start env client s1).2)
  else
    (false, eventLoopPostSystem (esp_mqtt_client_register_event env client s).2)

/-- The first part of `mqttStart` when no client exists: the state is set to
stopped, `_mqttData` is zeroed, and the configuration of the selected slot is
written into `_mqttCfg`. -/
def mqttStart_configure (cfg : Config) (s : State) : esp_mqtt_client_config_t × State :=
  if s._mqttPrimary then
    mqttSetConfigPrimary cfg
      { s with _mqttState := MQTT_CLIENT_STOPPED, _mqttData := re_mqtt_event_data_t.zero }
  else
    mqttSetConfigReserved cfg
      { s with _mqttState := MQTT_CLIENT_STOPPED, _mqttData := re_mqtt_event_data_t.zero }

/-- Source: `mqttStart` (with the macro `START_CHECK` expanded). -/
def mqttStart (cfg : Config) (env : Env) (s : State) : Bool × State :=
  if s._mqttClient.isSome then
    mqttTaskStop cfg env s
  else
    let c := mqttStart_configure cfg s
    let r := esp_mqtt_client_init env c.1 c.2
    match r.1 with
    | none => (false, eventLoopPostSystem { r.2 with _mqttClient := none })
    | some client => mqttStart_launch env client { r.2 with _mqttClient := some client }

/-! ## Server selection -/

/-- Source: `mqttServer1isLocal`. -/
def mqttServer1isLocal (cfg : Config) : Bool :=
  decide (cfg.CONFIG_MQTT1_TYPE > 0)

/-- Source: `mqttServer1Enabled`. -/
def mqttServer1Enabled (cfg : Config) (s : State) : Bool :=
  s._mqttServer1Available && (s._mqttInternetAvailable || mqttServer1isLocal cfg)

/-- Source: `mqttServer2isLocal`. -/
def mqttServer2isLocal (cfg : Config) : Bool :=
  decide (cfg.CONFIG_MQTT2_TYPE > 0)

/-- Source: `mqttServer2Enabled`. -/
def mqttServer2Enabled (cfg : Config) (s : State) : Bool :=
  s._mqttServer2Available && (s._mqttInternetAvailable || mqttServer2isLocal cfg)

/-- The block guarded by `CONFIG_MQTT_BACK_TO_PRIMARY_TIME_MINUTES > 0` in
`mqttServer1Start` and `mqttServer1Select`: zero the counter, unregister the
tick handler. -/
def backToPrimaryCancel (cfg : Config) (s : State) : State :=
  if cfg.CONFIG_MQTT_BACK_TO_PRIMARY_TIME_MINUTES > 0 then
    eventHandlerUnregisterTime { s with _mqttBackToPrimarty := 0 }
  else s

/-- The block guarded by `CONFIG_MQTT_BACK_TO_PRIMARY_TIME_MINUTES > 0` in
`mqttServer2Start` and `mqttServer2Select`: zero the counter, register the
tick handler. -/
def backToPrimaryArm (cfg : Config) (s : State) : State :=
  if cfg.CONFIG_MQTT_BACK_TO_PRIMARY_TIME_MINUTES > 0 then
    eventHandlerRegisterTime { s with _mqttBackToPrimarty := 0 }
  else s

/-- Source: `mqttServer1Start`. -/
def mqttServer1Start (cfg : Config) (env : Env) (s : State) : Bool × State :=
  mqttStart cfg env
    (backToPrimaryCancel cfg { s with _mqttPrimary := true, _mqttServer2Activate := 0 })

/-- Source: `mqttServer2Start`. -/
def mqttServer2Start (cfg : Config) (env : Env) (s : State) : Bool × State :=
  mqttStart cfg env
    (backToPrimaryArm cfg
      { s with _mqttPrimary := false, _mqttServer2Activate := env.time s.trace.length })

/-- Source: `mqttServer1Select`. -/
def mqttServer1Select (cfg : Config) (env : Env) (s : State) : Bool × State :=
  eventLoopPost env RE_MQTT_SERVER_PRIMARY
    (backToPrimaryCancel cfg { s with _mqttPrimary := true, _mqttServer2Activate := 0 })

/-- Source: `mqttServer2Select`. -/
def mqttServer2Select (cfg : Config) (env : Env) (s : State) : Bool × State :=
  eventLoopPost env RE_MQTT_SERVER_RESERVED
    (backToPrimaryArm cfg
      { s with _mqttPrimary := false, _mqttServer2Activate := env.time s.trace.length })

/-- Source: `mqttServer1Acivate`. -/
def mqttServer1Acivate (cfg : Config) (env : Env) (s : State) : Bool × State :=
  match s._mqttState with
  | MQTT_CLIENT_STOPPED => mqttServer1Start cfg env s
  | MQTT_CLIENT_STARTED =>
    if !s._mqttPrimary then mqttServer1Select cfg env s else (false, s)
  | MQTT_CLIENT_SUSPENDED =>
    if s._mqttPrimary then mqttTaskResume env s else mqttServer1Select cfg env s

/-- Source: `mqttServer2Acivate`. -/
def mqttServer2Acivate (cfg : Config) (env : Env) (s : State) : Bool × State :=
  match s._mqttState with
  | MQTT_CLIENT_STOPPED => mqttServer2Start cfg env s
  | MQTT_CLIENT_STARTED =>
    if s._mqttPrimary then mqttServer2Select cfg env s else (false, s)
  | MQTT_CLIENT_SUSPENDED =>
    if !s._mqttPrimary then mqttTaskResume env s else mqttServer2Select cfg env s

/-- Source: `mqttServerSelectAuto` (the variant compiled when
`CONFIG_MQTT2_TYPE` is defined). -/
def mqttServerSelectAuto (cfg : Config) (env : Env) (s : State) : Bool × State :=
  if mqttServer1Enabled cfg s then
    mqttServer1Acivate cfg env s
  else if mqttServer2Enabled cfg s then
    mqttServer2Acivate cfg env s
  else if s._mqttState = MQTT_CLIENT_STARTED then
    mqttTaskSuspend env s
  else (false, s)

/-- Source: `mqttServer2SetAvailable`. -/
def mqttServer2SetAvailable (cfg : Config) (env : Env) (newAvailable : Bool) (s : State) :
    Bool × State :=
  if s._mqttServer2Available != newAvailable then
    mqttServerSelectAuto cfg env { s with _mqttServer2Available := newAvailable }
  else (false, s)

/-- Source: `mqttServer1SetAvailable`. -/
def mqttServer1SetAvailable (cfg : Config) (env : Env) (newAvailable : Bool) (s : State) :
    Bool × State :=
  if s._mqttServer1Available != newAvailable then
    mqttServerSelectAuto cfg env { s with _mqttServer1Available := newAvailable }
  else (false, s)

/-- Source: `mqttServerSelectInet`. -/
def mqttServerSelectInet (cfg : Config) (env : Env) (internetAvailable : Bool) (s : State) :
    Bool × State :=
  if s._mqttInternetAvailable != internetAvailable then
    mqttServerSelectAuto cfg env { s with _mqttInternetAvailable := internetAvailable }
  else (false, s)

/-! ## Subscribe and publish -/

/-- Source: `mqttSubscribe`. -/
def mqttSubscribe (env : Env) (topic : String) (qos : Int) (s : State) : Bool × State :=
  if s._mqttData.connected then
    let s1 := { s with trace := s.trace ++
      [Call.esp_mqtt_client_subscribe s._mqttClient topic qos (env.msg_id s.trace.length)] }
    if env.msg_id s.trace.length = -1 then (false, mqttErrorEventSend env none s1)
    else (true, s1)
  else (false, s)

/-- Source: `mqttUnsubscribe`. -/
def mqttUnsubscribe (env : Env) (topic : String) (s : State) : Bool × State :=
  if s._mqttData.connected then
    let s1 := { s with trace := s.trace ++
      [Call.esp_mqtt_client_unsubscribe s._mqttClient topic (env.msg_id s.trace.length)] }
    if env.msg_id s.trace.length = -1 then (false, mqttErrorEventSend env none s1)
    else (true, s1)
  else (false, s)

/-- Source: `mqttPublish`.  A null `topic` or `payload` is `none`; `strlen`
is the number of bytes of the string.  The flags `free_topic` and
`free_payload` only release the caller's buffers. -/
def mqttPublish (env : Env) (topic : Option String) (payload : Option String) (qos : Int)
    (retained forced : Bool) (_free_topic _free_payload : Bool) (s : State) : Bool × State :=
  match topic with
  | none => (false, s)
  | some t =>
    if s._mqttData.connected then
      let len := match payload with
        | some p => p.utf8ByteSize
        | none => 0
      let msg_id := env.msg_id s.trace.length
      let call :=
        if forced then Call.esp_mqtt_client_publish s._mqttClient t payload len qos retained msg_id
        else Call.esp_mqtt_client_enqueue s._mqttClient t payload len qos retained true msg_id
      let s1 := { s with trace := s.trace ++ [call] }
      if msg_id = -1 then (false, mqttErrorEventSend env none s1)
      else (true, s1)
    else (false, s)

/-! ## Event callback -/

/-- The `MQTT_EVENT_DATA` branch of `mqttEventHandler`, entered after
`in_buffer` has been zeroed by the `memset` at the top of the handler. -/
def mqttEventHandler_DATA (env : Env) (data : esp_mqtt_event_t) (s : State) : State :=
  let s1 :=
    if data.current_data_offset = 0 then
      let r := calloc env (data.total_data_len + 1) s
      { r.2 with in_buffer := { r.2.in_buffer with data := r.1 } }
    else s
  match s1.in_buffer.data with
  | some buf =>
    let s2 := { s1 with in_buffer := { s1.in_buffer with
      data := some (memcpy buf data.current_data_offset data.data) } }
    if data.current_data_offset + data.data.length = data.total_data_len then
      let s3 := { s2 with in_buffer := { s2.in_buffer with
        topic := some data.topic
        topic_len := data.topic.length
        data_len := data.total_data_len } }
      ledSysActivity (eventLoopPost env (RE_MQTT_INCOMING_DATA s3.in_buffer) s3).2
    else s2
  | none => s1

/-- The `MQTT_EVENT_DISCONNECTED` branch of `mqttEventHandler`. -/
def mqttEventHandler_DISCONNECTED (cfg : Config) (env : Env) (s : State) : State :=
  let s1 := mqttErrorEventSend env none s
  if s1._mqttData.connected then
    let s2 := { s1 with _mqttData := { s1._mqttData with connected := false } }
    (eventLoopPost env (RE_MQTT_CONN_LOST s2._mqttData) s2).2
  else if s1._mqttData.conn_attempt = cfg.CONFIG_MQTT_CONNECT_ATTEMPTS then
    let s2 := (eventLoopPost env (RE_MQTT_CONN_FAILED s1._mqttData) s1).2
    if s2._mqttPrimary then (mqttServer1SetAvailable cfg env false s2).2
    else (mqttServer2SetAvailable cfg env false s2).2
  else s1

/-- The `MQTT_EVENT_CONNECTED` branch of `mqttEventHandler`. -/
def mqttEventHandler_CONNECTED (cfg : Config) (env : Env) (s : State) : State :=
  let s1 := { s with _mqttData := { s._mqttData with
    connected := true, conn_attempt := 0, err_codes := esp_mqtt_error_codes_t.zero } }
  let s2 := (eventLoopPost env (RE_MQTT_CONNECTED s1._mqttData) s1).2
  let s3 := mqttErrorEventClear env s2
  if cfg.CONFIG_MQTT_STATUS_ONLINE || cfg.CONFIG_MQTT_STATUS_ONLINE_SYSINFO then
    let t := mqttTopicStatusGet cfg s3
    (mqttPublish env t.1 (some cfg.CONFIG_MQTT_STATUS_ONLINE_PAYLOAD) cfg.CONFIG_MQTT_STATUS_QOS
      cfg.CONFIG_MQTT_STATUS_RETAINED true false false t.2).2
  else s3

/-- The `MQTT_EVENT_ERROR` branch of `mqttEventHandler`. -/
def mqttEventHandler_ERROR (env : Env) (data : esp_mqtt_event_t) (s : State) : State :=
  let s1 := { s with _mqttData := { s._mqttData with err_codes := data.error_handle } }
  let str_value :=
    if data.error_handle.error_type = MQTT_ERROR_TYPE_TCP_TRANSPORT then
      ErrorMessage.transport_error data.error_handle.esp_transport_sock_errno
        data.error_handle.esp_tls_last_esp_err data.error_handle.esp_tls_stack_err
    else if data.error_handle.error_type = MQTT_ERROR_TYPE_CONNECTION_REFUSED then
      ErrorMessage.connection_refused data.error_handle.connect_return_code
    else ErrorMessage.unknown_error_type data.error_handle.error_type
  ledSysActivity (mqttErrorEventSend env (some str_value) s1)

/-- Source: `mqttEventHandler`.  The `static` buffer `in_buffer` is zeroed by
the `memset` at the top of every call. -/
def mqttEventHandler (cfg : Config) (env : Env) (data : esp_mqtt_event_t) (s : State) : State :=
  let s0 := { s with in_buffer := re_mqtt_incoming_data_t.zero }
  match data.event_id with
  | MQTT_EVENT_BEFORE_CONNECT =>
    ledSysActivity { s0 with _mqttData := { s0._mqttData with
      conn_attempt := (s0._mqttData.conn_attempt + 1) % 2 ^ cfg.conn_attempt_bits } }
  | MQTT_EVENT_CONNECTED => mqttEventHandler_CONNECTED cfg env s0
  | MQTT_EVENT_DISCONNECTED => mqttEventHandler_DISCONNECTED cfg env s0
  | MQTT_EVENT_SUBSCRIBED => ledSysActivity (mqttErrorEventClear env s0)
  | MQTT_EVENT_UNSUBSCRIBED => ledSysActivity (mqttErrorEventClear env s0)
  | MQTT_EVENT_PUBLISHED => ledSysActivity (mqttErrorEventClear env s0)
  | MQTT_EVENT_DATA => mqttEventHandler_DATA env data s0
  | MQTT_EVENT_ERROR => mqttEventHandler_ERROR env data s0
  | MQTT_EVENT_DELETED => s0

/-! ## Event handlers of the main loop -/

/-- Identifiers of `RE_WIFI_EVENTS` the handler distinguishes. -/
inductive re_wifi_event_id_t
  | RE_WIFI_STA_GOT_IP
  | RE_WIFI_STA_PING_OK
  | RE_WIFI_STA_PING_FAILED
  | RE_WIFI_STA_DISCONNECTED
  | RE_WIFI_STA_STOPPED
  | RE_WIFI_OTHER
  deriving DecidableEq, Repr

/-- Source: `mqttWiFiEventHandler`. -/
def mqttWiFiEventHandler (cfg : Config) (env : Env) (event_id : re_wifi_event_id_t) (s : State) :
    State :=
  match event_id with
  | .RE_WIFI_STA_GOT_IP => (mqttServerSelectInet cfg env false s).2
  | .RE_WIFI_STA_PING_OK => (mqttServerSelectInet cfg env true s).2
  | .RE_WIFI_STA_PING_FAILED => (mqttServerSelectInet cfg env false s).2
  | .RE_WIFI_STA_DISCONNECTED =>
    if s._mqttState = MQTT_CLIENT_STARTED then (mqttTaskSuspend env s).2 else s
  | .RE_WIFI_STA_STOPPED =>
    if s._mqttState = MQTT_CLIENT_STARTED then (mqttTaskSuspend env s).2 else s
  | .RE_WIFI_OTHER => s

/-- Source: `mqttSelfEventHandler`; `event_id` is the identifier of the handled
event of the base `RE_MQTT_EVENTS`. -/
def mqttSelfEventHandler (cfg : Config) (env : Env) (event_id : re_mqtt_event_id_t) (s : State) :
    State :=
  match event_id with
  | RE_MQTT_SERVER_PRIMARY => (mqttStart cfg env (vTaskDelay 1000 (mqttTaskStop cfg env s).2)).2
  | RE_MQTT_SERVER_RESERVED => (mqttStart cfg env (vTaskDelay 1000 (mqttTaskStop cfg env s).2)).2
  | _ => s

/-- Source: `mqttTimeEventHandler`, for the event id `RE_TIME_EVERY_MINUTE`
(compiled when `CONFIG_MQTT_BACK_TO_PRIMARY_TIME_MINUTES > 0`).  The counter is
a `uint32_t`. -/
def mqttTimeEventHandler (cfg : Config) (env : Env) (s : State) : State :=
  let s1 := { s with _mqttBackToPrimarty := (s._mqttBackToPrimarty + 1) % 2 ^ 32 }
  if s1._mqttBackToPrimarty ≥ cfg.CONFIG_MQTT_BACK_TO_PRIMARY_TIME_MINUTES then
    (mqttServer1SetAvailable cfg env true { s1 with _mqttBackToPrimarty := 0 }).2
  else s1

/-- Source: `mqttEventHandlerRegister`: the registrations are chained with
`&&`, so the first failure skips the rest. -/
def mqttEventHandlerRegister (cfg : Config) (env : Env) (s : State) : Bool × State :=
  let handlers : List HandlerId :=
    [HandlerId.RE_WIFI_EVENTS_ANY]
    ++ (if cfg.CONFIG_MQTT1_PING_CHECK
        then [HandlerId.RE_PING_MQTT1_AVAILABLE, HandlerId.RE_PING_MQTT1_UNAVAILABLE] else [])
    ++ (if cfg.CONFIG_MQTT2_PING_CHECK
        then [HandlerId.RE_PING_MQTT2_AVAILABLE, HandlerId.RE_PING_MQTT2_UNAVAILABLE] else [])
    ++ [HandlerId.RE_MQTT_SERVER_PRIMARY, HandlerId.RE_MQTT_SERVER_RESERVED]
  handlers.foldl
    (fun acc h => if acc.1 then eventHandlerRegister env h acc.2 else acc) (true, s)

/-- Source: `mqttTaskStart`. -/
def mqttTaskStart (cfg : Config) (env : Env) (createSuspended : Bool) (s : State) : Bool × State :=
  if createSuspended then mqttEventHandlerRegister cfg env s
  else mqttServerSelectAuto cfg env s

/-- Source: `mqttPing1EventHandler`; `available` tells `RE_PING_MQTT1_AVAILABLE`
from `RE_PING_MQTT1_UNAVAILABLE`. -/
def mqttPing1EventHandler (cfg : Config) (env : Env) (available : Bool) (s : State) : State :=
  (mqttServer1SetAvailable cfg env available s).2

/-- Source: `mqttPing2EventHandler`; `available` tells `RE_PING_MQTT2_AVAILABLE`
from `RE_PING_MQTT2_UNAVAILABLE`. -/
def mqttPing2EventHandler (cfg : Config) (env : Env) (available : Bool) (s : State) : State :=
  (mqttServer2SetAvailable cfg env available s).2

/-! ## Executions and trace observations -/

/-- An environment in which every external call succeeds. -/
def Env.allOk : Env :=
  { ok := fun _ => true, msg_id := fun n => n, time := fun _ => 0 }

/-- A sample configuration: a remote primary broker, a remote reserved broker,
return to primary after 5 minutes, 3 connection attempts. -/
def Config.sample : Config :=
  { CONFIG_MQTT1_TYPE := 0, CONFIG_MQTT2_TYPE := 0
    CONFIG_MQTT_BACK_TO_PRIMARY_TIME_MINUTES := 5
    CONFIG_MQTT_CONNECT_ATTEMPTS := 3
    CONFIG_MQTT1_HOST := "primary", CONFIG_MQTT2_HOST := "reserved"
    CONFIG_MQTT1_TLS_ENABLED := false, CONFIG_MQTT2_TLS_ENABLED := false
    CONFIG_MQTT1_PORT_TLS := 8883, CONFIG_MQTT1_PORT_TCP := 1883
    CONFIG_MQTT2_PORT_TLS := 8884, CONFIG_MQTT2_PORT_TCP := 1884
    CONFIG_MQTT_STATUS_LWT := false, CONFIG_MQTT_STATUS_ONLINE := false
    CONFIG_MQTT_STATUS_ONLINE_SYSINFO := false
    CONFIG_MQTT_STATUS_ONLINE_PAYLOAD := "online"
    CONFIG_MQTT_STATUS_QOS := 1, CONFIG_MQTT_STATUS_RETAINED := true
    CONFIG_MQTT1_PING_CHECK := false, CONFIG_MQTT2_PING_CHECK := false
    conn_attempt_bits := 8
    mqttGetTopicDevice1 := fun _ => none
    wifiGetGatewayIP := none }

/-- The events posted with `eventLoopPost`, in order. -/
def postedEvents (trace : List Call) : List re_mqtt_event_id_t :=
  trace.filterMap fun c =>
    match c with
    | Call.eventLoopPost e _ => some e
    | _ => none

/-- The completed messages posted as `RE_MQTT_INCOMING_DATA`, in order. -/
def incomingMessages (trace : List Call) : List re_mqtt_incoming_data_t :=
  trace.filterMap fun c =>
    match c with
    | Call.eventLoopPost (RE_MQTT_INCOMING_DATA m) _ => some m
    | _ => none

/-- Calls into the MQTT client library that act on the client's lifecycle. -/
def Call.isTransport : Call → Bool
  | Call.esp_mqtt_client_init _ _ => true
  | Call.esp_mqtt_client_register_event _ _ => true
  | Call.esp_mqtt_client_start _ _ => true
  | Call.esp_mqtt_client_stop _ _ => true
  | Call.esp_mqtt_client_destroy _ _ => true
  | Call.esp_mqtt_client_subscribe _ _ _ _ => true
  | Call.esp_mqtt_client_unsubscribe _ _ _ => true
  | Call.esp_mqtt_client_publish _ _ _ _ _ _ _ => true
  | Call.esp_mqtt_client_enqueue _ _ _ _ _ _ _ _ => true
  | _ => false

/-- The create and start calls made by `mqttStart` and `mqttTaskResume`. -/
def Call.isCreateOrStart : Call → Bool
  | Call.esp_mqtt_client_init _ _ => true
  | Call.esp_mqtt_client_register_event _ _ => true
  | Call.esp_mqtt_client_start _ _ => true
  | _ => false

/-- The `MQTT_EVENT_DATA` callback argument for one fragment. -/
def dataFragment (topic : List Nat) (total offset : Nat) (bytes : List Nat) : esp_mqtt_event_t :=
  { event_id := MQTT_EVENT_DATA, data := bytes, topic := topic, total_data_len := total,
    current_data_offset := offset, error_handle := esp_mqtt_error_codes_t.zero }

/-- Delivers the fragments of one message of `total` bytes as consecutive
`MQTT_EVENT_DATA` callbacks; each fragment comes with the topic its callback
carries, and `offset` is the offset of the first one. -/
def deliverFragments (cfg : Config) (env : Env) (total : Nat) :
    Nat → List (List Nat × List Nat) → State → State
  | _, [], s => s
  | offset, (topic, bytes) :: rest, s =>
    deliverFragments cfg env total (offset + bytes.length) rest
      (mqttEventHandler cfg env (dataFragment topic total offset bytes) s)

/-- A call to one of the three availability setters. -/
inductive SetterCall
  | server1 (newAvailable : Bool)
  | server2 (newAvailable : Bool)
  | inet (internetAvailable : Bool)
  deriving DecidableEq, Repr

/-- Runs one setter call. -/
def SetterCall.run (cfg : Config) (env : Env) : SetterCall → State → State
  | .server1 b, s => (mqttServer1SetAvailable cfg env b s).2
  | .server2 b, s => (mqttServer2SetAvailable cfg env b s).2
  | .inet b, s => (mqttServerSelectInet cfg env b s).2

/-- Runs a sequence of setter calls, first to last. -/
def runSetters (cfg : Config) (env : Env) (calls : List SetterCall) (s : State) : State :=
  calls.foldl (fun st c => c.run cfg env st) s

/-- The value passed by the latest `mqttServer1SetAvailable` call, or `dflt`. -/
def latestServer1 (dflt : Bool) (calls : List SetterCall) : Bool :=
  calls.foldl (fun acc c => match c with | .server1 b => b | _ => acc) dflt

/-- The value passed by the latest `mqttServer2SetAvailable` call, or `dflt`. -/
def latestServer2 (dflt : Bool) (calls : List SetterCall) : Bool :=
  calls.foldl (fun acc c => match c with | .server2 b => b | _ => acc) dflt

/-- The value passed by the latest `mqttServerSelectInet` call, or `dflt`. -/
def latestInet (dflt : Bool) (calls : List SetterCall) : Bool :=
  calls.foldl (fun acc c => match c with | .inet b => b | _ => acc) dflt

/-- An entry point of the module, with its arguments. -/
inductive Op
  | mqttStart
  | mqttTaskStop
  | mqttTaskSuspend
  | mqttTaskResume
  | mqttTaskStart (createSuspended : Bool)
  | mqttServerSelectAuto
  | mqttServer1SetAvailable (newAvailable : Bool)
  | mqttServer2SetAvailable (newAvailable : Bool)
  | mqttServerSelectInet (internetAvailable : Bool)
  | mqttSelfEventHandler (event_id : re_mqtt_event_id_t)
  | mqttTimeEventHandler
  | mqttWiFiEventHandler (event_id : re_wifi_event_id_t)
  | mqttEventHandler (data : esp_mqtt_event_t)
  | mqttSubscribe (topic : String) (qos : Int)
  | mqttUnsubscribe (topic : String)
  | mqttPublish (topic payload : Option String) (qos : Int) (retained forced : Bool)
  deriving DecidableEq, Repr

/-- Runs one entry point. -/
def Op.run (cfg : Config) (env : Env) : Op → State → State
  | .mqttStart, s => (ReMqtt.mqttStart cfg env s).2
  | .mqttTaskStop, s => (ReMqtt.mqttTaskStop cfg env s).2
  | .mqttTaskSuspend, s => (ReMqtt.mqttTaskSuspend env s).2
  | .mqttTaskResume, s => (ReMqtt.mqttTaskResume env s).2
  | .mqttTaskStart b, s => (ReMqtt.mqttTaskStart cfg env b s).2
  | .mqttServerSelectAuto, s => (ReMqtt.mqttServerSelectAuto cfg env s).2
  | .mqttServer1SetAvailable b, s => (ReMqtt.mqttServer1SetAvailable cfg env b s).2
  | .mqttServer2SetAvailable b, s => (ReMqtt.mqttServer2SetAvailable cfg env b s).2
  | .mqttServerSelectInet b, s => (ReMqtt.mqttServerSelectInet cfg env b s).2
  | .mqttSelfEventHandler e, s => ReMqtt.mqttSelfEventHandler cfg env e s
  | .mqttTimeEventHandler, s => ReMqtt.mqttTimeEventHandler cfg env s
  | .mqttWiFiEventHandler e, s => ReMqtt.mqttWiFiEventHandler cfg env e s
  | .mqttEventHandler d, s => ReMqtt.mqttEventHandler cfg env d s
  | .mqttSubscribe t q, s => (ReMqtt.mqttSubscribe env t q s).2
  | .mqttUnsubscribe t, s => (ReMqtt.mqttUnsubscribe env t s).2
  | .mqttPublish t p q r f, s => (ReMqtt.mqttPublish env t p q r f false false s).2

/-- Runs a sequence of entry points, first to last: one execution. -/
def runOps (cfg : Config) (env : Env) (ops : List Op) (s : State) : State :=
  ops.foldl (fun st op => op.run cfg env st) s

/-- Replays one call against the set of live client handles (at most one):
`none` once the call order has been broken.  A create needs no live handle;
register, start, stop and destroy need their argument to be the live handle;
a successful destroy ends the handle's life. -/
def callOrderStep (live : Option (Option Nat)) (c : Call) : Option (Option Nat) :=
  match live with
  | none => none
  | some l =>
    match c with
    | Call.esp_mqtt_client_init _ ret => if l.isSome then none else some ret
    | Call.esp_mqtt_client_register_event h _ => if l = some h then some l else none
    | Call.esp_mqtt_client_start h _ => if l = some h then some l else none
    | Call.esp_mqtt_client_stop h _ => if l = some h then some l else none
    | Call.esp_mqtt_client_destroy h ok =>
      if l = some h then some (if ok then none else l) else none
    | _ => some l

/-- Replays a whole trace from the start of the program (no live handle):
`some l` when the call order was respected, `l` being the live handle. -/
def callOrder (trace : List Call) : Option (Option Nat) :=
  trace.foldl callOrderStep (some none)

/-- A register or start call that returned an error. -/
def Call.isFailedStart : Call → Bool
  | Call.esp_mqtt_client_register_event _ ok => !ok
  | Call.esp_mqtt_client_start _ ok => !ok
  | _ => false

/-- No register or start call of the trace returned an error. -/
def noFailedStart (trace : List Call) : Bool :=
  trace.all fun c => !c.isFailedStart

/-- The bookkeeping invariant of the controller: the call order of the trace
was respected, the handle the trace leaves live is `_mqttClient`, a state
other than stopped comes with a client, and a client comes with a state other
than stopped as long as no register or start call has failed. -/
def Good (s : State) : Prop :=
  callOrder s.trace = some s._mqttClient ∧
    (s._mqttState ≠ MQTT_CLIENT_STOPPED → s._mqttClient.isSome = true) ∧
    (noFailedStart s.trace = true → s._mqttClient.isSome = true →
      s._mqttState ≠ MQTT_CLIENT_STOPPED)

/-- A 12-byte message split into the fragments `[0,5)`, `[5,9)`, `[9,12)`, each
callback carrying the topic `[116, 47, 97]`. -/
def fragments12 : List (List Nat × List Nat) :=
  [([116, 47, 97], [1, 2, 3, 4, 5]), ([116, 47, 97], [6, 7, 8, 9]), ([116, 47, 97], [10, 11, 12])]

/-- The `MQTT_EVENT_CONNECTED` callback argument. -/
def connectedEvent : esp_mqtt_event_t :=
  { event_id := MQTT_EVENT_CONNECTED, data := [], topic := [], total_data_len := 0,
    current_data_offset := 0, error_handle := esp_mqtt_error_codes_t.zero }

/-- A session started and connected on the reserved broker: from the initial
state the primary broker is reported unavailable, the internet becomes
reachable (which starts the session on the reserved broker), and the client
reports the connection. -/
def connectedOnReserved : State :=
  runOps Config.sample Env.allOk
    [Op.mqttServer1SetAvailable false, Op.mqttServerSelectInet true,
     Op.mqttEventHandler connectedEvent] State.init

/-- The state in which `mqttServer1SetAvailable(true)` calls
`mqttServerSelectAuto` when the session is connected on the reserved broker:
the flag has just been written, both brokers are eligible. -/
def startedOnReserved : State :=
  { connectedOnReserved with _mqttServer1Available := true }

/-- An environment in which exactly the external call that becomes entry `k`
of the trace fails. -/
def Env.failAt (k : Nat) : Env :=
  { ok := fun n => decide (n ≠ k), msg_id := fun n => n, time := fun _ => 0 }

/-- The three inputs of the eligibility rule: the availability flags of the
primary and of the reserved broker, and the internet flag. -/
def availability (s : State) : Bool × Bool × Bool :=
  (s._mqttServer1Available, s._mqttServer2Available, s._mqttInternetAvailable)

/-- The two broker slots. -/
inductive Slot
  | Primary
  | Reserved
  deriving DecidableEq, Repr

/-- The slot recorded in `_mqttPrimary`. -/
def activeSlot (s : State) : Slot :=
  if s._mqttPrimary then Slot.Primary else Slot.Reserved

/-- The slot `mqttServerSelectAuto` acts for, by the two tests it makes in
order: the primary broker when it is enabled, else the reserved broker when it
is enabled, else none. -/
def selectedSlot (cfg : Config) (s : State) : Option Slot :=
  if mqttServer1Enabled cfg s then some Slot.Primary
  else if mqttServer2Enabled cfg s then some Slot.Reserved
  else none

/-- The client configuration `mqttStart` builds for a slot: what
`mqttSetConfigPrimary` or `mqttSetConfigReserved` writes into `_mqttCfg`. -/
def brokerProfile (cfg : Config) (slot : Slot) : esp_mqtt_client_config_t :=
  match slot with
  | Slot.Primary => (mqttSetConfigPrimary cfg State.init).1
  | Slot.Reserved => (mqttSetConfigReserved cfg State.init).1

/-- The event `mqttServer1Select` or `mqttServer2Select` posts for a slot. -/
def slotSelectedEvent (slot : Slot) : re_mqtt_event_id_t :=
  match slot with
  | Slot.Primary => RE_MQTT_SERVER_PRIMARY
  | Slot.Reserved => RE_MQTT_SERVER_RESERVED

/-- The external calls made between the state `s` and a later state `s'`. -/
def newCalls (s s' : State) : List Call :=
  s'.trace.drop s.trace.length

/-- The state in which `mqttServerSelectInet(true)` calls
`mqttServerSelectAuto` after start-up: stopped, both brokers flagged available,
internet reachable, so the primary broker is eligible. -/
def stoppedInternetUp : State :=
  { State.init with _mqttInternetAvailable := true }

/-- The same after the primary broker was reported unavailable: stopped, only
the reserved broker is eligible. -/
def stoppedPrimaryDown : State :=
  { runOps Config.sample Env.allOk [Op.mqttServer1SetAvailable false] State.init with
    _mqttInternetAvailable := true }

/-- A session started on the primary broker: from the initial state the
internet becomes reachable. -/
def startedOnPrimary : State :=
  runOps Config.sample Env.allOk [Op.mqttServerSelectInet true] State.init

/-- A session suspended on the reserved broker: the primary broker is reported
unavailable, the internet becomes reachable and is lost again. -/
def suspendedOnReserved : State :=
  runOps Config.sample Env.allOk
    [Op.mqttServer1SetAvailable false, Op.mqttServerSelectInet true,
     Op.mqttServerSelectInet false] State.init

/-- A session started on the primary broker by `mqttStart` from the initial
state, every external call succeeding. -/
def afterStart : State :=
  (mqttStart Config.sample Env.allOk State.init).2

/-- The C function `strlen` on a payload pointer that is not null, and 0 for a
null payload, as `mqttPublish` passes it to the client library. -/
def payloadLength (payload : Option String) : Nat :=
  match payload with
  | some p => p.utf8ByteSize
  | none => 0

/-- An environment in which every call succeeds except that publish, enqueue,
subscribe and unsubscribe return the error `-1`. -/
def Env.publishFails : Env :=
  { ok := fun _ => true, msg_id := fun _ => -1, time := fun _ => 0 }

/-- A callback argument that carries nothing but its event identifier. -/
def plainEvent (event_id : esp_mqtt_event_id_t) : esp_mqtt_event_t :=
  { event_id := event_id, data := [], topic := [], total_data_len := 0,
    current_data_offset := 0, error_handle := esp_mqtt_error_codes_t.zero }

/-- The external calls the failover routines make: the lifecycle calls of the
client library, the system error, the registration of the tick handler, the
delay of the switch handler, and the two slot-selected events. -/
def Call.isFailoverCall : Call → Bool
  | Call.esp_mqtt_client_init _ _ => true
  | Call.esp_mqtt_client_register_event _ _ => true
  | Call.esp_mqtt_client_start _ _ => true
  | Call.esp_mqtt_client_stop _ _ => true
  | Call.esp_mqtt_client_destroy _ _ => true
  | Call.eventLoopPostSystem_RE_SYS_ERROR_SET => true
  | Call.eventHandlerRegister_RE_TIME_EVERY_MINUTE => true
  | Call.eventHandlerUnregister_RE_TIME_EVERY_MINUTE => true
  | Call.vTaskDelay _ => true
  | Call.eventLoopPost RE_MQTT_SERVER_PRIMARY _ => true
  | Call.eventLoopPost RE_MQTT_SERVER_RESERVED _ => true
  | _ => false

/-- A step of the failover machinery from `s` to `s'`: the error latch is
untouched and the trace grows by failover calls only. -/
def FailoverStep (s s' : State) : Prop :=
  s'._mqttError = s._mqttError
    ∧ ∃ l, s'.trace = s.trace ++ l ∧ l.all Call.isFailoverCall = true

/-- Tells the `RE_MQTT_ERROR` events. -/
def re_mqtt_event_id_t.isError : re_mqtt_event_id_t → Bool
  | RE_MQTT_ERROR _ => true
  | _ => false

/-- Tells the `RE_MQTT_ERROR_CLEAR` events. -/
def re_mqtt_event_id_t.isErrorClear : re_mqtt_event_id_t → Bool
  | RE_MQTT_ERROR_CLEAR => true
  | _ => false

/-- Tells the `RE_MQTT_CONNECTED` events. -/
def re_mqtt_event_id_t.isConnected : re_mqtt_event_id_t → Bool
  | RE_MQTT_CONNECTED _ => true
  | _ => false

/-- Tells the `RE_MQTT_CONN_LOST` events. -/
def re_mqtt_event_id_t.isConnLost : re_mqtt_event_id_t → Bool
  | RE_MQTT_CONN_LOST _ => true
  | _ => false

/-- Tells the `RE_MQTT_CONN_FAILED` events. -/
def re_mqtt_event_id_t.isConnFailed : re_mqtt_event_id_t → Bool
  | RE_MQTT_CONN_FAILED _ => true
  | _ => false

/-- The state `mqttEventHandler` has reached in its `MQTT_EVENT_DISCONNECTED`
branch when it is about to mark the active broker unavailable: `in_buffer`
zeroed, the error event and `RE_MQTT_CONN_FAILED` posted. -/
def exhaustedState (env : Env) (s : State) : State :=
  (eventLoopPost env (RE_MQTT_CONN_FAILED s._mqttData)
    (mqttErrorEventSend env none { s with in_buffer := re_mqtt_incoming_data_t.zero })).2

/-- A session started on the primary broker whose three connection attempts
(the configured maximum of `Config.sample`) have been announced and none has
connected. -/
def threeAttempts : State :=
  runOps Config.sample Env.allOk
    [Op.mqttServerSelectInet true, Op.mqttEventHandler (plainEvent MQTT_EVENT_BEFORE_CONNECT),
     Op.mqttEventHandler (plainEvent MQTT_EVENT_BEFORE_CONNECT),
     Op.mqttEventHandler (plainEvent MQTT_EVENT_BEFORE_CONNECT)] State.init

/-- The session connected on the reserved broker after one `MQTT_EVENT_ERROR`
callback: the error latch is set. -/
def latchedConnected : State :=
  mqttEventHandler Config.sample Env.allOk (plainEvent MQTT_EVENT_ERROR) connectedOnReserved

/-- A step from `s` to `s'` that does not clear the error latch: a latch that
was set is still set, and no `RE_MQTT_ERROR_CLEAR` event is posted. -/
def KeepsLatch (s s' : State) : Prop :=
  (s._mqttError = true → s'._mqttError = true)
    ∧ ∃ l, s'.trace = s.trace ++ l
        ∧ (postedEvents l).filter re_mqtt_event_id_t.isErrorClear = []

/-- The callbacks after which `mqttEventHandler` calls `mqttErrorEventClear`:
connected, subscribed, unsubscribed, published. -/
def Op.isClearingCallback : Op → Bool
  | Op.mqttEventHandler data =>
    match data.event_id with
    | MQTT_EVENT_CONNECTED => true
    | MQTT_EVENT_SUBSCRIBED => true
    | MQTT_EVENT_UNSUBSCRIBED => true
    | MQTT_EVENT_PUBLISHED => true
    | _ => false
  | _ => false

/-- The state `mqttEventHandler` has reached in its `MQTT_EVENT_CONNECTED`
branch after `mqttErrorEventClear`, before the optional publication of the
online status: `in_buffer` zeroed, the session marked connected with the
attempt counter and the error snapshot zeroed, `RE_MQTT_CONNECTED` posted, the
error latch cleared. -/
def connectedState (env : Env) (s : State) : State :=
  mqttErrorEventClear env
    (eventLoopPost env
      (RE_MQTT_CONNECTED { s._mqttData with
        connected := true, conn_attempt := 0, err_codes := esp_mqtt_error_codes_t.zero })
      { s with
        in_buffer := re_mqtt_incoming_data_t.zero
        _mqttData := { s._mqttData with
          connected := true, conn_attempt := 0, err_codes := esp_mqtt_error_codes_t.zero } }).2

/-- Delivers `n` consecutive `MQTT_EVENT_BEFORE_CONNECT` callbacks. -/
def beforeConnects (cfg : Config) (env : Env) (n : Nat) (s : State) : State :=
  runOps cfg env (List.replicate n (Op.mqttEventHandler (plainEvent MQTT_EVENT_BEFORE_CONNECT))) s

/-- The bookkeeping of the return-to-primary timer: the selected slot, whether
the tick handler is registered, and the minute counter. -/
def timerFields (s : State) : Bool × Bool × Nat :=
  (s._mqttPrimary, s.timeHandlerRegistered, s._mqttBackToPrimarty)

/-- The timer invariant: while the primary slot is selected, and in a build
without return-to-primary time, the tick handler is not registered. -/
def TimerInv (cfg : Config) (s : State) : Prop :=
  (s._mqttPrimary = true ∨ cfg.CONFIG_MQTT_BACK_TO_PRIMARY_TIME_MINUTES = 0) →
    s.timeHandlerRegistered = false

/-- A step that keeps the timer bookkeeping sound: the timer invariant is
kept, and a counter at 0 stays at 0. -/
def TimerStep (cfg : Config) (s s' : State) : Prop :=
  (TimerInv cfg s → TimerInv cfg s') ∧ (s._mqttBackToPrimarty = 0 → s'._mqttBackToPrimarty = 0)

/-- Delivers `k` consecutive `RE_TIME_EVERY_MINUTE` events to
`mqttTimeEventHandler`. -/
def ticks (cfg : Config) (env : Env) (k : Nat) (s : State) : State :=
  runOps cfg env (List.replicate k Op.mqttTimeEventHandler) s

/-- A session suspended by a link-down signal while the primary broker stays
eligible: the internet becomes reachable (the session starts on the primary
broker), then the station disconnects. -/
def suspendedByLinkDown : State :=
  runOps Config.sample Env.allOk
    [Op.mqttServerSelectInet true,
     Op.mqttWiFiEventHandler re_wifi_event_id_t.RE_WIFI_STA_DISCONNECTED] State.init

/-- Whether the session already is where `mqttServerSelectAuto` wants it:
started on the slot it acts for, or not started when no broker is eligible. -/
def settled (cfg : Config) (s : State) : Bool :=
  match selectedSlot cfg s with
  | some Y => decide (s._mqttState = MQTT_CLIENT_STARTED) && decide (activeSlot s = Y)
  | none => decide (s._mqttState ≠ MQTT_CLIENT_STARTED)

/-- The callbacks of a 12-byte message delivered as the fragments `[0,5)`,
`[5,9)`, `[9,12)`. -/
def callbacks12 : List esp_mqtt_event_t :=
  [dataFragment [116, 47, 97] 12 0 [1, 2, 3, 4, 5], dataFragment [116, 47, 97] 12 5 [6, 7, 8, 9],
   dataFragment [116, 47, 97] 12 9 [10, 11, 12]]

/-- An environment in which every external call fails. -/
def Env.allFail : Env :=
  { ok := fun _ => false, msg_id := fun _ => -1, time := fun _ => 0 }

/-- Source: `mqttStart` as compiled when `CONFIG_MQTT2_TYPE` is not defined:
the configuration is always that of the primary broker. -/
def SingleBroker.mqttStart (cfg : Config) (env : Env) (s : State) : Bool × State :=
  if s._mqttClient.isSome then
    mqttTaskStop cfg env s
  else
    let c := mqttSetConfigPrimary cfg
      { s with _mqttState := MQTT_CLIENT_STOPPED, _mqttData := re_mqtt_event_data_t.zero }
    let r := esp_mqtt_client_init env c.1 c.2
    match r.1 with
    | none => (false, eventLoopPostSystem { r.2 with _mqttClient := none })
    | some client => mqttStart_launch env client { r.2 with _mqttClient := some client }

/-- Source: `mqttServerSelectAuto`, the variant compiled when
`CONFIG_MQTT2_TYPE` is not defined. -/
def SingleBroker.mqttServerSelectAuto (cfg : Config) (env : Env) (s : State) : Bool × State :=
  if mqttServer1Enabled cfg s then
    match s._mqttState with
    | MQTT_CLIENT_STOPPED => SingleBroker.mqttStart cfg env s
    | MQTT_CLIENT_STARTED => (false, s)
    | MQTT_CLIENT_SUSPENDED => mqttTaskResume env s
  else if s._mqttState = MQTT_CLIENT_STARTED then
    mqttTaskSuspend env s
  else (false, s)

/-- What the dual-broker `mqttServer1Start` does before it calls `mqttStart`,
none of it a call to the client library: it records the primary slot, zeroes
`_mqttServer2Activate` and, when a return-to-primary time is configured,
zeroes the counter and unregisters the tick handler.  `mqttServerSelectAuto`
runs it when the primary broker is enabled and the state is stopped. -/
def selectionBookkeeping (cfg : Config) (s : State) : State :=
  if mqttServer1Enabled cfg s && decide (s._mqttState = MQTT_CLIENT_STOPPED) then
    backToPrimaryCancel cfg { s with _mqttPrimary := true, _mqttServer2Activate := 0 }
  else s

/-- The calls to the MQTT client library made between `s` and `s'`. -/
def transportCalls (s s' : State) : List Call :=
  (newCalls s s').filter Call.isTransport

/-- The state after start-up in which the reserved broker has been reported
unavailable and the internet is reachable: stopped, primary slot selected. -/
def stoppedReservedDown : State :=
  { runOps Config.sample Env.allOk [Op.mqttServer2SetAvailable false] State.init with
    _mqttInternetAvailable := true }

/-- The sample configuration with a local primary broker (`CONFIG_MQTT1_TYPE`
1: a broker of the local network with a fixed address). -/
def Config.localPrimary : Config :=
  { Config.sample with CONFIG_MQTT1_TYPE := 1 }

/-- The state after start-up with a local primary broker when
`mqttTaskStart(true)` has only registered the handlers: stopped, the primary
broker flagged available, the internet flag false. -/
def handlersRegistered : State :=
  runOps Config.localPrimary Env.allOk [Op.mqttTaskStart true] State.init

/-- A session on a local primary broker, started by `mqttTaskStart(false)`
without internet, then suspended by a link-down signal. -/
def localSuspendedByLinkDown : State :=
  runOps Config.localPrimary Env.allOk
    [Op.mqttTaskStart false,
     Op.mqttWiFiEventHandler re_wifi_event_id_t.RE_WIFI_STA_DISCONNECTED] State.init

/-- The signals that change the session from `startedOnPrimary` on: the
primary broker is reported unavailable (a switch to the reserved broker is
requested by posting `RE_MQTT_SERVER_RESERVED`), then the internet is found
unreachable (no broker is eligible, the session is suspended). -/
def switchThenInternetLost : List Op :=
  [Op.mqttWiFiEventHandler re_wifi_event_id_t.RE_WIFI_STA_PING_OK,
   Op.mqttServer1SetAvailable false,
   Op.mqttWiFiEventHandler re_wifi_event_id_t.RE_WIFI_STA_PING_FAILED]

/-- The state after `switchThenInternetLost` once the switch handler has
processed the posted `RE_MQTT_SERVER_RESERVED` event. -/
def startedWithoutBroker : State :=
  runOps Config.sample Env.allOk
    (switchThenInternetLost ++ [Op.mqttSelfEventHandler RE_MQTT_SERVER_RESERVED]) State.init

/-- The entry points that deliver a signal: the three availability setters,
the Wi-Fi handler and the tick handler. -/
def Op.isSignal : Op → Bool
  | Op.mqttServer1SetAvailable _ => true
  | Op.mqttServer2SetAvailable _ => true
  | Op.mqttServerSelectInet _ => true
  | Op.mqttWiFiEventHandler _ => true
  | Op.mqttTimeEventHandler => true
  | _ => false

/-- The invariant the signals keep when every call succeeds: the bookkeeping
invariant, and a session that is not started whenever no broker is eligible. -/
def Quiet (cfg : Config) (s : State) : Prop :=
  Good s ∧ (selectedSlot cfg s = none → s._mqttState ≠ MQTT_CLIENT_STARTED)

/-! ## Lifecycle routines, case by case -/
theorem callOrder_append (t l : List Call) :
    callOrder (t ++ l) = l.foldl callOrderStep (callOrder t) := by
  simp [callOrder, List.foldl_append]

theorem mqttTaskStop_none (cfg : Config) (env : Env) (s : State) (h : s._mqttClient = none) :
    mqttTaskStop cfg env s = (false, s) := by
  simp [mqttTaskStop, h]

theorem mqttTaskStop_fail (cfg : Config) (env : Env) (s : State) (c : Nat)
    (h : s._mqttClient = some c) (hf : env.ok s.trace.length = false) :
    mqttTaskStop cfg env s = (false, { s with trace := s.trace ++
      [Call.esp_mqtt_client_destroy c false, Call.eventLoopPostSystem_RE_SYS_ERROR_SET] }) := by
  simp [mqttTaskStop, h, esp_mqtt_client_destroy, hf, eventLoopPostSystem]

theorem mqttTaskStop_ok (cfg : Config) (env : Env) (s : State) (c : Nat)
    (h : s._mqttClient = some c) (hf : env.ok s.trace.length = true) :
    mqttTaskStop cfg env s = (true, { s with
      _mqttClient := none
      _mqttState := MQTT_CLIENT_STOPPED
      _mqttData := { s._mqttData with connected := false, conn_attempt := 0, host := none }
      _mqttTopicStatus := if cfg.CONFIG_MQTT_STATUS_LWT || cfg.CONFIG_MQTT_STATUS_ONLINE
        then none else s._mqttTopicStatus
      trace := s.trace ++ [Call.esp_mqtt_client_destroy c true] }) := by
  simp only [mqttTaskStop, h, esp_mqtt_client_destroy, hf, eventLoopPostSystem, mqttTopicStatusFree]
  cases cfg.CONFIG_MQTT_STATUS_LWT <;> cases cfg.CONFIG_MQTT_STATUS_ONLINE <;> simp

theorem mqttTaskSuspend_none (env : Env) (s : State) (h : s._mqttClient = none) :
    mqttTaskSuspend env s = (false, s) := by
  simp [mqttTaskSuspend, h]

theorem mqttTaskSuspend_fail (env : Env) (s : State) (c : Nat)
    (h : s._mqttClient = some c) (hf : env.ok s.trace.length = false) :
    mqttTaskSuspend env s = (false, { s with trace := s.trace ++
      [Call.esp_mqtt_client_stop c false, Call.eventLoopPostSystem_RE_SYS_ERROR_SET] }) := by
  simp [mqttTaskSuspend, h, esp_mqtt_client_stop, hf, eventLoopPostSystem]

theorem mqttTaskSuspend_ok (env : Env) (s : State) (c : Nat)
    (h : s._mqttClient = some c) (hf : env.ok s.trace.length = true) :
    mqttTaskSuspend env s = (true, { s with
      _mqttState := MQTT_CLIENT_SUSPENDED
      trace := s.trace ++ [Call.esp_mqtt_client_stop c true] }) := by
  simp [mqttTaskSuspend, h, esp_mqtt_client_stop, hf]

theorem mqttTaskResume_none (env : Env) (s : State) (h : s._mqttClient = none) :
    mqttTaskResume env s = (false, s) := by
  simp [mqttTaskResume, h]

theorem mqttTaskResume_fail (env : Env) (s : State) (c : Nat)
    (h : s._mqttClient = some c) (hf : env.ok s.trace.length = false) :
    mqttTaskResume env s = (false, { s with trace := s.trace ++
      [Call.esp_mqtt_client_start c false, Call.eventLoopPostSystem_RE_SYS_ERROR_SET] }) := by
  simp [mqttTaskResume, h, esp_mqtt_client_start, hf, eventLoopPostSystem]

theorem mqttTaskResume_ok (env : Env) (s : State) (c : Nat)
    (h : s._mqttClient = some c) (hf : env.ok s.trace.length = true) :
    mqttTaskResume env s = (true, { s with
      _mqttState := MQTT_CLIENT_STARTED
      trace := s.trace ++ [Call.esp_mqtt_client_start c true] }) := by
  simp [mqttTaskResume, h, esp_mqtt_client_start, hf]

theorem mqttStart_configure_frame (cfg : Config) (s : State) :
    (mqttStart_configure cfg s).2 = { s with
      _mqttState := MQTT_CLIENT_STOPPED
      _mqttData := (mqttStart_configure cfg s).2._mqttData
      _mqttTopicStatus := (mqttStart_configure cfg s).2._mqttTopicStatus } := by
  unfold mqttStart_configure mqttSetConfigPrimary mqttSetConfigReserved mqttTopicStatusCreate
  cases s._mqttPrimary <;> cases cfg.CONFIG_MQTT_STATUS_LWT <;> simp

theorem mqttStart_some (cfg : Config) (env : Env) (s : State) (c : Nat)
    (h : s._mqttClient = some c) : mqttStart cfg env s = mqttTaskStop cfg env s := by
  simp [mqttStart, h]

/-- The outcome of `mqttStart` entered with no client, by the outcomes of the
create, register and start calls. -/
theorem mqttStart_none (cfg : Config) (env : Env) (s : State) (h : s._mqttClient = none) :
    mqttStart cfg env s =
      if env.ok s.trace.length then
        if env.ok (s.trace.length + 1) then
          if env.ok (s.trace.length + 2) then
            (true, { s with
              _mqttClient := some s.trace.length
              _mqttState := MQTT_CLIENT_STARTED
              _mqttData := (mqttStart_configure cfg s).2._mqttData
              _mqttTopicStatus := (mqttStart_configure cfg s).2._mqttTopicStatus
              trace := s.trace ++
                [Call.esp_mqtt_client_init (mqttStart_configure cfg s).1 (some s.trace.length),
                 Call.esp_mqtt_client_register_event s.trace.length true,
                 Call.esp_mqtt_client_start s.trace.length true] })
          else
            (false, { s with
              _mqttClient := some s.trace.length
              _mqttState := MQTT_CLIENT_STOPPED
              _mqttData := (mqttStart_configure cfg s).2._mqttData
              _mqttTopicStatus := (mqttStart_configure cfg s).2._mqttTopicStatus
              trace := s.trace ++
                [Call.esp_mqtt_client_init (mqttStart_configure cfg s).1 (some s.trace.length),
                 Call.esp_mqtt_client_register_event s.trace.length true,
                 Call.esp_mqtt_client_start s.trace.length false,
                 Call.eventLoopPostSystem_RE_SYS_ERROR_SET] })
        else
          (false, { s with
            _mqttClient := some s.trace.length
            _mqttState := MQTT_CLIENT_STOPPED
            _mqttData := (mqttStart_configure cfg s).2._mqttData
            _mqttTopicStatus := (mqttStart_configure cfg s).2._mqttTopicStatus
            trace := s.trace ++
              [Call.esp_mqtt_client_init (mqttStart_configure cfg s).1 (some s.trace.length),
               Call.esp_mqtt_client_register_event s.trace.length false,
               Call.eventLoopPostSystem_RE_SYS_ERROR_SET] })
      else
        (false, { s with
          _mqttClient := none
          _mqttState := MQTT_CLIENT_STOPPED
          _mqttData := (mqttStart_configure cfg s).2._mqttData
          _mqttTopicStatus := (mqttStart_configure cfg s).2._mqttTopicStatus
          trace := s.trace ++
            [Call.esp_mqtt_client_init (mqttStart_configure cfg s).1 none,
             Call.eventLoopPostSystem_RE_SYS_ERROR_SET] }) := by
  have hf := mqttStart_configure_frame cfg s
  simp only [mqttStart, h, Option.isSome_none, Bool.false_eq_true, if_false]
  generalize mqttStart_configure cfg s = c at hf ⊢
  rcases c with ⟨c1, ⟨c', d', st', e', b', t', i', a1', p', a2', act', buf', reg', tr'⟩⟩
  rcases s with ⟨c, d, st, e, b, t, i, a1, p, a2, act, buf, reg, tr⟩
  simp only [State.mk.injEq, true_and] at h hf
  obtain ⟨rfl, rfl, rfl, rfl, rfl, rfl, rfl, rfl, rfl, rfl, rfl, rfl⟩ := hf
  subst h
  cases hk : env.ok tr'.length <;> cases hk1 : env.ok (tr'.length + 1) <;>
    cases hk2 : env.ok (tr'.length + 2) <;>
    simp [mqttStart_launch, esp_mqtt_client_init, esp_mqtt_client_register_event,
      esp_mqtt_client_start, eventLoopPostSystem, hk, hk1, hk2]


/-! ## The bookkeeping invariant is kept by every entry point -/

theorem noFailedStart_append (t l : List Call) :
    noFailedStart (t ++ l) = (noFailedStart t && noFailedStart l) := by
  simp [noFailedStart, List.all_append]

theorem Good_mqttTaskStop (cfg : Config) (env : Env) (s : State) (hg : Good s) :
    Good (mqttTaskStop cfg env s).2 := by
  rcases hc : s._mqttClient with _ | c
  · rw [mqttTaskStop_none cfg env s hc]; exact hg
  · have h3 := hg.2.2
    rw [hc] at h3
    cases hk : env.ok s.trace.length
    · rw [mqttTaskStop_fail cfg env s c hc hk]
      simp only [Good, callOrder_append, hg.1, hc, noFailedStart_append]
      refine ⟨by simp [callOrderStep], fun _ => rfl, fun h _ => h3 ?_ rfl⟩
      simp only [Bool.and_eq_true] at h
      exact h.1
    · rw [mqttTaskStop_ok cfg env s c hc hk]
      simp [Good, callOrder_append, callOrderStep, hg.1, hc]

theorem Good_mqttTaskSuspend (env : Env) (s : State) (hg : Good s) :
    Good (mqttTaskSuspend env s).2 := by
  rcases hc : s._mqttClient with _ | c
  · rw [mqttTaskSuspend_none env s hc]; exact hg
  · have h3 := hg.2.2
    rw [hc] at h3
    cases hk : env.ok s.trace.length
    · rw [mqttTaskSuspend_fail env s c hc hk]
      simp only [Good, callOrder_append, hg.1, hc, noFailedStart_append]
      refine ⟨by simp [callOrderStep], fun _ => rfl, fun h _ => h3 ?_ rfl⟩
      simp only [Bool.and_eq_true] at h
      exact h.1
    · rw [mqttTaskSuspend_ok env s c hc hk]
      simp [Good, callOrder_append, callOrderStep, hg.1, hc]

theorem Good_mqttTaskResume (env : Env) (s : State) (hg : Good s) :
    Good (mqttTaskResume env s).2 := by
  rcases hc : s._mqttClient with _ | c
  · rw [mqttTaskResume_none env s hc]; exact hg
  · have h3 := hg.2.2
    rw [hc] at h3
    cases hk : env.ok s.trace.length
    · rw [mqttTaskResume_fail env s c hc hk]
      simp only [Good, callOrder_append, hg.1, hc, noFailedStart_append]
      refine ⟨by simp [callOrderStep], fun _ => rfl, fun h _ => h3 ?_ rfl⟩
      simp only [Bool.and_eq_true] at h
      exact h.1
    · rw [mqttTaskResume_ok env s c hc hk]
      simp [Good, callOrder_append, callOrderStep, hg.1, hc]

theorem Good_mqttStart (cfg : Config) (env : Env) (s : State) (hg : Good s) :
    Good (mqttStart cfg env s).2 := by
  rcases hc : s._mqttClient with _ | c
  · rw [mqttStart_none cfg env s hc]
    split_ifs <;>
      simp [Good, callOrder_append, callOrderStep, hg.1, hc, noFailedStart_append, noFailedStart,
        Call.isFailedStart]
  · rw [mqttStart_some cfg env s c hc]; exact Good_mqttTaskStop cfg env s hg

/-- Only the trace grows, by calls outside the client's lifecycle. -/
theorem Good_of_trace (s s' : State) (l : List Call) (hg : Good s)
    (ht : s'.trace = s.trace ++ l) (hl : ∀ c ∈ l, ∀ x, callOrderStep (some x) c = some x)
    (hc : s'._mqttClient = s._mqttClient) (hs : s'._mqttState = s._mqttState) : Good s' := by
  have key : ∀ (l : List Call) (x : Option Nat),
      (∀ c ∈ l, ∀ x, callOrderStep (some x) c = some x) →
      l.foldl callOrderStep (some x) = some x := by
    intro l
    induction l with
    | nil => intro x _; rfl
    | cons a l ih =>
      intro x h
      rw [List.foldl_cons, h a (List.mem_cons_self a l) x]
      exact ih x (fun c hc x => h c (List.mem_cons_of_mem a hc) x)
  refine ⟨?_, ?_, ?_⟩
  · rw [ht, callOrder_append, hg.1, key l _ hl, hc]
  · rw [hc, hs]; exact hg.2.1
  · rw [hc, hs, ht]
    intro hn
    exact hg.2.2 (by
      simp only [noFailedStart, List.all_append, Bool.and_eq_true] at hn
      exact hn.1)

theorem Good_append (s : State) (l : List Call) (hg : Good s)
    (hl : ∀ c ∈ l, ∀ x, callOrderStep (some x) c = some x) :
    Good { s with trace := s.trace ++ l } :=
  Good_of_trace s _ l hg rfl hl rfl rfl

theorem Good_eventLoopPost (env : Env) (e : re_mqtt_event_id_t) (s : State) (hg : Good s) :
    Good (eventLoopPost env e s).2 :=
  Good_append s _ hg (by simp [callOrderStep])

theorem Good_eventLoopPostSystem (s : State) (hg : Good s) : Good (eventLoopPostSystem s) :=
  Good_append s _ hg (by simp [callOrderStep])

theorem Good_ledSysActivity (s : State) (hg : Good s) : Good (ledSysActivity s) :=
  Good_append s _ hg (by simp [callOrderStep])

theorem Good_vTaskDelay (ms : Nat) (s : State) (hg : Good s) : Good (vTaskDelay ms s) :=
  Good_append s _ hg (by simp [callOrderStep])

theorem Good_eventHandlerRegister (env : Env) (h : HandlerId) (s : State) (hg : Good s) :
    Good (eventHandlerRegister env h s).2 :=
  Good_append s _ hg (by simp [callOrderStep])

theorem Good_backToPrimaryCancel (cfg : Config) (s : State) (hg : Good s) :
    Good (backToPrimaryCancel cfg s) := by
  unfold backToPrimaryCancel
  split
  · exact Good_of_trace s _ [Call.eventHandlerUnregister_RE_TIME_EVERY_MINUTE] hg rfl
      (by simp [callOrderStep]) rfl rfl
  · exact hg

theorem Good_backToPrimaryArm (cfg : Config) (s : State) (hg : Good s) :
    Good (backToPrimaryArm cfg s) := by
  unfold backToPrimaryArm
  split
  · exact Good_of_trace s _ [Call.eventHandlerRegister_RE_TIME_EVERY_MINUTE] hg rfl
      (by simp [callOrderStep]) rfl rfl
  · exact hg

theorem Good_mqttServer1Acivate (cfg : Config) (env : Env) (s : State) (hg : Good s) :
    Good (mqttServer1Acivate cfg env s).2 := by
  have h1 : Good (mqttServer1Start cfg env s).2 :=
    Good_mqttStart cfg env _ (Good_backToPrimaryCancel cfg _ hg)
  have h2 : Good (mqttServer1Select cfg env s).2 :=
    Good_eventLoopPost env _ _ (Good_backToPrimaryCancel cfg _ hg)
  have h3 := Good_mqttTaskResume env s hg
  unfold mqttServer1Acivate
  split
  · exact h1
  · split
    · exact h2
    · exact hg
  · split
    · exact h3
    · exact h2

theorem Good_mqttServer2Acivate (cfg : Config) (env : Env) (s : State) (hg : Good s) :
    Good (mqttServer2Acivate cfg env s).2 := by
  have h1 : Good (mqttServer2Start cfg env s).2 :=
    Good_mqttStart cfg env _ (Good_backToPrimaryArm cfg _ hg)
  have h2 : Good (mqttServer2Select cfg env s).2 :=
    Good_eventLoopPost env _ _ (Good_backToPrimaryArm cfg _ hg)
  have h3 := Good_mqttTaskResume env s hg
  unfold mqttServer2Acivate
  split
  · exact h1
  · split
    · exact h2
    · exact hg
  · split
    · exact h3
    · exact h2

theorem Good_mqttServerSelectAuto (cfg : Config) (env : Env) (s : State) (hg : Good s) :
    Good (mqttServerSelectAuto cfg env s).2 := by
  unfold mqttServerSelectAuto
  split
  · exact Good_mqttServer1Acivate cfg env s hg
  · split
    · exact Good_mqttServer2Acivate cfg env s hg
    · split
      · exact Good_mqttTaskSuspend env s hg
      · exact hg

theorem Good_mqttServer1SetAvailable (cfg : Config) (env : Env) (b : Bool) (s : State)
    (hg : Good s) : Good (mqttServer1SetAvailable cfg env b s).2 := by
  unfold mqttServer1SetAvailable
  split
  · exact Good_mqttServerSelectAuto cfg env _ hg
  · exact hg

theorem Good_mqttServer2SetAvailable (cfg : Config) (env : Env) (b : Bool) (s : State)
    (hg : Good s) : Good (mqttServer2SetAvailable cfg env b s).2 := by
  unfold mqttServer2SetAvailable
  split
  · exact Good_mqttServerSelectAuto cfg env _ hg
  · exact hg

theorem Good_mqttServerSelectInet (cfg : Config) (env : Env) (b : Bool) (s : State)
    (hg : Good s) : Good (mqttServerSelectInet cfg env b s).2 := by
  unfold mqttServerSelectInet
  split
  · exact Good_mqttServerSelectAuto cfg env _ hg
  · exact hg

theorem Good_mqttSelfEventHandler (cfg : Config) (env : Env) (e : re_mqtt_event_id_t)
    (s : State) (hg : Good s) : Good (mqttSelfEventHandler cfg env e s) := by
  have h := Good_mqttStart cfg env _ (Good_vTaskDelay 1000 _ (Good_mqttTaskStop cfg env s hg))
  unfold mqttSelfEventHandler
  split
  · exact h
  · exact h
  · exact hg

theorem Good_mqttTimeEventHandler (cfg : Config) (env : Env) (s : State) (hg : Good s) :
    Good (mqttTimeEventHandler cfg env s) := by
  unfold mqttTimeEventHandler
  dsimp only
  split
  · exact Good_mqttServer1SetAvailable cfg env true _ hg
  · exact hg

theorem Good_mqttWiFiEventHandler (cfg : Config) (env : Env) (e : re_wifi_event_id_t)
    (s : State) (hg : Good s) : Good (mqttWiFiEventHandler cfg env e s) := by
  have h1 := fun b => Good_mqttServerSelectInet cfg env b s hg
  have h2 := Good_mqttTaskSuspend env s hg
  unfold mqttWiFiEventHandler
  split
  · exact h1 _
  · exact h1 _
  · exact h1 _
  · split
    · exact h2
    · exact hg
  · split
    · exact h2
    · exact hg
  · exact hg


theorem Good_mqttErrorEventSend (env : Env) (m : Option ErrorMessage) (s : State) (hg : Good s) :
    Good (mqttErrorEventSend env m s) :=
  Good_eventLoopPost env _ _ hg

theorem Good_mqttErrorEventClear (env : Env) (s : State) (hg : Good s) :
    Good (mqttErrorEventClear env s) := by
  unfold mqttErrorEventClear
  split
  · exact Good_eventLoopPost env _ _ hg
  · exact hg

theorem Good_mqttSubscribe (env : Env) (t : String) (q : Int) (s : State) (hg : Good s) :
    Good (mqttSubscribe env t q s).2 := by
  have h1 : Good { s with trace := s.trace ++
      [Call.esp_mqtt_client_subscribe s._mqttClient t q (env.msg_id s.trace.length)] } :=
    Good_append s _ hg (by simp [callOrderStep])
  unfold mqttSubscribe
  dsimp only
  split
  · split
    · exact Good_mqttErrorEventSend env _ _ h1
    · exact h1
  · exact hg

theorem Good_mqttUnsubscribe (env : Env) (t : String) (s : State) (hg : Good s) :
    Good (mqttUnsubscribe env t s).2 := by
  have h1 : Good { s with trace := s.trace ++
      [Call.esp_mqtt_client_unsubscribe s._mqttClient t (env.msg_id s.trace.length)] } :=
    Good_append s _ hg (by simp [callOrderStep])
  unfold mqttUnsubscribe
  dsimp only
  split
  · split
    · exact Good_mqttErrorEventSend env _ _ h1
    · exact h1
  · exact hg

theorem Good_mqttPublish (env : Env) (t p : Option String) (q : Int) (r f ft fp : Bool)
    (s : State) (hg : Good s) : Good (mqttPublish env t p q r f ft fp s).2 := by
  unfold mqttPublish
  dsimp only
  split
  · exact hg
  · split
    · have h1 : ∀ c : Call, (∀ x, callOrderStep (some x) c = some x) →
          Good { s with trace := s.trace ++ [c] } :=
        fun c hc => Good_append s _ hg (by simpa using hc)
      split
      · exact Good_mqttErrorEventSend env _ _ (h1 _ (by split <;> simp [callOrderStep]))
      · exact h1 _ (by split <;> simp [callOrderStep])
    · exact hg

theorem Good_mqttTopicStatusGet (cfg : Config) (s : State) (hg : Good s) :
    Good (mqttTopicStatusGet cfg s).2 := by
  unfold mqttTopicStatusGet
  split
  · exact hg
  · exact hg

theorem Good_mqttEventHandler (cfg : Config) (env : Env) (d : esp_mqtt_event_t) (s : State)
    (hg : Good s) : Good (mqttEventHandler cfg env d s) := by
  unfold mqttEventHandler
  dsimp only
  split
  · exact Good_ledSysActivity _ hg
  · unfold mqttEventHandler_CONNECTED
    dsimp only
    have h3 : Good (mqttErrorEventClear env (eventLoopPost env (RE_MQTT_CONNECTED
        { s._mqttData with connected := true, conn_attempt := 0,
                           err_codes := esp_mqtt_error_codes_t.zero })
        { s with in_buffer := re_mqtt_incoming_data_t.zero, _mqttData := { s._mqttData with
            connected := true, conn_attempt := 0,
            err_codes := esp_mqtt_error_codes_t.zero } }).2) :=
      Good_mqttErrorEventClear env _ (Good_eventLoopPost env _ _ hg)
    split
    · exact Good_mqttPublish env _ _ _ _ _ _ _ _ (Good_mqttTopicStatusGet cfg _ h3)
    · exact h3
  · unfold mqttEventHandler_DISCONNECTED
    dsimp only
    have h1 : Good (mqttErrorEventSend env none
        { s with in_buffer := re_mqtt_incoming_data_t.zero }) :=
      Good_mqttErrorEventSend env _ _ hg
    split
    · exact Good_eventLoopPost env _ _ h1
    · split
      · split
        · exact Good_mqttServer1SetAvailable cfg env _ _ (Good_eventLoopPost env _ _ h1)
        · exact Good_mqttServer2SetAvailable cfg env _ _ (Good_eventLoopPost env _ _ h1)
      · exact h1
  · exact Good_ledSysActivity _ (Good_mqttErrorEventClear env _ hg)
  · exact Good_ledSysActivity _ (Good_mqttErrorEventClear env _ hg)
  · exact Good_ledSysActivity _ (Good_mqttErrorEventClear env _ hg)
  · unfold mqttEventHandler_DATA
    dsimp only
    have h1 : Good (if d.current_data_offset = 0 then
        { (calloc env (d.total_data_len + 1)
              { s with in_buffer := re_mqtt_incoming_data_t.zero }).2 with
          in_buffer := { (calloc env (d.total_data_len + 1)
              { s with in_buffer := re_mqtt_incoming_data_t.zero }).2.in_buffer with
            data := (calloc env (d.total_data_len + 1)
              { s with in_buffer := re_mqtt_incoming_data_t.zero }).1 } }
        else { s with in_buffer := re_mqtt_incoming_data_t.zero }) := by
      split
      · exact Good_of_trace s _ [Call.calloc (d.total_data_len + 1) (env.ok s.trace.length)] hg
          rfl (by simp [callOrderStep]) rfl rfl
      · exact hg
    split
    · split
      · exact Good_ledSysActivity _ (Good_eventLoopPost env _ _ h1)
      · exact h1
    · exact h1
  · exact Good_ledSysActivity _ (Good_mqttErrorEventSend env _ _ hg)
  · exact hg

theorem Good_mqttEventHandlerRegister (cfg : Config) (env : Env) (s : State) (hg : Good s) :
    Good (mqttEventHandlerRegister cfg env s).2 := by
  have key : ∀ (l : List HandlerId) (acc : Bool × State), Good acc.2 →
      Good (l.foldl
        (fun acc h => if acc.1 then eventHandlerRegister env h acc.2 else acc) acc).2 := by
    intro l
    induction l with
    | nil => intro acc h; exact h
    | cons a l ih =>
      intro acc h
      rw [List.foldl_cons]
      apply ih
      split
      · exact Good_eventHandlerRegister env a _ h
      · exact h
  exact key _ (true, s) hg

theorem Good_mqttTaskStart (cfg : Config) (env : Env) (b : Bool) (s : State) (hg : Good s) :
    Good (mqttTaskStart cfg env b s).2 := by
  unfold mqttTaskStart
  split
  · exact Good_mqttEventHandlerRegister cfg env s hg
  · exact Good_mqttServerSelectAuto cfg env s hg

theorem Good_init : Good State.init := by
  simp [Good, State.init, callOrder]

theorem Good_run (cfg : Config) (env : Env) (op : Op) (s : State) (hg : Good s) :
    Good (op.run cfg env s) := by
  cases op with
  | mqttStart => exact Good_mqttStart cfg env s hg
  | mqttTaskStop => exact Good_mqttTaskStop cfg env s hg
  | mqttTaskSuspend => exact Good_mqttTaskSuspend env s hg
  | mqttTaskResume => exact Good_mqttTaskResume env s hg
  | mqttTaskStart b => exact Good_mqttTaskStart cfg env b s hg
  | mqttServerSelectAuto => exact Good_mqttServerSelectAuto cfg env s hg
  | mqttServer1SetAvailable b => exact Good_mqttServer1SetAvailable cfg env b s hg
  | mqttServer2SetAvailable b => exact Good_mqttServer2SetAvailable cfg env b s hg
  | mqttServerSelectInet b => exact Good_mqttServerSelectInet cfg env b s hg
  | mqttSelfEventHandler e => exact Good_mqttSelfEventHandler cfg env e s hg
  | mqttTimeEventHandler => exact Good_mqttTimeEventHandler cfg env s hg
  | mqttWiFiEventHandler e => exact Good_mqttWiFiEventHandler cfg env e s hg
  | mqttEventHandler d => exact Good_mqttEventHandler cfg env d s hg
  | mqttSubscribe t q => exact Good_mqttSubscribe env t q s hg
  | mqttUnsubscribe t => exact Good_mqttUnsubscribe env t s hg
  | mqttPublish t p q r f => exact Good_mqttPublish env t p q r f false false s hg

theorem Good_runOps (cfg : Config) (env : Env) (ops : List Op) (s : State) (hg : Good s) :
    Good (runOps cfg env ops s) := by
  induction ops generalizing s with
  | nil => exact hg
  | cons op ops ih => exact ih _ (Good_run cfg env op s hg)

/-! ## Reassembly of inbound fragments -/

/-- C1 (the code departs from the claim): delivering the 12-byte message split
into `[0,5)`, `[5,9)`, `[9,12)` as three consecutive `MQTT_EVENT_DATA` callbacks
posts no `RE_MQTT_INCOMING_DATA` event at all, whatever the allocator answers:
the buffer is zeroed on entry to every callback, so the fragments after the
first find no buffer. -/
theorem reassembly_three_fragments_posts_nothing (cfg : Config) (env : Env) :
    incomingMessages (deliverFragments cfg env 12 0 fragments12 State.init).trace = [] := by
  simp [fragments12, deliverFragments, mqttEventHandler, dataFragment, mqttEventHandler_DATA,
    calloc, incomingMessages, State.init]
  cases h : env.ok 0 <;> simp [memcpy, re_mqtt_incoming_data_t.zero]

/-- A fragment that does not start at offset 0 is dropped, in every state: the
handler has just zeroed `in_buffer`, so there is no buffer to copy into. -/
theorem mqttEventHandler_DATA_later_fragment (cfg : Config) (env : Env) (data : esp_mqtt_event_t)
    (s : State) (hid : data.event_id = MQTT_EVENT_DATA) (hoff : data.current_data_offset ≠ 0) :
    mqttEventHandler cfg env data s = { s with in_buffer := re_mqtt_incoming_data_t.zero } := by
  simp [mqttEventHandler, hid, mqttEventHandler_DATA, hoff, re_mqtt_incoming_data_t.zero]

/-- A message delivered in one fragment is posted: the handler allocates,
copies and posts within the same call. -/
theorem mqttEventHandler_DATA_single_fragment :
    incomingMessages (deliverFragments Config.sample Env.allOk 3 0
        [([116, 47, 97], [7, 8, 9])] State.init).trace
      = [{ topic := some [116, 47, 97], data := some [7, 8, 9, 0], topic_len := 3,
           data_len := 3 }] := by
  decide

/-! ## What the lifecycle routines leave unchanged -/

theorem mqttStart_frame (cfg : Config) (env : Env) (s : State) :
    (mqttStart cfg env s).2 = { s with
      _mqttClient := (mqttStart cfg env s).2._mqttClient
      _mqttData := (mqttStart cfg env s).2._mqttData
      _mqttState := (mqttStart cfg env s).2._mqttState
      _mqttTopicStatus := (mqttStart cfg env s).2._mqttTopicStatus
      trace := (mqttStart cfg env s).2.trace } := by
  rcases hc : s._mqttClient with _ | c
  · rw [mqttStart_none cfg env s hc]
    split_ifs <;> rfl
  · rw [mqttStart_some cfg env s c hc]
    cases hk : env.ok s.trace.length
    · rw [mqttTaskStop_fail cfg env s c hc hk]
    · rw [mqttTaskStop_ok cfg env s c hc hk]


theorem mqttTaskStop_frame (cfg : Config) (env : Env) (s : State) :
    (mqttTaskStop cfg env s).2 = { s with
      _mqttClient := (mqttTaskStop cfg env s).2._mqttClient
      _mqttData := (mqttTaskStop cfg env s).2._mqttData
      _mqttState := (mqttTaskStop cfg env s).2._mqttState
      _mqttTopicStatus := (mqttTaskStop cfg env s).2._mqttTopicStatus
      trace := (mqttTaskStop cfg env s).2.trace } := by
  rcases hc : s._mqttClient with _ | c
  · rw [mqttTaskStop_none cfg env s hc]
  · cases hk : env.ok s.trace.length
    · rw [mqttTaskStop_fail cfg env s c hc hk]
    · rw [mqttTaskStop_ok cfg env s c hc hk]

theorem mqttTaskSuspend_frame (env : Env) (s : State) :
    (mqttTaskSuspend env s).2 = { s with
      _mqttState := (mqttTaskSuspend env s).2._mqttState
      trace := (mqttTaskSuspend env s).2.trace } := by
  rcases hc : s._mqttClient with _ | c
  · rw [mqttTaskSuspend_none env s hc]
    cases s; simp_all
  · cases hk : env.ok s.trace.length
    · rw [mqttTaskSuspend_fail env s c hc hk]
      cases s; simp_all
    · rw [mqttTaskSuspend_ok env s c hc hk]
      cases s; simp_all

theorem mqttTaskResume_frame (env : Env) (s : State) :
    (mqttTaskResume env s).2 = { s with
      _mqttState := (mqttTaskResume env s).2._mqttState
      trace := (mqttTaskResume env s).2.trace } := by
  rcases hc : s._mqttClient with _ | c
  · rw [mqttTaskResume_none env s hc]
    cases s; simp_all
  · cases hk : env.ok s.trace.length
    · rw [mqttTaskResume_fail env s c hc hk]
      cases s; simp_all
    · rw [mqttTaskResume_ok env s c hc hk]
      cases s; simp_all

theorem backToPrimaryCancel_frame (cfg : Config) (s : State) :
    backToPrimaryCancel cfg s = { s with
      _mqttBackToPrimarty := (backToPrimaryCancel cfg s)._mqttBackToPrimarty
      timeHandlerRegistered := (backToPrimaryCancel cfg s).timeHandlerRegistered
      trace := (backToPrimaryCancel cfg s).trace } := by
  unfold backToPrimaryCancel
  split <;> rfl

theorem backToPrimaryArm_frame (cfg : Config) (s : State) :
    backToPrimaryArm cfg s = { s with
      _mqttBackToPrimarty := (backToPrimaryArm cfg s)._mqttBackToPrimarty
      timeHandlerRegistered := (backToPrimaryArm cfg s).timeHandlerRegistered
      trace := (backToPrimaryArm cfg s).trace } := by
  unfold backToPrimaryArm
  split <;> rfl

theorem availability_mqttStart (cfg : Config) (env : Env) (s : State) :
    availability (mqttStart cfg env s).2 = availability s := by
  rw [mqttStart_frame]; rfl

theorem availability_mqttTaskSuspend (env : Env) (s : State) :
    availability (mqttTaskSuspend env s).2 = availability s := by
  rw [mqttTaskSuspend_frame]; rfl

theorem availability_mqttTaskResume (env : Env) (s : State) :
    availability (mqttTaskResume env s).2 = availability s := by
  rw [mqttTaskResume_frame]; rfl

theorem availability_backToPrimaryCancel (cfg : Config) (s : State) :
    availability (backToPrimaryCancel cfg s) = availability s := by
  rw [backToPrimaryCancel_frame]; rfl

theorem availability_backToPrimaryArm (cfg : Config) (s : State) :
    availability (backToPrimaryArm cfg s) = availability s := by
  rw [backToPrimaryArm_frame]; rfl

theorem availability_mqttServerSelectAuto (cfg : Config) (env : Env) (s : State) :
    availability (mqttServerSelectAuto cfg env s).2 = availability s := by
  have c1 : availability (mqttServer1Start cfg env s).2 = availability s := by
    unfold mqttServer1Start
    rw [availability_mqttStart, availability_backToPrimaryCancel]; rfl
  have c2 : availability (mqttServer1Select cfg env s).2 = availability s := by
    unfold mqttServer1Select eventLoopPost
    exact availability_backToPrimaryCancel cfg _
  have c3 : availability (mqttServer2Start cfg env s).2 = availability s := by
    unfold mqttServer2Start
    rw [availability_mqttStart, availability_backToPrimaryArm]; rfl
  have c4 : availability (mqttServer2Select cfg env s).2 = availability s := by
    unfold mqttServer2Select eventLoopPost
    exact availability_backToPrimaryArm cfg _
  have c5 := availability_mqttTaskResume env s
  have c6 := availability_mqttTaskSuspend env s
  unfold mqttServerSelectAuto mqttServer1Acivate mqttServer2Acivate
  split
  · split
    · exact c1
    · split
      · exact c2
      · rfl
    · split
      · exact c5
      · exact c2
  · split
    · split
      · exact c3
      · split
        · exact c4
        · rfl
      · split
        · exact c5
        · exact c4
    · split
      · exact c6
      · rfl

/-! ## Availability setters -/

theorem availability_setter (cfg : Config) (env : Env) (c : SetterCall) (s : State) :
    availability (c.run cfg env s) =
      (latestServer1 s._mqttServer1Available [c], latestServer2 s._mqttServer2Available [c],
        latestInet s._mqttInternetAvailable [c]) := by
  cases c with
  | server1 b =>
    simp only [SetterCall.run, mqttServer1SetAvailable, latestServer1, latestServer2, latestInet,
      List.foldl_cons, List.foldl_nil]
    split
    · rw [availability_mqttServerSelectAuto]; rfl
    · rename_i h
      simp only [bne_iff_ne, ne_eq, not_not] at h
      simp [availability, h]
  | server2 b =>
    simp only [SetterCall.run, mqttServer2SetAvailable, latestServer1, latestServer2, latestInet,
      List.foldl_cons, List.foldl_nil]
    split
    · rw [availability_mqttServerSelectAuto]; rfl
    · rename_i h
      simp only [bne_iff_ne, ne_eq, not_not] at h
      simp [availability, h]
  | inet b =>
    simp only [SetterCall.run, mqttServerSelectInet, latestServer1, latestServer2, latestInet,
      List.foldl_cons, List.foldl_nil]
    split
    · rw [availability_mqttServerSelectAuto]; rfl
    · rename_i h
      simp only [bne_iff_ne, ne_eq, not_not] at h
      simp [availability, h]

theorem availability_runSetters (cfg : Config) (env : Env) (calls : List SetterCall) (s : State) :
    availability (runSetters cfg env calls s) =
      (latestServer1 s._mqttServer1Available calls, latestServer2 s._mqttServer2Available calls,
        latestInet s._mqttInternetAvailable calls) := by
  induction calls generalizing s with
  | nil => rfl
  | cons c calls ih =>
    have h := availability_setter cfg env c s
    simp only [availability, Prod.mk.injEq] at h
    simp only [runSetters, latestServer1, latestServer2, latestInet, List.foldl_cons] at ih h ⊢
    rw [ih, h.1, h.2.1, h.2.2]
    simp only [List.foldl_nil]

/-- C3: after any finite sequence of calls to the three setters from the
initial state, under any outcomes of the external calls, `mqttServer1Enabled`
and `mqttServer2Enabled` equal the eligibility rule evaluated on the values
passed by the latest call to each setter (defaults: both brokers available,
internet not reachable). -/
theorem eligibility_follows_latest_setters (cfg : Config) (env : Env)
    (calls : List SetterCall) :
    mqttServer1Enabled cfg (runSetters cfg env calls State.init)
        = (latestServer1 true calls && (latestInet false calls || mqttServer1isLocal cfg))
    ∧ mqttServer2Enabled cfg (runSetters cfg env calls State.init)
        = (latestServer2 true calls && (latestInet false calls || mqttServer2isLocal cfg)) := by
  have h := availability_runSetters cfg env calls State.init
  simp only [availability, Prod.mk.injEq] at h
  simp only [mqttServer1Enabled, mqttServer2Enabled, h.1, h.2.1, h.2.2]
  exact ⟨rfl, rfl⟩

/-- C4: calling a setter with the value its flag already holds returns `false`
and leaves the whole state, trace of external calls included, as it was. -/
theorem setter_same_value_is_noop (cfg : Config) (env : Env) (s : State) :
    mqttServer1SetAvailable cfg env s._mqttServer1Available s = (false, s)
    ∧ mqttServer2SetAvailable cfg env s._mqttServer2Available s = (false, s)
    ∧ mqttServerSelectInet cfg env s._mqttInternetAvailable s = (false, s) := by
  simp [mqttServer1SetAvailable, mqttServer2SetAvailable, mqttServerSelectInet]

/-! ## Selection preference -/

theorem postedEvents_append (t l : List Call) :
    postedEvents (t ++ l) = postedEvents t ++ postedEvents l := by
  simp [postedEvents, List.filterMap_append]

theorem postedEvents_mqttTaskStop (cfg : Config) (env : Env) (s : State) :
    postedEvents (mqttTaskStop cfg env s).2.trace = postedEvents s.trace := by
  rcases hc : s._mqttClient with _ | c
  · rw [mqttTaskStop_none cfg env s hc]
  · cases hk : env.ok s.trace.length
    · rw [mqttTaskStop_fail cfg env s c hc hk]
      simp [postedEvents_append, postedEvents]
    · rw [mqttTaskStop_ok cfg env s c hc hk]
      simp [postedEvents_append, postedEvents]

theorem postedEvents_mqttTaskResume (env : Env) (s : State) :
    postedEvents (mqttTaskResume env s).2.trace = postedEvents s.trace := by
  rcases hc : s._mqttClient with _ | c
  · rw [mqttTaskResume_none env s hc]
  · cases hk : env.ok s.trace.length
    · rw [mqttTaskResume_fail env s c hc hk]
      simp [postedEvents_append, postedEvents]
    · rw [mqttTaskResume_ok env s c hc hk]
      simp [postedEvents_append, postedEvents]

theorem postedEvents_mqttStart (cfg : Config) (env : Env) (s : State) :
    postedEvents (mqttStart cfg env s).2.trace = postedEvents s.trace := by
  rcases hc : s._mqttClient with _ | c
  · rw [mqttStart_none cfg env s hc]
    split_ifs <;> simp [postedEvents_append, postedEvents]
  · rw [mqttStart_some cfg env s c hc]
    exact postedEvents_mqttTaskStop cfg env s

theorem postedEvents_backToPrimaryCancel (cfg : Config) (s : State) :
    postedEvents (backToPrimaryCancel cfg s).trace = postedEvents s.trace := by
  unfold backToPrimaryCancel
  split
  · simp [eventHandlerUnregisterTime, postedEvents_append, postedEvents]
  · rfl

theorem primary_mqttStart (cfg : Config) (env : Env) (s : State) :
    (mqttStart cfg env s).2._mqttPrimary = s._mqttPrimary := by
  rw [mqttStart_frame]

theorem primary_mqttTaskResume (env : Env) (s : State) :
    (mqttTaskResume env s).2._mqttPrimary = s._mqttPrimary := by
  rw [mqttTaskResume_frame]

theorem primary_backToPrimaryCancel (cfg : Config) (s : State) :
    (backToPrimaryCancel cfg s)._mqttPrimary = s._mqttPrimary := by
  rw [backToPrimaryCancel_frame]

/-- C2, counterexample: with the session started and connected on the reserved
broker and both brokers eligible, `mqttServerSelectAuto` does not keep the
reserved broker: it records the primary broker as selected and posts the
switch event `RE_MQTT_SERVER_PRIMARY`.  This is what the call
`mqttServer1SetAvailable(true)` does to a session connected on the reserved
broker. -/
theorem selectAuto_leaves_connected_reserved :
    mqttServer1Enabled Config.sample startedOnReserved = true
    ∧ mqttServer2Enabled Config.sample startedOnReserved = true
    ∧ startedOnReserved._mqttState = MQTT_CLIENT_STARTED
    ∧ startedOnReserved._mqttData.connected = true
    ∧ startedOnReserved._mqttData.primary = false
    ∧ startedOnReserved._mqttPrimary = false
    ∧ (mqttServerSelectAuto Config.sample Env.allOk startedOnReserved).2._mqttPrimary = true
    ∧ postedEvents (newCalls startedOnReserved
        (mqttServerSelectAuto Config.sample Env.allOk startedOnReserved).2)
          = [RE_MQTT_SERVER_PRIMARY]
    ∧ mqttServer1SetAvailable Config.sample Env.allOk true connectedOnReserved
        = mqttServerSelectAuto Config.sample Env.allOk startedOnReserved := by
  decide

/-- C2, as amended: whenever the primary broker is eligible (so in particular
whenever both brokers are), `mqttServerSelectAuto` leaves the primary broker as
the selected slot, whichever slot the session is connected on; the only event
it posts is the switch event `RE_MQTT_SERVER_PRIMARY`, and it posts it exactly
when a client exists for the reserved broker (state started or suspended with
the reserved slot selected). -/
theorem selectAuto_prefers_primary (cfg : Config) (env : Env) (s : State)
    (h1 : mqttServer1Enabled cfg s = true) :
    (mqttServerSelectAuto cfg env s).2._mqttPrimary = true
    ∧ postedEvents (mqttServerSelectAuto cfg env s).2.trace
        = postedEvents s.trace ++
          (if s._mqttState ≠ MQTT_CLIENT_STOPPED ∧ s._mqttPrimary = false
           then [RE_MQTT_SERVER_PRIMARY] else []) := by
  have e1 : (mqttServer1Select cfg env s).2._mqttPrimary = true := by
    unfold mqttServer1Select eventLoopPost
    exact primary_backToPrimaryCancel cfg _
  have e2 : postedEvents (mqttServer1Select cfg env s).2.trace
      = postedEvents s.trace ++ [RE_MQTT_SERVER_PRIMARY] := by
    unfold mqttServer1Select eventLoopPost
    simp only [postedEvents_append, postedEvents_backToPrimaryCancel]
    simp [postedEvents]
  have e3 : (mqttServer1Start cfg env s).2._mqttPrimary = true := by
    unfold mqttServer1Start
    rw [primary_mqttStart, primary_backToPrimaryCancel]
  have e4 : postedEvents (mqttServer1Start cfg env s).2.trace = postedEvents s.trace := by
    unfold mqttServer1Start
    rw [postedEvents_mqttStart, postedEvents_backToPrimaryCancel]
  simp only [mqttServerSelectAuto, h1, if_true, mqttServer1Acivate]
  cases hs : s._mqttState <;> cases hp : s._mqttPrimary <;>
    simp [e1, e2, e3, e4, primary_mqttTaskResume, postedEvents_mqttTaskResume, hp]

/-- C2, as amended, at the state of the counterexample. -/
theorem selectAuto_prefers_primary_witness :
    mqttServer1Enabled Config.sample startedOnReserved = true
    ∧ (mqttServerSelectAuto Config.sample Env.allOk startedOnReserved).2._mqttPrimary = true
    ∧ postedEvents (mqttServerSelectAuto Config.sample Env.allOk startedOnReserved).2.trace
        = postedEvents startedOnReserved.trace ++
          (if startedOnReserved._mqttState ≠ MQTT_CLIENT_STOPPED
              ∧ startedOnReserved._mqttPrimary = false
           then [RE_MQTT_SERVER_PRIMARY] else []) :=
  ⟨by decide, selectAuto_prefers_primary Config.sample Env.allOk startedOnReserved (by decide)⟩

/-! ## Handle and connection state -/

/-- C5 (the code departs from the claim): when `mqttStart`, called in the
initial state, creates the client and the registration of the event handler
then fails, `START_CHECK` returns with the handle still set: the handle is
non-null while the state is stopped. -/
theorem handle_live_while_stopped :
    (runOps Config.sample (Env.failAt 1) [Op.mqttStart] State.init)._mqttClient = some 0
    ∧ (runOps Config.sample (Env.failAt 1) [Op.mqttStart] State.init)._mqttState
        = MQTT_CLIENT_STOPPED := by
  decide

/-- How far the handle and the state agree: in every state reached from the
initial state by any sequence of entry points, under any outcomes of the
external calls, a state started or suspended comes with a non-null handle (a
null handle comes with the state stopped); and as long as no register or start
call has failed, the handle is non-null if and only if the state is started or
suspended. -/
theorem handle_state_invariant (cfg : Config) (env : Env) (ops : List Op) :
    ((runOps cfg env ops State.init)._mqttState ≠ MQTT_CLIENT_STOPPED →
      (runOps cfg env ops State.init)._mqttClient.isSome = true)
    ∧ (noFailedStart (runOps cfg env ops State.init).trace = true →
      ((runOps cfg env ops State.init)._mqttClient.isSome = true ↔
        (runOps cfg env ops State.init)._mqttState ≠ MQTT_CLIENT_STOPPED)) := by
  have hg := Good_runOps cfg env ops State.init Good_init
  exact ⟨hg.2.1, fun hn => ⟨hg.2.2 hn, hg.2.1⟩⟩

/-- The agreement of handle and state on the execution `mqttStart`,
`mqttTaskSuspend` with every external call succeeding. -/
theorem handle_state_invariant_witness :
    (runOps Config.sample Env.allOk [Op.mqttStart, Op.mqttTaskSuspend] State.init)._mqttState
        ≠ MQTT_CLIENT_STOPPED
    ∧ noFailedStart
        (runOps Config.sample Env.allOk [Op.mqttStart, Op.mqttTaskSuspend] State.init).trace = true
    ∧ (runOps Config.sample Env.allOk [Op.mqttStart, Op.mqttTaskSuspend]
        State.init)._mqttClient.isSome = true
    ∧ ((runOps Config.sample Env.allOk [Op.mqttStart, Op.mqttTaskSuspend]
        State.init)._mqttClient.isSome = true ↔
      (runOps Config.sample Env.allOk [Op.mqttStart, Op.mqttTaskSuspend] State.init)._mqttState
        ≠ MQTT_CLIENT_STOPPED) :=
  ⟨by decide, by decide,
    (handle_state_invariant Config.sample Env.allOk [Op.mqttStart, Op.mqttTaskSuspend]).1
      (by decide),
    (handle_state_invariant Config.sample Env.allOk [Op.mqttStart, Op.mqttTaskSuspend]).2
      (by decide)⟩

/-! ## Transition table -/

theorem mqttStart_configure_profile (cfg : Config) (s : State) :
    (mqttStart_configure cfg s).1 = brokerProfile cfg (activeSlot s) := by
  unfold mqttStart_configure brokerProfile activeSlot mqttSetConfigPrimary mqttSetConfigReserved
    mqttTopicStatusCreate
  cases s._mqttPrimary <;> cases cfg.CONFIG_MQTT_STATUS_LWT <;> simp

theorem mqttStart_configure_data (cfg : Config) (s : State) :
    (mqttStart_configure cfg s).2._mqttData.primary = s._mqttPrimary
    ∧ (mqttStart_configure cfg s).2._mqttData.connected = false
    ∧ (mqttStart_configure cfg s).2._mqttData.conn_attempt = 0 := by
  unfold mqttStart_configure mqttSetConfigPrimary mqttSetConfigReserved mqttTopicStatusCreate
  cases s._mqttPrimary <;> cases cfg.CONFIG_MQTT_STATUS_LWT <;>
    simp [re_mqtt_event_data_t.zero]

/-- With every external call succeeding, `mqttStart` entered without a client
creates, registers and starts one. -/
theorem mqttStart_ok (cfg : Config) (env : Env) (s : State) (hok : ∀ n, env.ok n = true)
    (hc : s._mqttClient = none) :
    mqttStart cfg env s = (true, { s with
      _mqttClient := some s.trace.length
      _mqttState := MQTT_CLIENT_STARTED
      _mqttData := (mqttStart_configure cfg s).2._mqttData
      _mqttTopicStatus := (mqttStart_configure cfg s).2._mqttTopicStatus
      trace := s.trace ++
        [Call.esp_mqtt_client_init (brokerProfile cfg (activeSlot s)) (some s.trace.length),
         Call.esp_mqtt_client_register_event s.trace.length true,
         Call.esp_mqtt_client_start s.trace.length true] }) := by
  rw [mqttStart_none cfg env s hc, if_pos (hok _), if_pos (hok _), if_pos (hok _),
    mqttStart_configure_profile]

theorem newCalls_append (s s' : State) (l : List Call) (h : s'.trace = s.trace ++ l) :
    newCalls s s' = l := by
  simp [newCalls, h]

theorem selectedSlot_primary (cfg : Config) (s : State) :
    selectedSlot cfg s = some Slot.Primary ↔ mqttServer1Enabled cfg s = true := by
  unfold selectedSlot
  cases mqttServer1Enabled cfg s <;> cases mqttServer2Enabled cfg s <;> simp

theorem selectedSlot_reserved (cfg : Config) (s : State) :
    selectedSlot cfg s = some Slot.Reserved ↔
      mqttServer1Enabled cfg s = false ∧ mqttServer2Enabled cfg s = true := by
  unfold selectedSlot
  cases mqttServer1Enabled cfg s <;> cases mqttServer2Enabled cfg s <;> simp

theorem selectedSlot_none (cfg : Config) (s : State) :
    selectedSlot cfg s = none ↔
      mqttServer1Enabled cfg s = false ∧ mqttServer2Enabled cfg s = false := by
  unfold selectedSlot
  cases mqttServer1Enabled cfg s <;> cases mqttServer2Enabled cfg s <;> simp

/-- The routine `mqttServerSelectAuto` hands over to when it acts for the
primary broker, by connection state. -/
theorem mqttServerSelectAuto_primary (cfg : Config) (env : Env) (s : State)
    (h : selectedSlot cfg s = some Slot.Primary) :
    mqttServerSelectAuto cfg env s =
      match s._mqttState with
      | MQTT_CLIENT_STOPPED => mqttServer1Start cfg env s
      | MQTT_CLIENT_STARTED =>
        if s._mqttPrimary then (false, s) else mqttServer1Select cfg env s
      | MQTT_CLIENT_SUSPENDED =>
        if s._mqttPrimary then mqttTaskResume env s else mqttServer1Select cfg env s := by
  rw [selectedSlot_primary] at h
  unfold mqttServerSelectAuto mqttServer1Acivate
  rw [if_pos h]
  cases s._mqttState <;> cases s._mqttPrimary <;> rfl

/-- The routine `mqttServerSelectAuto` hands over to when it acts for the
reserved broker, by connection state. -/
theorem mqttServerSelectAuto_reserved (cfg : Config) (env : Env) (s : State)
    (h : selectedSlot cfg s = some Slot.Reserved) :
    mqttServerSelectAuto cfg env s =
      match s._mqttState with
      | MQTT_CLIENT_STOPPED => mqttServer2Start cfg env s
      | MQTT_CLIENT_STARTED =>
        if s._mqttPrimary then mqttServer2Select cfg env s else (false, s)
      | MQTT_CLIENT_SUSPENDED =>
        if s._mqttPrimary then mqttServer2Select cfg env s else mqttTaskResume env s := by
  rw [selectedSlot_reserved] at h
  unfold mqttServerSelectAuto mqttServer2Acivate
  rw [if_neg (by simp [h.1]), if_pos h.2]
  cases s._mqttState <;> cases s._mqttPrimary <;> rfl

/-- What `mqttServerSelectAuto` does when no broker is eligible. -/
theorem mqttServerSelectAuto_none (cfg : Config) (env : Env) (s : State)
    (h : selectedSlot cfg s = none) :
    mqttServerSelectAuto cfg env s =
      if s._mqttState = MQTT_CLIENT_STARTED then mqttTaskSuspend env s else (false, s) := by
  rw [selectedSlot_none] at h
  unfold mqttServerSelectAuto
  rw [if_neg (by simp [h.1]), if_neg (by simp [h.2])]

/-- With every external call succeeding, `mqttServer1Start` entered without a
client starts a session on the primary broker. -/
theorem mqttServer1Start_ok (cfg : Config) (env : Env) (s : State) (hok : ∀ n, env.ok n = true)
    (hc : s._mqttClient = none) :
    (mqttServer1Start cfg env s).1 = true
    ∧ (mqttServer1Start cfg env s).2._mqttState = MQTT_CLIENT_STARTED
    ∧ (mqttServer1Start cfg env s).2._mqttPrimary = true
    ∧ (mqttServer1Start cfg env s).2._mqttData.primary = true
    ∧ ∃ h, (mqttServer1Start cfg env s).2._mqttClient = some h
        ∧ (newCalls s (mqttServer1Start cfg env s).2).filter Call.isTransport =
          [Call.esp_mqtt_client_init (brokerProfile cfg Slot.Primary) (some h),
           Call.esp_mqtt_client_register_event h true, Call.esp_mqtt_client_start h true] := by
  have hc' : (backToPrimaryCancel cfg
      { s with _mqttPrimary := true, _mqttServer2Activate := 0 })._mqttClient = none := by
    rw [backToPrimaryCancel_frame]; exact hc
  have hd := mqttStart_configure_data cfg (backToPrimaryCancel cfg
      { s with _mqttPrimary := true, _mqttServer2Activate := 0 })
  have hp : (backToPrimaryCancel cfg
      { s with _mqttPrimary := true, _mqttServer2Activate := 0 })._mqttPrimary = true :=
    primary_backToPrimaryCancel cfg _
  rw [hp] at hd
  have ha : activeSlot (backToPrimaryCancel cfg
      { s with _mqttPrimary := true, _mqttServer2Activate := 0 }) = Slot.Primary := by
    simp [activeSlot, hp]
  unfold mqttServer1Start
  rw [mqttStart_ok cfg env _ hok hc', ha]
  refine ⟨rfl, rfl, hp, hd.1, _, rfl, ?_⟩
  unfold backToPrimaryCancel
  split <;> simp [newCalls, eventHandlerUnregisterTime, Call.isTransport]

theorem primary_backToPrimaryArm (cfg : Config) (s : State) :
    (backToPrimaryArm cfg s)._mqttPrimary = s._mqttPrimary := by
  rw [backToPrimaryArm_frame]

/-- With every external call succeeding, `mqttServer2Start` entered without a
client starts a session on the reserved broker and arms the return-to-primary
countdown. -/
theorem mqttServer2Start_ok (cfg : Config) (env : Env) (s : State) (hok : ∀ n, env.ok n = true)
    (hc : s._mqttClient = none) :
    (mqttServer2Start cfg env s).1 = true
    ∧ (mqttServer2Start cfg env s).2._mqttState = MQTT_CLIENT_STARTED
    ∧ (mqttServer2Start cfg env s).2._mqttPrimary = false
    ∧ (mqttServer2Start cfg env s).2._mqttData.primary = false
    ∧ (∃ h, (mqttServer2Start cfg env s).2._mqttClient = some h
        ∧ (newCalls s (mqttServer2Start cfg env s).2).filter Call.isTransport =
          [Call.esp_mqtt_client_init (brokerProfile cfg Slot.Reserved) (some h),
           Call.esp_mqtt_client_register_event h true, Call.esp_mqtt_client_start h true])
    ∧ (0 < cfg.CONFIG_MQTT_BACK_TO_PRIMARY_TIME_MINUTES →
        (mqttServer2Start cfg env s).2.timeHandlerRegistered = true
        ∧ (mqttServer2Start cfg env s).2._mqttBackToPrimarty = 0
        ∧ Call.eventHandlerRegister_RE_TIME_EVERY_MINUTE
            ∈ newCalls s (mqttServer2Start cfg env s).2) := by
  have hc' : (backToPrimaryArm cfg { s with
      _mqttPrimary := false, _mqttServer2Activate := env.time s.trace.length })._mqttClient
        = none := by
    rw [backToPrimaryArm_frame]; exact hc
  have hd := mqttStart_configure_data cfg (backToPrimaryArm cfg { s with
      _mqttPrimary := false, _mqttServer2Activate := env.time s.trace.length })
  have hp : (backToPrimaryArm cfg { s with
      _mqttPrimary := false, _mqttServer2Activate := env.time s.trace.length })._mqttPrimary
        = false :=
    primary_backToPrimaryArm cfg _
  rw [hp] at hd
  have ha : activeSlot (backToPrimaryArm cfg { s with
      _mqttPrimary := false, _mqttServer2Activate := env.time s.trace.length })
        = Slot.Reserved := by
    simp [activeSlot, hp]
  unfold mqttServer2Start
  rw [mqttStart_ok cfg env _ hok hc', ha]
  refine ⟨rfl, rfl, hp, hd.1, ⟨_, rfl, ?_⟩, fun hT => ?_⟩
  · unfold backToPrimaryArm
    split <;> simp [newCalls, eventHandlerRegisterTime, Call.isTransport]
  · simp [backToPrimaryArm, hT, newCalls, eventHandlerRegisterTime]

/-- C6: from the stopped state without a client, with every external call
succeeding, `mqttServerSelectAuto` acting for the primary broker starts a
session on it (one create, register and start call; state started; selected
and session slot primary); acting for the reserved broker it starts a session
on the reserved broker and, when the return-to-primary time is configured,
registers the tick handler with the counter at 0; with no broker eligible it
returns `false` and changes nothing, so it makes no call. -/
theorem stopped_row (cfg : Config) (env : Env) (s : State) (hok : ∀ n, env.ok n = true)
    (hs : s._mqttState = MQTT_CLIENT_STOPPED) (hc : s._mqttClient = none) :
    (selectedSlot cfg s = some Slot.Primary →
      (mqttServerSelectAuto cfg env s).1 = true
      ∧ (mqttServerSelectAuto cfg env s).2._mqttState = MQTT_CLIENT_STARTED
      ∧ (mqttServerSelectAuto cfg env s).2._mqttPrimary = true
      ∧ (mqttServerSelectAuto cfg env s).2._mqttData.primary = true
      ∧ ∃ h, (mqttServerSelectAuto cfg env s).2._mqttClient = some h
          ∧ (newCalls s (mqttServerSelectAuto cfg env s).2).filter Call.isTransport =
            [Call.esp_mqtt_client_init (brokerProfile cfg Slot.Primary) (some h),
             Call.esp_mqtt_client_register_event h true, Call.esp_mqtt_client_start h true])
    ∧ (selectedSlot cfg s = some Slot.Reserved →
      (mqttServerSelectAuto cfg env s).1 = true
      ∧ (mqttServerSelectAuto cfg env s).2._mqttState = MQTT_CLIENT_STARTED
      ∧ (mqttServerSelectAuto cfg env s).2._mqttPrimary = false
      ∧ (mqttServerSelectAuto cfg env s).2._mqttData.primary = false
      ∧ (∃ h, (mqttServerSelectAuto cfg env s).2._mqttClient = some h
          ∧ (newCalls s (mqttServerSelectAuto cfg env s).2).filter Call.isTransport =
            [Call.esp_mqtt_client_init (brokerProfile cfg Slot.Reserved) (some h),
             Call.esp_mqtt_client_register_event h true, Call.esp_mqtt_client_start h true])
      ∧ (0 < cfg.CONFIG_MQTT_BACK_TO_PRIMARY_TIME_MINUTES →
          (mqttServerSelectAuto cfg env s).2.timeHandlerRegistered = true
          ∧ (mqttServerSelectAuto cfg env s).2._mqttBackToPrimarty = 0
          ∧ Call.eventHandlerRegister_RE_TIME_EVERY_MINUTE
              ∈ newCalls s (mqttServerSelectAuto cfg env s).2))
    ∧ (selectedSlot cfg s = none → mqttServerSelectAuto cfg env s = (false, s)) := by
  refine ⟨fun h1 => ?_, fun h2 => ?_, fun h3 => ?_⟩
  · rw [mqttServerSelectAuto_primary cfg env s h1, hs]
    exact mqttServer1Start_ok cfg env s hok hc
  · rw [mqttServerSelectAuto_reserved cfg env s h2, hs]
    exact mqttServer2Start_ok cfg env s hok hc
  · rw [mqttServerSelectAuto_none cfg env s h3, hs]
    rfl

/-- C6 on three stopped states: primary eligible, only reserved eligible
(primary unavailable, reserved available, internet reachable), none eligible
(the initial state, internet not reachable). -/
theorem stopped_row_witness :
    (selectedSlot Config.sample stoppedInternetUp = some Slot.Primary
      ∧ (mqttServerSelectAuto Config.sample Env.allOk stoppedInternetUp).2._mqttState
          = MQTT_CLIENT_STARTED
      ∧ (mqttServerSelectAuto Config.sample Env.allOk stoppedInternetUp).2._mqttData.primary
          = true)
    ∧ (selectedSlot Config.sample stoppedPrimaryDown = some Slot.Reserved
      ∧ (mqttServerSelectAuto Config.sample Env.allOk stoppedPrimaryDown).2._mqttState
          = MQTT_CLIENT_STARTED
      ∧ (mqttServerSelectAuto Config.sample Env.allOk stoppedPrimaryDown).2._mqttData.primary
          = false
      ∧ (mqttServerSelectAuto Config.sample Env.allOk stoppedPrimaryDown).2.timeHandlerRegistered
          = true
      ∧ (mqttServerSelectAuto Config.sample Env.allOk stoppedPrimaryDown).2._mqttBackToPrimarty
          = 0)
    ∧ (selectedSlot Config.sample State.init = none
      ∧ mqttServerSelectAuto Config.sample Env.allOk State.init = (false, State.init)) :=
  have hA := (stopped_row Config.sample Env.allOk stoppedInternetUp (fun _ => rfl) (by decide)
    (by decide)).1
    (by decide)
  have hB := (stopped_row Config.sample Env.allOk stoppedPrimaryDown (fun _ => rfl) (by decide)
    (by decide)).2.1
    (by decide)
  have hC := (stopped_row Config.sample Env.allOk State.init (fun _ => rfl) rfl rfl).2.2
    (by decide)
  ⟨⟨by decide, hA.2.1, hA.2.2.2.1⟩,
   ⟨by decide, hB.2.1, hB.2.2.2.1, (hB.2.2.2.2.2 (by decide)).1,
     (hB.2.2.2.2.2 (by decide)).2.1⟩,
   ⟨by decide, hC⟩⟩

/-- C7: with a client and every external call succeeding, `mqttServerSelectAuto`
(a) started on the slot it acts for, returns `false` and changes nothing;
(b) started with no broker eligible, makes the single call
`esp_mqtt_client_stop` and ends suspended on the same slot; (c) suspended on
the slot it acts for, makes the single call `esp_mqtt_client_start` and ends
started on the same slot; (d) suspended with no broker eligible, returns
`false` and changes nothing. -/
theorem non_switching_cells (cfg : Config) (env : Env) (s : State) (h : Nat)
    (hok : ∀ n, env.ok n = true) (hc : s._mqttClient = some h) :
    (s._mqttState = MQTT_CLIENT_STARTED → selectedSlot cfg s = some (activeSlot s) →
      mqttServerSelectAuto cfg env s = (false, s))
    ∧ (s._mqttState = MQTT_CLIENT_STARTED → selectedSlot cfg s = none →
      mqttServerSelectAuto cfg env s = (true, { s with
        _mqttState := MQTT_CLIENT_SUSPENDED
        trace := s.trace ++ [Call.esp_mqtt_client_stop h true] }))
    ∧ (s._mqttState = MQTT_CLIENT_SUSPENDED → selectedSlot cfg s = some (activeSlot s) →
      mqttServerSelectAuto cfg env s = (true, { s with
        _mqttState := MQTT_CLIENT_STARTED
        trace := s.trace ++ [Call.esp_mqtt_client_start h true] }))
    ∧ (s._mqttState = MQTT_CLIENT_SUSPENDED → selectedSlot cfg s = none →
      mqttServerSelectAuto cfg env s = (false, s)) := by
  refine ⟨fun hs hsel => ?_, fun hs hsel => ?_, fun hs hsel => ?_, fun hs hsel => ?_⟩
  · cases hp : s._mqttPrimary
    · rw [activeSlot, hp] at hsel
      rw [mqttServerSelectAuto_reserved cfg env s hsel, hs]
      simp [hp]
    · rw [activeSlot, hp] at hsel
      rw [mqttServerSelectAuto_primary cfg env s hsel, hs]
      simp [hp]
  · rw [mqttServerSelectAuto_none cfg env s hsel, if_pos hs,
      mqttTaskSuspend_ok env s h hc (hok _)]
  · cases hp : s._mqttPrimary
    · rw [activeSlot, hp] at hsel
      rw [mqttServerSelectAuto_reserved cfg env s hsel, hs]
      simp [hp, mqttTaskResume_ok env s h hc (hok _)]
    · rw [activeSlot, hp] at hsel
      rw [mqttServerSelectAuto_primary cfg env s hsel, hs]
      simp [hp, mqttTaskResume_ok env s h hc (hok _)]
  · rw [mqttServerSelectAuto_none cfg env s hsel, if_neg (by simp [hs])]

/-- C7 on four states: started on the primary broker with the primary broker
eligible; the same when the internet has just been lost; suspended on the
reserved broker when the internet has just come back (only the reserved broker
eligible); suspended on the reserved broker with no broker eligible. -/
theorem non_switching_cells_witness :
    mqttServerSelectAuto Config.sample Env.allOk startedOnPrimary = (false, startedOnPrimary)
    ∧ mqttServerSelectAuto Config.sample Env.allOk
        { startedOnPrimary with _mqttInternetAvailable := false }
      = (true, { startedOnPrimary with
          _mqttInternetAvailable := false
          _mqttState := MQTT_CLIENT_SUSPENDED
          trace := startedOnPrimary.trace ++ [Call.esp_mqtt_client_stop 1 true] })
    ∧ mqttServerSelectAuto Config.sample Env.allOk
        { suspendedOnReserved with _mqttInternetAvailable := true }
      = (true, { suspendedOnReserved with
          _mqttInternetAvailable := true
          _mqttState := MQTT_CLIENT_STARTED
          trace := suspendedOnReserved.trace ++ [Call.esp_mqtt_client_start 1 true] })
    ∧ mqttServerSelectAuto Config.sample Env.allOk suspendedOnReserved
      = (false, suspendedOnReserved) :=
  ⟨(non_switching_cells Config.sample Env.allOk startedOnPrimary 1 (fun _ => rfl)
      (by decide)).1 (by decide) (by decide),
   (non_switching_cells Config.sample Env.allOk
      { startedOnPrimary with _mqttInternetAvailable := false } 1 (fun _ => rfl)
      (by decide)).2.1 (by decide) (by decide),
   (non_switching_cells Config.sample Env.allOk
      { suspendedOnReserved with _mqttInternetAvailable := true } 1 (fun _ => rfl)
      (by decide)).2.2.1 (by decide) (by decide),
   (non_switching_cells Config.sample Env.allOk suspendedOnReserved 1 (fun _ => rfl)
      (by decide)).2.2.2 (by decide) (by decide)⟩

/-- With every external call succeeding, the switch handler entered with a
client destroys it, waits, and starts a session on the selected slot. -/
theorem mqttSelfEventHandler_ok (cfg : Config) (env : Env) (s : State) (h : Nat) (Y : Slot)
    (hok : ∀ n, env.ok n = true) (hc : s._mqttClient = some h) (hY : activeSlot s = Y) :
    newCalls s (mqttSelfEventHandler cfg env (slotSelectedEvent Y) s) =
        [Call.esp_mqtt_client_destroy h true, Call.vTaskDelay 1000,
         Call.esp_mqtt_client_init (brokerProfile cfg Y) (some (s.trace.length + 2)),
         Call.esp_mqtt_client_register_event (s.trace.length + 2) true,
         Call.esp_mqtt_client_start (s.trace.length + 2) true]
    ∧ (mqttSelfEventHandler cfg env (slotSelectedEvent Y) s)._mqttState = MQTT_CLIENT_STARTED
    ∧ (mqttSelfEventHandler cfg env (slotSelectedEvent Y) s)._mqttClient
        = some (s.trace.length + 2)
    ∧ activeSlot (mqttSelfEventHandler cfg env (slotSelectedEvent Y) s) = Y
    ∧ (mqttSelfEventHandler cfg env (slotSelectedEvent Y) s)._mqttData.primary
        = decide (Y = Slot.Primary)
    ∧ (mqttSelfEventHandler cfg env (slotSelectedEvent Y) s)._mqttData.connected = false
    ∧ (mqttSelfEventHandler cfg env (slotSelectedEvent Y) s)._mqttData.conn_attempt = 0 := by
  have e : mqttSelfEventHandler cfg env (slotSelectedEvent Y) s
      = (mqttStart cfg env (vTaskDelay 1000 (mqttTaskStop cfg env s).2)).2 := by
    cases Y <;> rfl
  rw [e, mqttTaskStop_ok cfg env s h hc (hok _)]
  have hd := mqttStart_configure_data cfg (vTaskDelay 1000 { s with
      _mqttClient := none
      _mqttState := MQTT_CLIENT_STOPPED
      _mqttData := { s._mqttData with connected := false, conn_attempt := 0, host := none }
      _mqttTopicStatus := if cfg.CONFIG_MQTT_STATUS_LWT || cfg.CONFIG_MQTT_STATUS_ONLINE
        then none else s._mqttTopicStatus
      trace := s.trace ++ [Call.esp_mqtt_client_destroy h true] })
  rw [mqttStart_ok cfg env _ hok rfl]
  have hp : s._mqttPrimary = decide (Y = Slot.Primary) := by
    rw [← hY]; unfold activeSlot; cases s._mqttPrimary <;> rfl
  refine ⟨?_, rfl, ?_, ?_, ?_, hd.2.1, hd.2.2⟩
  · have ha : activeSlot (vTaskDelay 1000 { s with
        _mqttClient := none
        _mqttState := MQTT_CLIENT_STOPPED
        _mqttData := { s._mqttData with connected := false, conn_attempt := 0, host := none }
        _mqttTopicStatus := if cfg.CONFIG_MQTT_STATUS_LWT || cfg.CONFIG_MQTT_STATUS_ONLINE
          then none else s._mqttTopicStatus
        trace := s.trace ++ [Call.esp_mqtt_client_destroy h true] }) = Y := hY
    rw [ha]
    simp [newCalls, vTaskDelay]
  · simp [vTaskDelay]
  · exact hY
  · rw [← hp]; exact hd.1

/-- What `mqttServer1Select` does: it records the primary slot, posts
`RE_MQTT_SERVER_PRIMARY`, and calls nothing of the client library. -/
theorem mqttServer1Select_spec (cfg : Config) (env : Env) (s : State) :
    activeSlot (mqttServer1Select cfg env s).2 = Slot.Primary
    ∧ (mqttServer1Select cfg env s).2._mqttState = s._mqttState
    ∧ (mqttServer1Select cfg env s).2._mqttClient = s._mqttClient
    ∧ postedEvents (newCalls s (mqttServer1Select cfg env s).2) = [RE_MQTT_SERVER_PRIMARY]
    ∧ (newCalls s (mqttServer1Select cfg env s).2).filter Call.isTransport = [] := by
  unfold mqttServer1Select eventLoopPost backToPrimaryCancel activeSlot
  split <;>
    simp [newCalls, eventHandlerUnregisterTime, postedEvents, Call.isTransport]

/-- What `mqttServer2Select` does: it records the reserved slot, posts
`RE_MQTT_SERVER_RESERVED`, and calls nothing of the client library. -/
theorem mqttServer2Select_spec (cfg : Config) (env : Env) (s : State) :
    activeSlot (mqttServer2Select cfg env s).2 = Slot.Reserved
    ∧ (mqttServer2Select cfg env s).2._mqttState = s._mqttState
    ∧ (mqttServer2Select cfg env s).2._mqttClient = s._mqttClient
    ∧ postedEvents (newCalls s (mqttServer2Select cfg env s).2) = [RE_MQTT_SERVER_RESERVED]
    ∧ (newCalls s (mqttServer2Select cfg env s).2).filter Call.isTransport = [] := by
  unfold mqttServer2Select eventLoopPost backToPrimaryArm activeSlot
  split <;>
    simp [newCalls, eventHandlerRegisterTime, postedEvents, Call.isTransport]

/-- The routine `mqttServerSelectAuto` hands over to when a client exists for
the slot other than the one it acts for. -/
theorem mqttServerSelectAuto_switch (cfg : Config) (env : Env) (s : State) (Y : Slot)
    (hst : s._mqttState ≠ MQTT_CLIENT_STOPPED) (hsel : selectedSlot cfg s = some Y)
    (hne : activeSlot s ≠ Y) :
    mqttServerSelectAuto cfg env s =
      match Y with
      | Slot.Primary => mqttServer1Select cfg env s
      | Slot.Reserved => mqttServer2Select cfg env s := by
  cases Y with
  | Primary =>
    have hp : s._mqttPrimary = false := by
      cases hp : s._mqttPrimary
      · rfl
      · exact absurd (by simp [activeSlot, hp]) hne
    rw [mqttServerSelectAuto_primary cfg env s hsel]
    cases hs : s._mqttState
    · exact absurd hs hst
    · simp [hp]
    · simp [hp]
  | Reserved =>
    have hp : s._mqttPrimary = true := by
      cases hp : s._mqttPrimary
      · exact absurd (by simp [activeSlot, hp]) hne
      · rfl
    rw [mqttServerSelectAuto_reserved cfg env s hsel]
    cases hs : s._mqttState
    · exact absurd hs hst
    · simp [hp]
    · simp [hp]

/-- C8: when a client exists (state started or suspended) for slot X and
`mqttServerSelectAuto` acts for the other slot Y, it records Y as the selected
slot, posts exactly the slot-selected event of Y and calls nothing of the
client library, the state and the client staying as they were; handling that
event in `mqttSelfEventHandler`, with every external call succeeding, makes
exactly the calls destroy (of the old client), delay of 1000 ms, create with
the profile of Y, register, start, and ends started on Y with `connected`
false and the attempt counter 0. -/
theorem switch_cells (cfg : Config) (env : Env) (s : State) (h : Nat) (Y : Slot)
    (hok : ∀ n, env.ok n = true) (hc : s._mqttClient = some h)
    (hst : s._mqttState ≠ MQTT_CLIENT_STOPPED) (hsel : selectedSlot cfg s = some Y)
    (hne : activeSlot s ≠ Y) :
    (activeSlot (mqttServerSelectAuto cfg env s).2 = Y
      ∧ (mqttServerSelectAuto cfg env s).2._mqttState = s._mqttState
      ∧ (mqttServerSelectAuto cfg env s).2._mqttClient = some h
      ∧ postedEvents (newCalls s (mqttServerSelectAuto cfg env s).2) = [slotSelectedEvent Y]
      ∧ (newCalls s (mqttServerSelectAuto cfg env s).2).filter Call.isTransport = [])
    ∧ (newCalls (mqttServerSelectAuto cfg env s).2
          (mqttSelfEventHandler cfg env (slotSelectedEvent Y) (mqttServerSelectAuto cfg env s).2)
        = [Call.esp_mqtt_client_destroy h true, Call.vTaskDelay 1000,
           Call.esp_mqtt_client_init (brokerProfile cfg Y)
             (some ((mqttServerSelectAuto cfg env s).2.trace.length + 2)),
           Call.esp_mqtt_client_register_event
             ((mqttServerSelectAuto cfg env s).2.trace.length + 2) true,
           Call.esp_mqtt_client_start ((mqttServerSelectAuto cfg env s).2.trace.length + 2) true]
      ∧ (mqttSelfEventHandler cfg env (slotSelectedEvent Y)
          (mqttServerSelectAuto cfg env s).2)._mqttState = MQTT_CLIENT_STARTED
      ∧ (mqttSelfEventHandler cfg env (slotSelectedEvent Y)
          (mqttServerSelectAuto cfg env s).2)._mqttClient
            = some ((mqttServerSelectAuto cfg env s).2.trace.length + 2)
      ∧ activeSlot (mqttSelfEventHandler cfg env (slotSelectedEvent Y)
          (mqttServerSelectAuto cfg env s).2) = Y
      ∧ (mqttSelfEventHandler cfg env (slotSelectedEvent Y)
          (mqttServerSelectAuto cfg env s).2)._mqttData.primary = decide (Y = Slot.Primary)
      ∧ (mqttSelfEventHandler cfg env (slotSelectedEvent Y)
          (mqttServerSelectAuto cfg env s).2)._mqttData.connected = false
      ∧ (mqttSelfEventHandler cfg env (slotSelectedEvent Y)
          (mqttServerSelectAuto cfg env s).2)._mqttData.conn_attempt = 0) := by
  have hfirst : activeSlot (mqttServerSelectAuto cfg env s).2 = Y
      ∧ (mqttServerSelectAuto cfg env s).2._mqttState = s._mqttState
      ∧ (mqttServerSelectAuto cfg env s).2._mqttClient = some h
      ∧ postedEvents (newCalls s (mqttServerSelectAuto cfg env s).2) = [slotSelectedEvent Y]
      ∧ (newCalls s (mqttServerSelectAuto cfg env s).2).filter Call.isTransport = [] := by
    rw [mqttServerSelectAuto_switch cfg env s Y hst hsel hne, ← hc]
    cases Y with
    | Primary => exact mqttServer1Select_spec cfg env s
    | Reserved => exact mqttServer2Select_spec cfg env s
  exact ⟨hfirst, mqttSelfEventHandler_ok cfg env _ h Y hok hfirst.2.2.1 hfirst.1⟩

/-- C8 at the state connected on the reserved broker in which the primary
broker has just been reported available, so that `mqttServerSelectAuto` acts
for the primary broker. -/
theorem switch_cells_witness :
    (startedOnReserved._mqttClient = some 1
      ∧ startedOnReserved._mqttState ≠ MQTT_CLIENT_STOPPED
      ∧ selectedSlot Config.sample startedOnReserved = some Slot.Primary
      ∧ activeSlot startedOnReserved ≠ Slot.Primary)
    ∧ postedEvents (newCalls startedOnReserved
        (mqttServerSelectAuto Config.sample Env.allOk startedOnReserved).2)
          = [RE_MQTT_SERVER_PRIMARY]
    ∧ (mqttSelfEventHandler Config.sample Env.allOk RE_MQTT_SERVER_PRIMARY
        (mqttServerSelectAuto Config.sample Env.allOk startedOnReserved).2)._mqttState
          = MQTT_CLIENT_STARTED
    ∧ (mqttSelfEventHandler Config.sample Env.allOk RE_MQTT_SERVER_PRIMARY
        (mqttServerSelectAuto Config.sample Env.allOk startedOnReserved).2)._mqttData.primary
          = true :=
  have hw := switch_cells Config.sample Env.allOk startedOnReserved 1 Slot.Primary
    (fun _ => rfl) (by decide) (by decide) (by decide) (by decide)
  ⟨⟨by decide, by decide, by decide, by decide⟩, hw.1.2.2.2.1, hw.2.2.1, hw.2.2.2.2.2.1⟩

/-! ## Stop before start -/

theorem mqttTaskStop_noCreate (cfg : Config) (env : Env) (s : State) :
    (newCalls s (mqttTaskStop cfg env s).2).any Call.isCreateOrStart = false := by
  rcases hc : s._mqttClient with _ | c
  · rw [mqttTaskStop_none cfg env s hc]; simp [newCalls]
  · cases hk : env.ok s.trace.length
    · rw [mqttTaskStop_fail cfg env s c hc hk]; simp [newCalls, Call.isCreateOrStart]
    · rw [mqttTaskStop_ok cfg env s c hc hk]; simp [newCalls, Call.isCreateOrStart]

theorem mqttStart_trace (cfg : Config) (env : Env) (s : State) :
    ∃ l, (mqttStart cfg env s).2.trace = s.trace ++ l := by
  rcases hc : s._mqttClient with _ | c
  · rw [mqttStart_none cfg env s hc]
    split_ifs <;> exact ⟨_, rfl⟩
  · rw [mqttStart_some cfg env s c hc]
    cases hk : env.ok s.trace.length
    · rw [mqttTaskStop_fail cfg env s c hc hk]; exact ⟨_, rfl⟩
    · rw [mqttTaskStop_ok cfg env s c hc hk]; exact ⟨_, rfl⟩

/-- C9: in the trace of every execution from the initial state the call order
is respected: a client is created only while no handle is live, and register,
start, stop and destroy are called on the live handle only.  `mqttStart`
entered with a live handle issues no create, register or start call.  In the
switch handler entered with a live handle, a failed destroy is followed by no
create, register or start call, and a successful destroy and the delay come
before every other call. -/
theorem stop_before_start (cfg : Config) (env : Env) (ops : List Op) (s : State) (h : Nat)
    (e : re_mqtt_event_id_t) (Y : Slot) (hc : s._mqttClient = some h) :
    (callOrder (runOps cfg env ops State.init).trace).isSome = true
    ∧ (newCalls s (mqttStart cfg env s).2).any Call.isCreateOrStart = false
    ∧ (env.ok s.trace.length = false →
        (newCalls s (mqttSelfEventHandler cfg env e s)).any Call.isCreateOrStart = false)
    ∧ (env.ok s.trace.length = true →
        (newCalls s (mqttSelfEventHandler cfg env (slotSelectedEvent Y) s)).take 2
          = [Call.esp_mqtt_client_destroy h true, Call.vTaskDelay 1000]) := by
  refine ⟨?_, ?_, fun hk => ?_, fun hk => ?_⟩
  · rw [(Good_runOps cfg env ops State.init Good_init).1]; rfl
  · rw [mqttStart_some cfg env s h hc]
    exact mqttTaskStop_noCreate cfg env s
  · have key : (newCalls s (mqttStart cfg env
        (vTaskDelay 1000 (mqttTaskStop cfg env s).2)).2).any Call.isCreateOrStart = false := by
      rw [mqttTaskStop_fail cfg env s h hc hk]
      rw [mqttStart_some cfg env _ h (by simpa [vTaskDelay] using hc)]
      cases hk2 : env.ok (s.trace.length + 3)
      · rw [mqttTaskStop_fail cfg env _ h (by simpa [vTaskDelay] using hc)
          (by simpa [vTaskDelay] using hk2)]
        simp [newCalls, vTaskDelay, Call.isCreateOrStart]
      · rw [mqttTaskStop_ok cfg env _ h (by simpa [vTaskDelay] using hc)
          (by simpa [vTaskDelay] using hk2)]
        simp [newCalls, vTaskDelay, Call.isCreateOrStart]
    unfold mqttSelfEventHandler
    split
    · exact key
    · exact key
    · simp [newCalls]
  · have e1 : mqttSelfEventHandler cfg env (slotSelectedEvent Y) s
        = (mqttStart cfg env (vTaskDelay 1000 (mqttTaskStop cfg env s).2)).2 := by
      cases Y <;> rfl
    rw [e1, mqttTaskStop_ok cfg env s h hc hk]
    obtain ⟨l, hl⟩ := mqttStart_trace cfg env (vTaskDelay 1000 { s with
      _mqttClient := none
      _mqttState := MQTT_CLIENT_STOPPED
      _mqttData := { s._mqttData with connected := false, conn_attempt := 0, host := none }
      _mqttTopicStatus := if cfg.CONFIG_MQTT_STATUS_LWT || cfg.CONFIG_MQTT_STATUS_ONLINE
        then none else s._mqttTopicStatus
      trace := s.trace ++ [Call.esp_mqtt_client_destroy h true] })
    rw [newCalls, hl]
    simp [vTaskDelay]

/-- The replay rejects a trace that creates a second client while the first
is live, and one that starts a handle that was destroyed. -/
theorem callOrder_rejects (c : esp_mqtt_client_config_t) :
    callOrder [Call.esp_mqtt_client_init c (some 0), Call.esp_mqtt_client_init c (some 1)] = none
    ∧ callOrder [Call.esp_mqtt_client_init c (some 0), Call.esp_mqtt_client_destroy 0 true,
        Call.esp_mqtt_client_start 0 true] = none := by
  constructor <;> rfl

/-- C9 at the session started from the initial state: the switch handler with
the destroy call failing, and with every call succeeding. -/
theorem stop_before_start_witness :
    afterStart._mqttClient = some 0
    ∧ (Env.failAt 3).ok afterStart.trace.length = false
    ∧ (newCalls afterStart (mqttSelfEventHandler Config.sample (Env.failAt 3)
        RE_MQTT_SERVER_PRIMARY afterStart)).any Call.isCreateOrStart = false
    ∧ (newCalls afterStart (mqttSelfEventHandler Config.sample Env.allOk
        (slotSelectedEvent Slot.Primary) afterStart)).take 2
          = [Call.esp_mqtt_client_destroy 0 true, Call.vTaskDelay 1000] :=
  ⟨by decide, by decide,
   (stop_before_start Config.sample (Env.failAt 3) [] afterStart 0 RE_MQTT_SERVER_PRIMARY
      Slot.Primary (by decide)).2.2.1 (by decide),
   (stop_before_start Config.sample Env.allOk [] afterStart 0 RE_MQTT_SERVER_PRIMARY
      Slot.Primary (by decide)).2.2.2 (by decide)⟩

/-! ## Failure semantics -/

/-- The outcome of `mqttStart` entered without a client when one of its three
client-library calls fails. -/
theorem mqttStart_fail (cfg : Config) (env : Env) (s : State) (hc : s._mqttClient = none)
    (hf : env.ok s.trace.length = false ∨ env.ok (s.trace.length + 1) = false
      ∨ env.ok (s.trace.length + 2) = false) :
    (mqttStart cfg env s).1 = false
    ∧ (mqttStart cfg env s).2._mqttState = MQTT_CLIENT_STOPPED
    ∧ (newCalls s (mqttStart cfg env s).2).count Call.eventLoopPostSystem_RE_SYS_ERROR_SET = 1
    ∧ (newCalls s (mqttStart cfg env s).2).getLast?
        = some Call.eventLoopPostSystem_RE_SYS_ERROR_SET := by
  rw [mqttStart_none cfg env s hc]
  split_ifs with h1 h2 h3
  · simp [h1, h2, h3] at hf
  all_goals simp [newCalls, List.count_cons]

/-- C10: when the client-library call of a lifecycle routine fails, the
routine returns `false`, posts the system error (`RE_SYS_ERROR` set) once, and
leaves `_mqttState` as it was.  For `mqttTaskStop`, `mqttTaskSuspend` and
`mqttTaskResume` (entered with a client, in any state) nothing but the trace
changes; for `mqttStart` entered without a client, in any state reached from
the initial state, whichever of the create, register and start calls fails. -/
theorem lifecycle_failure_semantics (cfg : Config) (env : Env) (ops : List Op) (s : State)
    (h : Nat) :
    (s._mqttClient = some h → env.ok s.trace.length = false →
      mqttTaskStop cfg env s = (false, { s with trace := s.trace ++
        [Call.esp_mqtt_client_destroy h false, Call.eventLoopPostSystem_RE_SYS_ERROR_SET] })
      ∧ mqttTaskSuspend env s = (false, { s with trace := s.trace ++
        [Call.esp_mqtt_client_stop h false, Call.eventLoopPostSystem_RE_SYS_ERROR_SET] })
      ∧ mqttTaskResume env s = (false, { s with trace := s.trace ++
        [Call.esp_mqtt_client_start h false, Call.eventLoopPostSystem_RE_SYS_ERROR_SET] }))
    ∧ ((runOps cfg env ops State.init)._mqttClient = none →
      (env.ok (runOps cfg env ops State.init).trace.length = false
        ∨ env.ok ((runOps cfg env ops State.init).trace.length + 1) = false
        ∨ env.ok ((runOps cfg env ops State.init).trace.length + 2) = false) →
      (mqttStart cfg env (runOps cfg env ops State.init)).1 = false
      ∧ (mqttStart cfg env (runOps cfg env ops State.init)).2._mqttState
          = (runOps cfg env ops State.init)._mqttState
      ∧ (newCalls (runOps cfg env ops State.init)
          (mqttStart cfg env (runOps cfg env ops State.init)).2).count
            Call.eventLoopPostSystem_RE_SYS_ERROR_SET = 1) := by
  refine ⟨fun hc hk => ⟨mqttTaskStop_fail cfg env s h hc hk, mqttTaskSuspend_fail env s h hc hk,
    mqttTaskResume_fail env s h hc hk⟩, fun hc hf => ?_⟩
  have hg := Good_runOps cfg env ops State.init Good_init
  have hst : (runOps cfg env ops State.init)._mqttState = MQTT_CLIENT_STOPPED := by
    by_contra hne
    have := hg.2.1 hne
    simp [hc] at this
  have hm := mqttStart_fail cfg env _ hc hf
  exact ⟨hm.1, by rw [hm.2.1, hst], hm.2.2.1⟩

/-- C10 at the session started from the initial state with the destroy,
stop or start call failing, and at the initial state with the registration
inside `mqttStart` failing. -/
theorem lifecycle_failure_semantics_witness :
    (afterStart._mqttClient = some 0
      ∧ (Env.failAt 3).ok afterStart.trace.length = false
      ∧ mqttTaskStop Config.sample (Env.failAt 3) afterStart = (false, { afterStart with
          trace := afterStart.trace ++ [Call.esp_mqtt_client_destroy 0 false,
            Call.eventLoopPostSystem_RE_SYS_ERROR_SET] }))
    ∧ ((runOps Config.sample (Env.failAt 1) [] State.init)._mqttClient = none
      ∧ (Env.failAt 1).ok ((runOps Config.sample (Env.failAt 1) [] State.init).trace.length + 1)
          = false
      ∧ (mqttStart Config.sample (Env.failAt 1)
          (runOps Config.sample (Env.failAt 1) [] State.init)).1 = false
      ∧ (mqttStart Config.sample (Env.failAt 1)
          (runOps Config.sample (Env.failAt 1) [] State.init)).2._mqttState
            = (runOps Config.sample (Env.failAt 1) [] State.init)._mqttState) :=
  have hA := (lifecycle_failure_semantics Config.sample (Env.failAt 3) [] afterStart 0).1
    (by decide) (by decide)
  have hB := (lifecycle_failure_semantics Config.sample (Env.failAt 1) [] afterStart 0).2
    (by decide) (Or.inr (Or.inl (by decide)))
  ⟨⟨by decide, by decide, hA.1⟩, ⟨by decide, by decide, hB.1, hB.2.1⟩⟩

/-! ## Commands -/

/-- C11: while the `connected` flag of the session is false, `mqttPublish`,
`mqttSubscribe` and `mqttUnsubscribe` return `false` for all arguments and
leave the whole state as it was: no call to the client library, no event, the
error latch untouched. -/
theorem commands_while_disconnected (env : Env) (s : State) (topic payload : Option String)
    (qos : Int) (retained forced free_topic free_payload : Bool) (t : String)
    (hd : s._mqttData.connected = false) :
    mqttPublish env topic payload qos retained forced free_topic free_payload s = (false, s)
    ∧ mqttSubscribe env t qos s = (false, s)
    ∧ mqttUnsubscribe env t s = (false, s) := by
  refine ⟨?_, ?_, ?_⟩
  · cases topic <;> simp [mqttPublish, hd]
  · simp [mqttSubscribe, hd]
  · simp [mqttUnsubscribe, hd]

/-- C11 at the initial state, which is not connected. -/
theorem commands_while_disconnected_witness :
    State.init._mqttData.connected = false
    ∧ mqttPublish Env.allOk (some "status") (some "online") 1 true true false false State.init
        = (false, State.init)
    ∧ mqttSubscribe Env.allOk "topic" 1 State.init = (false, State.init)
    ∧ mqttUnsubscribe Env.allOk "topic" State.init = (false, State.init) :=
  ⟨rfl, commands_while_disconnected Env.allOk State.init (some "status") (some "online") 1 true
    true false false "topic" rfl⟩

/-- C12: when connected and given a topic, `mqttPublish` makes exactly one call
to the client library, `esp_mqtt_client_publish` when `forced` and
`esp_mqtt_client_enqueue` (with `store` true) otherwise, passing the length of
the payload (0 for a null payload); it returns `true` exactly when the call
did not return the error `-1`, and then it changes nothing but the trace; on
the error it returns `false`, sets the error latch and posts one
`RE_MQTT_ERROR` event without message. -/
theorem publish_modes_and_result (env : Env) (s : State) (t : String) (payload : Option String)
    (qos : Int) (retained forced free_topic free_payload : Bool)
    (hc : s._mqttData.connected = true) :
    (newCalls s (mqttPublish env (some t) payload qos retained forced free_topic
        free_payload s).2).filter Call.isTransport
      = [if forced then
           Call.esp_mqtt_client_publish s._mqttClient t payload (payloadLength payload) qos
             retained (env.msg_id s.trace.length)
         else
           Call.esp_mqtt_client_enqueue s._mqttClient t payload (payloadLength payload) qos
             retained true (env.msg_id s.trace.length)]
    ∧ ((mqttPublish env (some t) payload qos retained forced free_topic free_payload s).1 = true
        ↔ env.msg_id s.trace.length ≠ -1)
    ∧ (env.msg_id s.trace.length ≠ -1 →
        (mqttPublish env (some t) payload qos retained forced free_topic free_payload s).2
          = { s with trace := s.trace ++
              [if forced then
                 Call.esp_mqtt_client_publish s._mqttClient t payload (payloadLength payload) qos
                   retained (env.msg_id s.trace.length)
               else
                 Call.esp_mqtt_client_enqueue s._mqttClient t payload (payloadLength payload)
                   qos retained true (env.msg_id s.trace.length)] })
    ∧ (env.msg_id s.trace.length = -1 →
        (mqttPublish env (some t) payload qos retained forced free_topic free_payload s).1
          = false
        ∧ (mqttPublish env (some t) payload qos retained forced free_topic
            free_payload s).2._mqttError = true
        ∧ postedEvents (newCalls s (mqttPublish env (some t) payload qos retained forced
            free_topic free_payload s).2) = [RE_MQTT_ERROR none]) := by
  by_cases hm : env.msg_id s.trace.length = -1
  · cases forced <;> cases payload <;>
      simp [mqttPublish, hc, hm, newCalls, mqttErrorEventSend, eventLoopPost, Call.isTransport,
        postedEvents, payloadLength]
  · cases forced <;> cases payload <;>
      simp [mqttPublish, hc, hm, newCalls, Call.isTransport, payloadLength]

/-- C12 on the session connected on the reserved broker: a forced publish of a
two-byte payload makes the one call `esp_mqtt_client_publish` with length 2
and returns `true`; a queued publish of a null payload whose call returns `-1`
returns `false`, sets the latch and posts one `RE_MQTT_ERROR`. -/
theorem publish_modes_and_result_witness :
    connectedOnReserved._mqttData.connected = true
    ∧ (newCalls connectedOnReserved (mqttPublish Env.allOk (some "t") (some "on") 1 false true
          false false connectedOnReserved).2).filter Call.isTransport
        = [Call.esp_mqtt_client_publish (some 1) "t" (some "on") 2 1 false 5]
    ∧ (mqttPublish Env.allOk (some "t") (some "on") 1 false true false false
          connectedOnReserved).1 = true
    ∧ (mqttPublish Env.publishFails (some "t") none 0 true false false false
          connectedOnReserved).1 = false
    ∧ (mqttPublish Env.publishFails (some "t") none 0 true false false false
          connectedOnReserved).2._mqttError = true
    ∧ postedEvents (newCalls connectedOnReserved (mqttPublish Env.publishFails (some "t") none 0
          true false false false connectedOnReserved).2) = [RE_MQTT_ERROR none] :=
  ⟨by decide,
   (publish_modes_and_result Env.allOk connectedOnReserved "t" (some "on") 1 false true false
      false (by decide)).1,
   (publish_modes_and_result Env.allOk connectedOnReserved "t" (some "on") 1 false true false
      false (by decide)).2.1.2 (by decide),
   (publish_modes_and_result Env.publishFails connectedOnReserved "t" none 0 true false false
      false (by decide)).2.2.2 rfl⟩

/-! ## What the failover routines touch -/

theorem FailoverStep_refl (s : State) : FailoverStep s s :=
  ⟨rfl, [], by simp, rfl⟩

theorem FailoverStep_trans {s s' s'' : State} (h1 : FailoverStep s s')
    (h2 : FailoverStep s' s'') : FailoverStep s s'' := by
  obtain ⟨e1, l1, t1, a1⟩ := h1
  obtain ⟨e2, l2, t2, a2⟩ := h2
  refine ⟨e2.trans e1, l1 ++ l2, ?_, ?_⟩
  · rw [t2, t1, List.append_assoc]
  · rw [List.all_append, a1, a2]; rfl

/-- Appending failover calls to the trace is a failover step. -/
theorem FailoverStep_append (s : State) (l : List Call)
    (hl : l.all Call.isFailoverCall = true) :
    FailoverStep s { s with trace := s.trace ++ l } :=
  ⟨rfl, l, rfl, hl⟩

theorem FailoverStep_mqttTaskStop (cfg : Config) (env : Env) (s : State) :
    FailoverStep s (mqttTaskStop cfg env s).2 := by
  rcases hc : s._mqttClient with _ | c
  · rw [mqttTaskStop_none cfg env s hc]; exact FailoverStep_refl s
  · cases hk : env.ok s.trace.length
    · rw [mqttTaskStop_fail cfg env s c hc hk]; exact ⟨rfl, _, rfl, by simp [Call.isFailoverCall]⟩
    · rw [mqttTaskStop_ok cfg env s c hc hk]; exact ⟨rfl, _, rfl, by simp [Call.isFailoverCall]⟩

theorem FailoverStep_mqttTaskSuspend (env : Env) (s : State) :
    FailoverStep s (mqttTaskSuspend env s).2 := by
  rcases hc : s._mqttClient with _ | c
  · rw [mqttTaskSuspend_none env s hc]; exact FailoverStep_refl s
  · cases hk : env.ok s.trace.length
    · rw [mqttTaskSuspend_fail env s c hc hk]; exact ⟨rfl, _, rfl, by simp [Call.isFailoverCall]⟩
    · rw [mqttTaskSuspend_ok env s c hc hk]; exact ⟨rfl, _, rfl, by simp [Call.isFailoverCall]⟩

theorem FailoverStep_mqttTaskResume (env : Env) (s : State) :
    FailoverStep s (mqttTaskResume env s).2 := by
  rcases hc : s._mqttClient with _ | c
  · rw [mqttTaskResume_none env s hc]; exact FailoverStep_refl s
  · cases hk : env.ok s.trace.length
    · rw [mqttTaskResume_fail env s c hc hk]; exact ⟨rfl, _, rfl, by simp [Call.isFailoverCall]⟩
    · rw [mqttTaskResume_ok env s c hc hk]; exact ⟨rfl, _, rfl, by simp [Call.isFailoverCall]⟩

theorem FailoverStep_mqttStart (cfg : Config) (env : Env) (s : State) :
    FailoverStep s (mqttStart cfg env s).2 := by
  rcases hc : s._mqttClient with _ | c
  · rw [mqttStart_none cfg env s hc]
    split_ifs <;> exact ⟨rfl, _, rfl, by simp [Call.isFailoverCall]⟩
  · rw [mqttStart_some cfg env s c hc]; exact FailoverStep_mqttTaskStop cfg env s

theorem FailoverStep_backToPrimaryCancel (cfg : Config) (s : State) :
    FailoverStep s (backToPrimaryCancel cfg s) := by
  unfold backToPrimaryCancel
  split
  · exact ⟨rfl, [Call.eventHandlerUnregister_RE_TIME_EVERY_MINUTE], rfl, rfl⟩
  · exact FailoverStep_refl s

theorem FailoverStep_backToPrimaryArm (cfg : Config) (s : State) :
    FailoverStep s (backToPrimaryArm cfg s) := by
  unfold backToPrimaryArm
  split
  · exact ⟨rfl, [Call.eventHandlerRegister_RE_TIME_EVERY_MINUTE], rfl, rfl⟩
  · exact FailoverStep_refl s

theorem FailoverStep_mqttServer1Start (cfg : Config) (env : Env) (s : State) :
    FailoverStep s (mqttServer1Start cfg env s).2 :=
  FailoverStep_trans
    (FailoverStep_backToPrimaryCancel cfg { s with _mqttPrimary := true, _mqttServer2Activate := 0 })
    (FailoverStep_mqttStart cfg env _)

theorem FailoverStep_mqttServer2Start (cfg : Config) (env : Env) (s : State) :
    FailoverStep s (mqttServer2Start cfg env s).2 :=
  FailoverStep_trans
    (FailoverStep_backToPrimaryArm cfg
      { s with _mqttPrimary := false, _mqttServer2Activate := env.time s.trace.length })
    (FailoverStep_mqttStart cfg env _)

theorem FailoverStep_mqttServer1Select (cfg : Config) (env : Env) (s : State) :
    FailoverStep s (mqttServer1Select cfg env s).2 :=
  FailoverStep_trans
    (FailoverStep_backToPrimaryCancel cfg { s with _mqttPrimary := true, _mqttServer2Activate := 0 })
    (FailoverStep_append _ [_] rfl)

theorem FailoverStep_mqttServer2Select (cfg : Config) (env : Env) (s : State) :
    FailoverStep s (mqttServer2Select cfg env s).2 :=
  FailoverStep_trans
    (FailoverStep_backToPrimaryArm cfg
      { s with _mqttPrimary := false, _mqttServer2Activate := env.time s.trace.length })
    (FailoverStep_append _ [_] rfl)

theorem FailoverStep_mqttServerSelectAuto (cfg : Config) (env : Env) (s : State) :
    FailoverStep s (mqttServerSelectAuto cfg env s).2 := by
  have c1 := FailoverStep_mqttServer1Start cfg env s
  have c2 := FailoverStep_mqttServer1Select cfg env s
  have c3 := FailoverStep_mqttServer2Start cfg env s
  have c4 := FailoverStep_mqttServer2Select cfg env s
  have c5 := FailoverStep_mqttTaskResume env s
  have c6 := FailoverStep_mqttTaskSuspend env s
  have c0 := FailoverStep_refl s
  unfold mqttServerSelectAuto mqttServer1Acivate mqttServer2Acivate
  split
  · split
    · exact c1
    · split
      · exact c2
      · exact c0
    · split
      · exact c5
      · exact c2
  · split
    · split
      · exact c3
      · split
        · exact c4
        · exact c0
      · split
        · exact c5
        · exact c4
    · split
      · exact c6
      · exact c0

theorem FailoverStep_mqttServer1SetAvailable (cfg : Config) (env : Env) (b : Bool) (s : State) :
    FailoverStep s (mqttServer1SetAvailable cfg env b s).2 := by
  unfold mqttServer1SetAvailable
  split
  · exact FailoverStep_mqttServerSelectAuto cfg env { s with _mqttServer1Available := b }
  · exact FailoverStep_refl s

theorem FailoverStep_mqttServer2SetAvailable (cfg : Config) (env : Env) (b : Bool) (s : State) :
    FailoverStep s (mqttServer2SetAvailable cfg env b s).2 := by
  unfold mqttServer2SetAvailable
  split
  · exact FailoverStep_mqttServerSelectAuto cfg env { s with _mqttServer2Available := b }
  · exact FailoverStep_refl s

theorem FailoverStep_mqttServerSelectInet (cfg : Config) (env : Env) (b : Bool) (s : State) :
    FailoverStep s (mqttServerSelectInet cfg env b s).2 := by
  unfold mqttServerSelectInet
  split
  · exact FailoverStep_mqttServerSelectAuto cfg env { s with _mqttInternetAvailable := b }
  · exact FailoverStep_refl s

theorem FailoverStep_mqttSelfEventHandler (cfg : Config) (env : Env) (e : re_mqtt_event_id_t)
    (s : State) : FailoverStep s (mqttSelfEventHandler cfg env e s) := by
  have h : FailoverStep s (mqttStart cfg env (vTaskDelay 1000 (mqttTaskStop cfg env s).2)).2 :=
    FailoverStep_trans (FailoverStep_mqttTaskStop cfg env s)
      (FailoverStep_trans (FailoverStep_append _ [Call.vTaskDelay 1000] rfl)
        (FailoverStep_mqttStart cfg env _))
  unfold mqttSelfEventHandler
  split
  · exact h
  · exact h
  · exact FailoverStep_refl s

theorem FailoverStep_mqttTimeEventHandler (cfg : Config) (env : Env) (s : State) :
    FailoverStep s (mqttTimeEventHandler cfg env s) := by
  unfold mqttTimeEventHandler
  dsimp only
  split
  · exact FailoverStep_mqttServer1SetAvailable cfg env true
      { s with _mqttBackToPrimarty := 0 }
  · exact FailoverStep_refl s

theorem FailoverStep_mqttWiFiEventHandler (cfg : Config) (env : Env) (e : re_wifi_event_id_t)
    (s : State) : FailoverStep s (mqttWiFiEventHandler cfg env e s) := by
  have h1 := fun b => FailoverStep_mqttServerSelectInet cfg env b s
  have h2 := FailoverStep_mqttTaskSuspend env s
  unfold mqttWiFiEventHandler
  split
  · exact h1 _
  · exact h1 _
  · exact h1 _
  · split
    · exact h2
    · exact FailoverStep_refl s
  · split
    · exact h2
    · exact FailoverStep_refl s
  · exact FailoverStep_refl s

/-- The only events failover calls post are the two slot-selected events. -/
theorem postedEvents_failover (l : List Call) (hl : l.all Call.isFailoverCall = true) :
    ∀ e ∈ postedEvents l, e = RE_MQTT_SERVER_PRIMARY ∨ e = RE_MQTT_SERVER_RESERVED := by
  induction l with
  | nil => simp [postedEvents]
  | cons c l ih =>
    rw [List.all_cons, Bool.and_eq_true] at hl
    intro e he
    have hcons : postedEvents (c :: l) = postedEvents [c] ++ postedEvents l :=
      postedEvents_append [c] l
    rw [hcons, List.mem_append] at he
    rcases he with he | he
    · cases c <;> simp [postedEvents, Call.isFailoverCall] at he hl
      rename_i ev r
      cases ev <;> simp [Call.isFailoverCall] at hl <;> simp [he]
    · exact ih hl.2 e he

/-- The events a failover step posts pass no filter that rejects the two
slot-selected events. -/
theorem postedEvents_failover_filter (p : re_mqtt_event_id_t → Bool) (l : List Call)
    (hl : l.all Call.isFailoverCall = true) (h1 : p RE_MQTT_SERVER_PRIMARY = false)
    (h2 : p RE_MQTT_SERVER_RESERVED = false) : (postedEvents l).filter p = [] := by
  rw [List.filter_eq_nil_iff]
  intro e he
  rcases postedEvents_failover l hl e he with rfl | rfl
  · simp [h1]
  · simp [h2]

/-! ## Disconnection -/

/-- The `MQTT_EVENT_DISCONNECTED` branch, by the three cases of its tests. -/
theorem mqttEventHandler_disconnected (cfg : Config) (env : Env) (data : esp_mqtt_event_t)
    (s : State) (hid : data.event_id = MQTT_EVENT_DISCONNECTED) :
    mqttEventHandler cfg env data s =
      if s._mqttData.connected then
        { s with
          in_buffer := re_mqtt_incoming_data_t.zero
          _mqttError := true
          _mqttData := { s._mqttData with connected := false }
          trace := s.trace ++
            [Call.eventLoopPost (RE_MQTT_ERROR none) (env.ok s.trace.length),
             Call.eventLoopPost (RE_MQTT_CONN_LOST { s._mqttData with connected := false })
               (env.ok (s.trace.length + 1))] }
      else if s._mqttData.conn_attempt = cfg.CONFIG_MQTT_CONNECT_ATTEMPTS then
        if s._mqttPrimary then (mqttServer1SetAvailable cfg env false (exhaustedState env s)).2
        else (mqttServer2SetAvailable cfg env false (exhaustedState env s)).2
      else
        { s with
          in_buffer := re_mqtt_incoming_data_t.zero
          _mqttError := true
          trace := s.trace ++
            [Call.eventLoopPost (RE_MQTT_ERROR none) (env.ok s.trace.length)] } := by
  simp only [mqttEventHandler, hid, mqttEventHandler_DISCONNECTED, mqttErrorEventSend,
    eventLoopPost, exhaustedState]
  by_cases hc : s._mqttData.connected = true
  · simp [hc]
  · simp only [hc, if_false]
    rfl

/-- C20: a `MQTT_EVENT_DISCONNECTED` callback handled while `connected` is true
clears `connected` and posts, after the error event, exactly one
`RE_MQTT_CONN_LOST` event and no `RE_MQTT_CONN_FAILED` event; apart from that
it sets the error latch and zeroes `in_buffer`, and nothing else changes: the
availability flags, the selected slot and the connection state are as before,
whatever the attempt counter. -/
theorem connection_lost (cfg : Config) (env : Env) (data : esp_mqtt_event_t) (s : State)
    (hid : data.event_id = MQTT_EVENT_DISCONNECTED) (hc : s._mqttData.connected = true) :
    mqttEventHandler cfg env data s =
      { s with
        in_buffer := re_mqtt_incoming_data_t.zero
        _mqttError := true
        _mqttData := { s._mqttData with connected := false }
        trace := s.trace ++
          [Call.eventLoopPost (RE_MQTT_ERROR none) (env.ok s.trace.length),
           Call.eventLoopPost (RE_MQTT_CONN_LOST { s._mqttData with connected := false })
             (env.ok (s.trace.length + 1))] }
    ∧ (postedEvents (newCalls s (mqttEventHandler cfg env data s))).filter
        re_mqtt_event_id_t.isConnLost
          = [RE_MQTT_CONN_LOST { s._mqttData with connected := false }]
    ∧ (postedEvents (newCalls s (mqttEventHandler cfg env data s))).filter
        re_mqtt_event_id_t.isConnFailed = []
    ∧ availability (mqttEventHandler cfg env data s) = availability s
    ∧ (mqttEventHandler cfg env data s)._mqttPrimary = s._mqttPrimary
    ∧ (mqttEventHandler cfg env data s)._mqttState = s._mqttState
    ∧ (mqttEventHandler cfg env data s)._mqttData.connected = false := by
  rw [mqttEventHandler_disconnected cfg env data s hid, if_pos hc]
  simp [newCalls, postedEvents, re_mqtt_event_id_t.isConnLost, re_mqtt_event_id_t.isConnFailed,
    availability]

/-- C20 at the session connected on the reserved broker. -/
theorem connection_lost_witness :
    connectedOnReserved._mqttData.connected = true
    ∧ (mqttEventHandler Config.sample Env.allOk (plainEvent MQTT_EVENT_DISCONNECTED)
        connectedOnReserved)._mqttData.connected = false
    ∧ (mqttEventHandler Config.sample Env.allOk (plainEvent MQTT_EVENT_DISCONNECTED)
        connectedOnReserved)._mqttState = connectedOnReserved._mqttState
    ∧ (postedEvents (newCalls connectedOnReserved
        (mqttEventHandler Config.sample Env.allOk (plainEvent MQTT_EVENT_DISCONNECTED)
          connectedOnReserved))).filter re_mqtt_event_id_t.isConnFailed = [] :=
  have hw := connection_lost Config.sample Env.allOk (plainEvent MQTT_EVENT_DISCONNECTED)
    connectedOnReserved rfl (by decide)
  ⟨by decide, hw.2.2.2.2.2.2, hw.2.2.2.2.2.1, hw.2.2.1⟩

theorem exhaustedState_trace (env : Env) (s : State) :
    (exhaustedState env s).trace = s.trace ++
      [Call.eventLoopPost (RE_MQTT_ERROR none) (env.ok s.trace.length),
       Call.eventLoopPost (RE_MQTT_CONN_FAILED s._mqttData) (env.ok (s.trace.length + 1))] := by
  simp [exhaustedState, mqttErrorEventSend, eventLoopPost]

/-- The events posted from `s` to a state a failover step away from
`exhaustedState env s`, through a filter that rejects the slot-selected
events. -/
theorem postedEvents_after_exhausted (env : Env) (s s' : State)
    (p : re_mqtt_event_id_t → Bool) (h : FailoverStep (exhaustedState env s) s')
    (h1 : p RE_MQTT_SERVER_PRIMARY = false) (h2 : p RE_MQTT_SERVER_RESERVED = false) :
    (postedEvents (newCalls s s')).filter p
      = [RE_MQTT_ERROR none, RE_MQTT_CONN_FAILED s._mqttData].filter p := by
  obtain ⟨_, l, ht, hl⟩ := h
  rw [exhaustedState_trace, List.append_assoc] at ht
  rw [newCalls_append s s' _ ht, postedEvents_append, List.filter_append,
    postedEvents_failover_filter p l hl h1 h2, List.append_nil]
  rfl

/-- C14: a `MQTT_EVENT_DISCONNECTED` callback handled while `connected` is
false and the attempt counter equals `CONFIG_MQTT_CONNECT_ATTEMPTS` posts
exactly one `RE_MQTT_CONN_FAILED` event and then makes one mark-unavailable
call, `mqttServer1SetAvailable(false)` when the primary slot is selected and
`mqttServer2SetAvailable(false)` otherwise; afterwards the flag of that slot
is false and the flag of the other slot is as before. -/
theorem connection_exhausted (cfg : Config) (env : Env) (data : esp_mqtt_event_t) (s : State)
    (hid : data.event_id = MQTT_EVENT_DISCONNECTED) (hc : s._mqttData.connected = false)
    (ha : s._mqttData.conn_attempt = cfg.CONFIG_MQTT_CONNECT_ATTEMPTS) :
    mqttEventHandler cfg env data s =
        (if s._mqttPrimary then (mqttServer1SetAvailable cfg env false (exhaustedState env s)).2
         else (mqttServer2SetAvailable cfg env false (exhaustedState env s)).2)
    ∧ (postedEvents (newCalls s (mqttEventHandler cfg env data s))).filter
        re_mqtt_event_id_t.isConnFailed = [RE_MQTT_CONN_FAILED s._mqttData]
    ∧ (s._mqttPrimary = true →
        (mqttEventHandler cfg env data s)._mqttServer1Available = false
        ∧ (mqttEventHandler cfg env data s)._mqttServer2Available = s._mqttServer2Available)
    ∧ (s._mqttPrimary = false →
        (mqttEventHandler cfg env data s)._mqttServer2Available = false
        ∧ (mqttEventHandler cfg env data s)._mqttServer1Available = s._mqttServer1Available) := by
  have he : mqttEventHandler cfg env data s =
      (if s._mqttPrimary then (mqttServer1SetAvailable cfg env false (exhaustedState env s)).2
       else (mqttServer2SetAvailable cfg env false (exhaustedState env s)).2) := by
    rw [mqttEventHandler_disconnected cfg env data s hid, if_neg (by simp [hc]), if_pos ha]
  have hav1 := availability_setter cfg env (SetterCall.server1 false) (exhaustedState env s)
  have hav2 := availability_setter cfg env (SetterCall.server2 false) (exhaustedState env s)
  simp only [availability, SetterCall.run, latestServer1, latestServer2, latestInet,
    List.foldl_cons, List.foldl_nil, Prod.mk.injEq] at hav1 hav2
  have hx1 : (exhaustedState env s)._mqttServer1Available = s._mqttServer1Available := rfl
  have hx2 : (exhaustedState env s)._mqttServer2Available = s._mqttServer2Available := rfl
  refine ⟨he, ?_, fun hp => ?_, fun hp => ?_⟩
  · rw [he]
    cases hp : s._mqttPrimary
    · simpa [re_mqtt_event_id_t.isConnFailed] using
        postedEvents_after_exhausted env s _ re_mqtt_event_id_t.isConnFailed
          (FailoverStep_mqttServer2SetAvailable cfg env false (exhaustedState env s)) rfl rfl
    · simpa [re_mqtt_event_id_t.isConnFailed] using
        postedEvents_after_exhausted env s _ re_mqtt_event_id_t.isConnFailed
          (FailoverStep_mqttServer1SetAvailable cfg env false (exhaustedState env s)) rfl rfl
  · rw [he, if_pos hp]
    exact ⟨hav1.1, hav1.2.1.trans hx2⟩
  · rw [he, if_neg (by simp [hp])]
    exact ⟨hav2.2.1, hav2.1.trans hx1⟩

/-- C14 at a session on the primary broker after three announced attempts,
three being the configured maximum. -/
theorem connection_exhausted_witness :
    (threeAttempts._mqttData.connected = false
      ∧ threeAttempts._mqttData.conn_attempt = Config.sample.CONFIG_MQTT_CONNECT_ATTEMPTS
      ∧ threeAttempts._mqttPrimary = true)
    ∧ (postedEvents (newCalls threeAttempts
        (mqttEventHandler Config.sample Env.allOk (plainEvent MQTT_EVENT_DISCONNECTED)
          threeAttempts))).filter re_mqtt_event_id_t.isConnFailed
            = [RE_MQTT_CONN_FAILED threeAttempts._mqttData]
    ∧ (mqttEventHandler Config.sample Env.allOk (plainEvent MQTT_EVENT_DISCONNECTED)
        threeAttempts)._mqttServer1Available = false
    ∧ (mqttEventHandler Config.sample Env.allOk (plainEvent MQTT_EVENT_DISCONNECTED)
        threeAttempts)._mqttServer2Available = threeAttempts._mqttServer2Available :=
  have hw := connection_exhausted Config.sample Env.allOk (plainEvent MQTT_EVENT_DISCONNECTED)
    threeAttempts rfl (by decide) (by decide)
  ⟨⟨by decide, by decide, by decide⟩, hw.2.1, (hw.2.2.1 (by decide)).1,
    (hw.2.2.1 (by decide)).2⟩

/-! ## Error events -/

/-- C15, counterexample: a second `MQTT_EVENT_ERROR` callback, handled while
the error latch is already set, posts another `RE_MQTT_ERROR` event. -/
theorem error_posted_while_latched :
    latchedConnected._mqttError = true
    ∧ postedEvents (newCalls latchedConnected
        (mqttEventHandler Config.sample Env.allOk (plainEvent MQTT_EVENT_ERROR)
          latchedConnected))
        = [RE_MQTT_ERROR (some (ErrorMessage.unknown_error_type 0))] := by
  decide

/-- C15, as amended: an `RE_MQTT_ERROR` event is posted on every error,
whether the error latch is clear or already set: every `MQTT_EVENT_ERROR`
callback posts exactly one, with a message; every `MQTT_EVENT_DISCONNECTED`
callback posts exactly one, without message; every subscribe, unsubscribe or
publish command the client library answers with the error `-1` posts exactly
one, without message.  Each of them leaves the latch set. -/
theorem error_posted_on_every_error (cfg : Config) (env : Env) (data : esp_mqtt_event_t)
    (s : State) (t : String) (payload : Option String) (qos : Int)
    (retained forced free_topic free_payload : Bool) :
    (data.event_id = MQTT_EVENT_ERROR →
      (∃ m, postedEvents (newCalls s (mqttEventHandler cfg env data s))
          = [RE_MQTT_ERROR (some m)])
      ∧ (mqttEventHandler cfg env data s)._mqttError = true)
    ∧ (data.event_id = MQTT_EVENT_DISCONNECTED →
      (postedEvents (newCalls s (mqttEventHandler cfg env data s))).filter
          re_mqtt_event_id_t.isError = [RE_MQTT_ERROR none]
      ∧ (mqttEventHandler cfg env data s)._mqttError = true)
    ∧ (s._mqttData.connected = true → env.msg_id s.trace.length = -1 →
      (postedEvents (newCalls s (mqttSubscribe env t qos s).2) = [RE_MQTT_ERROR none]
        ∧ (mqttSubscribe env t qos s).2._mqttError = true)
      ∧ (postedEvents (newCalls s (mqttUnsubscribe env t s).2) = [RE_MQTT_ERROR none]
        ∧ (mqttUnsubscribe env t s).2._mqttError = true)
      ∧ (postedEvents (newCalls s (mqttPublish env (some t) payload qos retained forced
            free_topic free_payload s).2) = [RE_MQTT_ERROR none]
        ∧ (mqttPublish env (some t) payload qos retained forced free_topic
            free_payload s).2._mqttError = true)) := by
  refine ⟨fun hid => ?_, fun hid => ?_, fun hc hm => ⟨?_, ?_, ?_⟩⟩
  · simp only [mqttEventHandler, hid, mqttEventHandler_ERROR, mqttErrorEventSend, eventLoopPost,
      ledSysActivity]
    exact ⟨⟨_, by simp [newCalls, postedEvents]; rfl⟩, by trivial⟩
  · rw [mqttEventHandler_disconnected cfg env data s hid]
    split_ifs with h1 h2 h3
    · simp [newCalls, postedEvents, re_mqtt_event_id_t.isError]
    · have hs := FailoverStep_mqttServer1SetAvailable cfg env false (exhaustedState env s)
      refine ⟨?_, hs.1.trans rfl⟩
      simpa [re_mqtt_event_id_t.isError] using
        postedEvents_after_exhausted env s _ re_mqtt_event_id_t.isError hs rfl rfl
    · have hs := FailoverStep_mqttServer2SetAvailable cfg env false (exhaustedState env s)
      refine ⟨?_, hs.1.trans rfl⟩
      simpa [re_mqtt_event_id_t.isError] using
        postedEvents_after_exhausted env s _ re_mqtt_event_id_t.isError hs rfl rfl
    · simp [newCalls, postedEvents, re_mqtt_event_id_t.isError]
  · simp [mqttSubscribe, hc, hm, mqttErrorEventSend, eventLoopPost, newCalls, postedEvents]
  · simp [mqttUnsubscribe, hc, hm, mqttErrorEventSend, eventLoopPost, newCalls, postedEvents]
  · cases forced <;>
      simp [mqttPublish, hc, hm, mqttErrorEventSend, eventLoopPost, newCalls, postedEvents]

/-- C15, as amended, at the connected session whose error latch is already
set. -/
theorem error_posted_on_every_error_witness :
    (latchedConnected._mqttError = true ∧ latchedConnected._mqttData.connected = true
      ∧ Env.publishFails.msg_id latchedConnected.trace.length = -1)
    ∧ (∃ m, postedEvents (newCalls latchedConnected
        (mqttEventHandler Config.sample Env.allOk (plainEvent MQTT_EVENT_ERROR)
          latchedConnected)) = [RE_MQTT_ERROR (some m)])
    ∧ (postedEvents (newCalls latchedConnected
        (mqttEventHandler Config.sample Env.allOk (plainEvent MQTT_EVENT_DISCONNECTED)
          latchedConnected))).filter re_mqtt_event_id_t.isError = [RE_MQTT_ERROR none]
    ∧ postedEvents (newCalls latchedConnected
        (mqttSubscribe Env.publishFails "topic" 1 latchedConnected).2)
          = [RE_MQTT_ERROR none] :=
  ⟨⟨by decide, by decide, by decide⟩,
   ((error_posted_on_every_error Config.sample Env.allOk (plainEvent MQTT_EVENT_ERROR)
      latchedConnected "topic" none 1 false false false false).1 rfl).1,
   ((error_posted_on_every_error Config.sample Env.allOk (plainEvent MQTT_EVENT_DISCONNECTED)
      latchedConnected "topic" none 1 false false false false).2.1 rfl).1,
   ((error_posted_on_every_error Config.sample Env.publishFails
      (plainEvent MQTT_EVENT_DISCONNECTED) latchedConnected "topic" none 1 false false false
      false).2.2 (by decide) (by decide)).1.1⟩

/-! ## The error latch -/

theorem KeepsLatch_refl (s : State) : KeepsLatch s s :=
  ⟨id, [], by simp, rfl⟩

theorem KeepsLatch_trans {s s' s'' : State} (h1 : KeepsLatch s s') (h2 : KeepsLatch s' s'') :
    KeepsLatch s s'' := by
  obtain ⟨e1, l1, t1, a1⟩ := h1
  obtain ⟨e2, l2, t2, a2⟩ := h2
  refine ⟨fun h => e2 (e1 h), l1 ++ l2, ?_, ?_⟩
  · rw [t2, t1, List.append_assoc]
  · rw [postedEvents_append, List.filter_append, a1, a2]; rfl

theorem KeepsLatch_of_failover {s s' : State} (h : FailoverStep s s') : KeepsLatch s s' := by
  obtain ⟨e, l, t, a⟩ := h
  exact ⟨fun hs => e.trans hs, l, t,
    postedEvents_failover_filter re_mqtt_event_id_t.isErrorClear l a rfl rfl⟩

/-- Appending calls that post no `RE_MQTT_ERROR_CLEAR` keeps the latch. -/
theorem KeepsLatch_append (s : State) (l : List Call)
    (hl : (postedEvents l).filter re_mqtt_event_id_t.isErrorClear = []) :
    KeepsLatch s { s with trace := s.trace ++ l } :=
  ⟨id, l, rfl, hl⟩

theorem KeepsLatch_eventLoopPost (env : Env) (e : re_mqtt_event_id_t) (s : State)
    (he : e.isErrorClear = false) : KeepsLatch s (eventLoopPost env e s).2 :=
  ⟨id, [Call.eventLoopPost e (env.ok s.trace.length)], rfl, by simp [postedEvents, he]⟩

theorem KeepsLatch_ledSysActivity (s : State) : KeepsLatch s (ledSysActivity s) :=
  ⟨id, [Call.ledSysActivity], rfl, rfl⟩

theorem KeepsLatch_mqttErrorEventSend (env : Env) (m : Option ErrorMessage) (s : State) :
    KeepsLatch s (mqttErrorEventSend env m s) :=
  ⟨fun _ => rfl, [Call.eventLoopPost (RE_MQTT_ERROR m) (env.ok s.trace.length)], rfl, rfl⟩

theorem KeepsLatch_mqttSubscribe (env : Env) (t : String) (q : Int) (s : State) :
    KeepsLatch s (mqttSubscribe env t q s).2 := by
  have h1 : KeepsLatch s { s with trace := s.trace ++
      [Call.esp_mqtt_client_subscribe s._mqttClient t q (env.msg_id s.trace.length)] } :=
    KeepsLatch_append s _ rfl
  unfold mqttSubscribe
  dsimp only
  split
  · split
    · exact KeepsLatch_trans h1 (KeepsLatch_mqttErrorEventSend env none _)
    · exact h1
  · exact KeepsLatch_refl s

theorem KeepsLatch_mqttUnsubscribe (env : Env) (t : String) (s : State) :
    KeepsLatch s (mqttUnsubscribe env t s).2 := by
  have h1 : KeepsLatch s { s with trace := s.trace ++
      [Call.esp_mqtt_client_unsubscribe s._mqttClient t (env.msg_id s.trace.length)] } :=
    KeepsLatch_append s _ rfl
  unfold mqttUnsubscribe
  dsimp only
  split
  · split
    · exact KeepsLatch_trans h1 (KeepsLatch_mqttErrorEventSend env none _)
    · exact h1
  · exact KeepsLatch_refl s

theorem KeepsLatch_mqttPublish (env : Env) (t p : Option String) (q : Int) (r f ft fp : Bool)
    (s : State) : KeepsLatch s (mqttPublish env t p q r f ft fp s).2 := by
  unfold mqttPublish
  dsimp only
  split
  · exact KeepsLatch_refl s
  · split
    · have h1 : ∀ c : Call, (postedEvents [c]).filter re_mqtt_event_id_t.isErrorClear = [] →
          KeepsLatch s { s with trace := s.trace ++ [c] } :=
        fun c hc => KeepsLatch_append s _ hc
      split
      · exact KeepsLatch_trans (h1 _ (by split <;> rfl))
          (KeepsLatch_mqttErrorEventSend env none _)
      · exact h1 _ (by split <;> rfl)
    · exact KeepsLatch_refl s

theorem KeepsLatch_mqttEventHandlerRegister (cfg : Config) (env : Env) (s : State) :
    KeepsLatch s (mqttEventHandlerRegister cfg env s).2 := by
  have key : ∀ (l : List HandlerId) (acc : Bool × State), KeepsLatch s acc.2 →
      KeepsLatch s (l.foldl
        (fun acc h => if acc.1 then eventHandlerRegister env h acc.2 else acc) acc).2 := by
    intro l
    induction l with
    | nil => intro acc h; exact h
    | cons a l ih =>
      intro acc h
      rw [List.foldl_cons]
      apply ih
      split
      · exact KeepsLatch_trans h (KeepsLatch_append acc.2 [_] rfl)
      · exact h
  exact key _ (true, s) (KeepsLatch_refl s)

/-- The callbacks other than connected, subscribed, unsubscribed and published
keep the latch. -/
theorem KeepsLatch_mqttEventHandler (cfg : Config) (env : Env) (d : esp_mqtt_event_t)
    (s : State) (h : (Op.mqttEventHandler d).isClearingCallback = false) :
    KeepsLatch s (mqttEventHandler cfg env d s) := by
  cases hid : d.event_id
  · -- MQTT_EVENT_ERROR
    simp only [mqttEventHandler, hid, mqttEventHandler_ERROR, ledSysActivity]
    exact KeepsLatch_trans (KeepsLatch_mqttErrorEventSend env _
      { s with in_buffer := re_mqtt_incoming_data_t.zero,
               _mqttData := { s._mqttData with err_codes := d.error_handle } })
      (KeepsLatch_append _ [Call.ledSysActivity] rfl)
  · simp [Op.isClearingCallback, hid] at h
  · -- MQTT_EVENT_DISCONNECTED
    have hx : KeepsLatch s (exhaustedState env s) :=
      ⟨fun _ => rfl, _, exhaustedState_trace env s, rfl⟩
    rw [mqttEventHandler_disconnected cfg env d s hid]
    split_ifs
    · exact ⟨fun _ => rfl, _, rfl, rfl⟩
    · exact KeepsLatch_trans hx
        (KeepsLatch_of_failover (FailoverStep_mqttServer1SetAvailable cfg env _ _))
    · exact KeepsLatch_trans hx
        (KeepsLatch_of_failover (FailoverStep_mqttServer2SetAvailable cfg env _ _))
    · exact ⟨fun _ => rfl, _, rfl, rfl⟩
  · simp [Op.isClearingCallback, hid] at h
  · simp [Op.isClearingCallback, hid] at h
  · simp [Op.isClearingCallback, hid] at h
  · -- MQTT_EVENT_DATA
    simp only [mqttEventHandler, hid]
    unfold mqttEventHandler_DATA
    dsimp only
    have h1 : KeepsLatch s (if d.current_data_offset = 0 then
        { (calloc env (d.total_data_len + 1)
              { s with in_buffer := re_mqtt_incoming_data_t.zero }).2 with
          in_buffer := { (calloc env (d.total_data_len + 1)
              { s with in_buffer := re_mqtt_incoming_data_t.zero }).2.in_buffer with
            data := (calloc env (d.total_data_len + 1)
              { s with in_buffer := re_mqtt_incoming_data_t.zero }).1 } }
        else { s with in_buffer := re_mqtt_incoming_data_t.zero }) := by
      split
      · exact ⟨id, [Call.calloc (d.total_data_len + 1) (env.ok s.trace.length)], rfl, rfl⟩
      · exact KeepsLatch_refl s
    split
    · split
      · exact KeepsLatch_trans h1 (KeepsLatch_trans (KeepsLatch_eventLoopPost env _ _ (by rfl))
          (KeepsLatch_ledSysActivity _))
      · exact h1
    · exact h1
  · -- MQTT_EVENT_BEFORE_CONNECT
    simp only [mqttEventHandler, hid, ledSysActivity]
    exact ⟨id, [_], rfl, rfl⟩
  · -- MQTT_EVENT_DELETED
    simp only [mqttEventHandler, hid]
    exact KeepsLatch_refl s

theorem KeepsLatch_run (cfg : Config) (env : Env) (op : Op) (s : State)
    (h : op.isClearingCallback = false) : KeepsLatch s (op.run cfg env s) := by
  cases op with
  | mqttStart => exact KeepsLatch_of_failover (FailoverStep_mqttStart cfg env s)
  | mqttTaskStop => exact KeepsLatch_of_failover (FailoverStep_mqttTaskStop cfg env s)
  | mqttTaskSuspend => exact KeepsLatch_of_failover (FailoverStep_mqttTaskSuspend env s)
  | mqttTaskResume => exact KeepsLatch_of_failover (FailoverStep_mqttTaskResume env s)
  | mqttTaskStart b =>
    simp only [Op.run, mqttTaskStart]
    split
    · exact KeepsLatch_mqttEventHandlerRegister cfg env s
    · exact KeepsLatch_of_failover (FailoverStep_mqttServerSelectAuto cfg env s)
  | mqttServerSelectAuto =>
    exact KeepsLatch_of_failover (FailoverStep_mqttServerSelectAuto cfg env s)
  | mqttServer1SetAvailable b =>
    exact KeepsLatch_of_failover (FailoverStep_mqttServer1SetAvailable cfg env b s)
  | mqttServer2SetAvailable b =>
    exact KeepsLatch_of_failover (FailoverStep_mqttServer2SetAvailable cfg env b s)
  | mqttServerSelectInet b =>
    exact KeepsLatch_of_failover (FailoverStep_mqttServerSelectInet cfg env b s)
  | mqttSelfEventHandler e =>
    exact KeepsLatch_of_failover (FailoverStep_mqttSelfEventHandler cfg env e s)
  | mqttTimeEventHandler =>
    exact KeepsLatch_of_failover (FailoverStep_mqttTimeEventHandler cfg env s)
  | mqttWiFiEventHandler e =>
    exact KeepsLatch_of_failover (FailoverStep_mqttWiFiEventHandler cfg env e s)
  | mqttEventHandler d => exact KeepsLatch_mqttEventHandler cfg env d s h
  | mqttSubscribe t q => exact KeepsLatch_mqttSubscribe env t q s
  | mqttUnsubscribe t => exact KeepsLatch_mqttUnsubscribe env t s
  | mqttPublish t p q r f => exact KeepsLatch_mqttPublish env t p q r f false false s

/-- What `mqttErrorEventClear` posts: one `RE_MQTT_ERROR_CLEAR` when the latch
is set, nothing when it is clear; the latch is clear afterwards. -/
theorem mqttErrorEventClear_spec (env : Env) (s : State) :
    (mqttErrorEventClear env s)._mqttError = false
    ∧ ∃ l, (mqttErrorEventClear env s).trace = s.trace ++ l
        ∧ postedEvents l = if s._mqttError then [RE_MQTT_ERROR_CLEAR] else [] := by
  unfold mqttErrorEventClear
  cases h : s._mqttError
  · exact ⟨h, [], by simp, rfl⟩
  · exact ⟨rfl, [Call.eventLoopPost RE_MQTT_ERROR_CLEAR (env.ok s.trace.length)], rfl, rfl⟩

/-- The `MQTT_EVENT_CONNECTED` branch: the online status is published from
`connectedState` when it is configured. -/
theorem mqttEventHandler_connected (cfg : Config) (env : Env) (d : esp_mqtt_event_t)
    (s : State) (hid : d.event_id = MQTT_EVENT_CONNECTED) :
    mqttEventHandler cfg env d s =
      if cfg.CONFIG_MQTT_STATUS_ONLINE || cfg.CONFIG_MQTT_STATUS_ONLINE_SYSINFO then
        (mqttPublish env (mqttTopicStatusGet cfg (connectedState env s)).1
          (some cfg.CONFIG_MQTT_STATUS_ONLINE_PAYLOAD) cfg.CONFIG_MQTT_STATUS_QOS
          cfg.CONFIG_MQTT_STATUS_RETAINED true false false
          (mqttTopicStatusGet cfg (connectedState env s)).2).2
      else connectedState env s := by
  simp only [mqttEventHandler, hid]
  rfl

/-- The state after the connected event and the clearing of the latch, field
by field. -/
theorem connectedState_eq (env : Env) (s : State) :
    connectedState env s = { s with
      in_buffer := re_mqtt_incoming_data_t.zero
      _mqttError := false
      _mqttData := { s._mqttData with
        connected := true, conn_attempt := 0, err_codes := esp_mqtt_error_codes_t.zero }
      trace := s.trace ++
        (Call.eventLoopPost (RE_MQTT_CONNECTED { s._mqttData with
            connected := true, conn_attempt := 0, err_codes := esp_mqtt_error_codes_t.zero })
          (env.ok s.trace.length)
        :: (if s._mqttError then
              [Call.eventLoopPost RE_MQTT_ERROR_CLEAR (env.ok (s.trace.length + 1))]
            else [])) } := by
  unfold connectedState mqttErrorEventClear eventLoopPost
  cases h : s._mqttError
  · simp [h]
  · simp [h]

theorem mqttTopicStatusGet_frame (cfg : Config) (s : State) :
    (mqttTopicStatusGet cfg s).2 = { s with
      _mqttTopicStatus := (mqttTopicStatusGet cfg s).2._mqttTopicStatus } := by
  unfold mqttTopicStatusGet mqttTopicStatusCreate
  split <;> rfl

/-- The connected, subscribed, unsubscribed and published callbacks post
`RE_MQTT_ERROR_CLEAR` once when the latch is set on entry and not at all when
it is clear. -/
theorem clearing_callback_posts (cfg : Config) (env : Env) (d : esp_mqtt_event_t) (s : State)
    (h : (Op.mqttEventHandler d).isClearingCallback = true) :
    (postedEvents (newCalls s (mqttEventHandler cfg env d s))).filter
        re_mqtt_event_id_t.isErrorClear
      = if s._mqttError then [RE_MQTT_ERROR_CLEAR] else [] := by
  have hack : (postedEvents (newCalls s (ledSysActivity (mqttErrorEventClear env
      { s with in_buffer := re_mqtt_incoming_data_t.zero })))).filter
        re_mqtt_event_id_t.isErrorClear
      = if s._mqttError then [RE_MQTT_ERROR_CLEAR] else [] := by
    obtain ⟨_, l, ht, hl⟩ := mqttErrorEventClear_spec env
      { s with in_buffer := re_mqtt_incoming_data_t.zero }
    have ht2 : (ledSysActivity (mqttErrorEventClear env
        { s with in_buffer := re_mqtt_incoming_data_t.zero })).trace
          = s.trace ++ (l ++ [Call.ledSysActivity]) := by
      simp only [ledSysActivity, ht, List.append_assoc]
    rw [newCalls_append s _ _ ht2, postedEvents_append, hl]
    cases s._mqttError <;> rfl
  have hconn : (postedEvents (newCalls s (connectedState env s))).filter
      re_mqtt_event_id_t.isErrorClear
        = if s._mqttError then [RE_MQTT_ERROR_CLEAR] else [] := by
    rw [connectedState_eq, newCalls_append s _ _ rfl]
    cases s._mqttError <;> rfl
  cases hid : d.event_id
  · simp [Op.isClearingCallback, hid] at h
  · -- MQTT_EVENT_CONNECTED
    rw [mqttEventHandler_connected cfg env d s hid]
    split
    · obtain ⟨_, l2, ht4, hl2⟩ := KeepsLatch_mqttPublish env
        (mqttTopicStatusGet cfg (connectedState env s)).1
        (some cfg.CONFIG_MQTT_STATUS_ONLINE_PAYLOAD) cfg.CONFIG_MQTT_STATUS_QOS
        cfg.CONFIG_MQTT_STATUS_RETAINED true false false
        (mqttTopicStatusGet cfg (connectedState env s)).2
      have htg : (mqttTopicStatusGet cfg (connectedState env s)).2.trace
          = (connectedState env s).trace := by rw [mqttTopicStatusGet_frame]
      rw [htg] at ht4
      have hsplit : newCalls s (mqttPublish env (mqttTopicStatusGet cfg (connectedState env s)).1
          (some cfg.CONFIG_MQTT_STATUS_ONLINE_PAYLOAD) cfg.CONFIG_MQTT_STATUS_QOS
          cfg.CONFIG_MQTT_STATUS_RETAINED true false false
          (mqttTopicStatusGet cfg (connectedState env s)).2).2
            = newCalls s (connectedState env s) ++ l2 := by
        rw [newCalls, ht4, newCalls, connectedState_eq]
        simp
      rw [hsplit, postedEvents_append, List.filter_append, hl2, List.append_nil, hconn]
    · exact hconn
  · simp [Op.isClearingCallback, hid] at h
  · simp only [mqttEventHandler, hid]; exact hack
  · simp only [mqttEventHandler, hid]; exact hack
  · simp only [mqttEventHandler, hid]; exact hack
  · simp [Op.isClearingCallback, hid] at h
  · simp [Op.isClearingCallback, hid] at h
  · simp [Op.isClearingCallback, hid] at h

/-- C16: an entry point other than the connected, subscribed, unsubscribed and
published callbacks never clears the error latch (a latch that is set stays
set) and posts no `RE_MQTT_ERROR_CLEAR` event; this covers `mqttStart`,
`mqttTaskStop`, `mqttTaskSuspend` and `mqttTaskResume`.  Each of the four
callbacks posts exactly one `RE_MQTT_ERROR_CLEAR` event when the latch is set
on entry, and none when it is clear. -/
theorem error_clearing (cfg : Config) (env : Env) (op : Op) (s : State) :
    (op.isClearingCallback = false →
      (s._mqttError = true → (op.run cfg env s)._mqttError = true)
      ∧ (postedEvents (newCalls s (op.run cfg env s))).filter
          re_mqtt_event_id_t.isErrorClear = [])
    ∧ (op.isClearingCallback = true →
      (postedEvents (newCalls s (op.run cfg env s))).filter re_mqtt_event_id_t.isErrorClear
        = if s._mqttError then [RE_MQTT_ERROR_CLEAR] else []) := by
  refine ⟨fun h => ?_, fun h => ?_⟩
  · obtain ⟨h1, l, ht, hl⟩ := KeepsLatch_run cfg env op s h
    exact ⟨h1, by rw [newCalls_append s _ l ht]; exact hl⟩
  · cases op <;> simp [Op.isClearingCallback] at h
    rename_i d
    exact clearing_callback_posts cfg env d s (by
      simp only [Op.isClearingCallback]
      split <;> simp_all)

/-- C16 at the connected session with the latch set (a stop keeps it, a
published callback clears it with one event) and with the latch clear (a
published callback posts nothing). -/
theorem error_clearing_witness :
    (latchedConnected._mqttError = true ∧ connectedOnReserved._mqttError = false)
    ∧ (Op.mqttTaskStop.run Config.sample Env.allOk latchedConnected)._mqttError = true
    ∧ (postedEvents (newCalls latchedConnected
        ((Op.mqttEventHandler (plainEvent MQTT_EVENT_PUBLISHED)).run Config.sample Env.allOk
          latchedConnected))).filter re_mqtt_event_id_t.isErrorClear = [RE_MQTT_ERROR_CLEAR]
    ∧ (postedEvents (newCalls connectedOnReserved
        ((Op.mqttEventHandler (plainEvent MQTT_EVENT_PUBLISHED)).run Config.sample Env.allOk
          connectedOnReserved))).filter re_mqtt_event_id_t.isErrorClear = [] :=
  ⟨⟨by decide, by decide⟩,
   ((error_clearing Config.sample Env.allOk Op.mqttTaskStop latchedConnected).1 rfl).1
     (by decide),
   ((error_clearing Config.sample Env.allOk (Op.mqttEventHandler (plainEvent MQTT_EVENT_PUBLISHED))
     latchedConnected).2 rfl).trans (by decide),
   ((error_clearing Config.sample Env.allOk (Op.mqttEventHandler (plainEvent MQTT_EVENT_PUBLISHED))
     connectedOnReserved).2 rfl).trans (by decide)⟩

/-! ## Connection attempts -/

/-- One `MQTT_EVENT_BEFORE_CONNECT` callback: the attempt counter is
incremented in the width of its field, `in_buffer` is zeroed, the activity LED
is signalled. -/
theorem mqttEventHandler_before_connect (cfg : Config) (env : Env) (s : State) :
    mqttEventHandler cfg env (plainEvent MQTT_EVENT_BEFORE_CONNECT) s = { s with
      in_buffer := re_mqtt_incoming_data_t.zero
      _mqttData := { s._mqttData with
        conn_attempt := (s._mqttData.conn_attempt + 1) % 2 ^ cfg.conn_attempt_bits }
      trace := s.trace ++ [Call.ledSysActivity] } := by
  simp [mqttEventHandler, plainEvent, ledSysActivity]

theorem beforeConnects_succ (cfg : Config) (env : Env) (n : Nat) (s : State) :
    beforeConnects cfg env (n + 1) s
      = mqttEventHandler cfg env (plainEvent MQTT_EVENT_BEFORE_CONNECT)
          (beforeConnects cfg env n s) := by
  simp only [beforeConnects, runOps, List.replicate_succ']
  rw [List.foldl_append]
  rfl

/-- After `n` announced attempts the counter holds `n` modulo the range of its
field; the error latch, the connection state and the availability flags are
untouched. -/
theorem beforeConnects_spec (cfg : Config) (env : Env) (n : Nat) (s : State)
    (h0 : s._mqttData.conn_attempt = 0) :
    (beforeConnects cfg env n s)._mqttData.conn_attempt = n % 2 ^ cfg.conn_attempt_bits
    ∧ (beforeConnects cfg env n s)._mqttError = s._mqttError := by
  induction n with
  | zero => simp [beforeConnects, runOps, h0]
  | succ n ih =>
    rw [beforeConnects_succ, mqttEventHandler_before_connect]
    refine ⟨?_, ih.2⟩
    show ((beforeConnects cfg env n s)._mqttData.conn_attempt + 1) % 2 ^ cfg.conn_attempt_bits
      = (n + 1) % 2 ^ cfg.conn_attempt_bits
    rw [ih.1, Nat.add_mod, Nat.mod_mod, ← Nat.add_mod]

/-- C13, counterexample: with an attempt counter of 8 bits, after 256
`MQTT_EVENT_BEFORE_CONNECT` callbacks on a fresh session the counter is 0, not
256; and whatever the width `w` of the counter, after `2 ^ w` callbacks it is
0. -/
theorem attempt_counter_wraps :
    afterStart._mqttData.conn_attempt = 0
    ∧ (beforeConnects Config.sample Env.allOk 256 afterStart)._mqttData.conn_attempt = 0
    ∧ ∀ (cfg : Config) (env : Env) (s : State), s._mqttData.conn_attempt = 0 →
        (beforeConnects cfg env (2 ^ cfg.conn_attempt_bits) s)._mqttData.conn_attempt = 0
        ∧ 2 ^ cfg.conn_attempt_bits ≠ 0 := by
  have h0 : afterStart._mqttData.conn_attempt = 0 := by decide
  refine ⟨h0, ?_, fun cfg env s hs => ⟨?_, by positivity⟩⟩
  · rw [(beforeConnects_spec Config.sample Env.allOk 256 afterStart h0).1]
    decide
  · rw [(beforeConnects_spec cfg env _ s hs).1, Nat.mod_self]

/-- A publication the client library does not answer with the error `-1`
changes nothing but the trace and posts no event. -/
theorem mqttPublish_no_error (env : Env) (t p : Option String) (q : Int) (r f ft fp : Bool)
    (s : State) (h : ∀ k, env.msg_id k ≠ -1) :
    ∃ l, (mqttPublish env t p q r f ft fp s).2 = { s with trace := s.trace ++ l }
      ∧ postedEvents l = [] := by
  unfold mqttPublish
  dsimp only
  split
  · exact ⟨[], by simp, rfl⟩
  · split
    · rw [if_neg (h _)]
      exact ⟨_, rfl, by split <;> rfl⟩
    · exact ⟨[], by simp, rfl⟩

/-- C13, as amended: for every `n` below `2 ^ w`, `w` being the width of the
attempt counter, after `n` `MQTT_EVENT_BEFORE_CONNECT` callbacks on a fresh
session the counter equals `n`; a following `MQTT_EVENT_CONNECTED` callback
sets `connected`, zeroes the counter and the error snapshot, posts exactly one
`RE_MQTT_CONNECTED` event, posts `RE_MQTT_ERROR_CLEAR` exactly when the latch
was set, and leaves the latch clear, provided the publication of the online
status is not configured or no publication fails. -/
theorem connected_resets_session (cfg : Config) (env : Env) (s : State) (n : Nat)
    (d : esp_mqtt_event_t) (h0 : s._mqttData.conn_attempt = 0)
    (hn : n < 2 ^ cfg.conn_attempt_bits) (hid : d.event_id = MQTT_EVENT_CONNECTED)
    (hpub : (cfg.CONFIG_MQTT_STATUS_ONLINE || cfg.CONFIG_MQTT_STATUS_ONLINE_SYSINFO) = false
      ∨ ∀ k, env.msg_id k ≠ -1) :
    (beforeConnects cfg env n s)._mqttData.conn_attempt = n
    ∧ (mqttEventHandler cfg env d (beforeConnects cfg env n s))._mqttData.connected = true
    ∧ (mqttEventHandler cfg env d (beforeConnects cfg env n s))._mqttData.conn_attempt = 0
    ∧ (mqttEventHandler cfg env d (beforeConnects cfg env n s))._mqttData.err_codes
        = esp_mqtt_error_codes_t.zero
    ∧ (postedEvents (newCalls (beforeConnects cfg env n s)
        (mqttEventHandler cfg env d (beforeConnects cfg env n s)))
          = RE_MQTT_CONNECTED { (beforeConnects cfg env n s)._mqttData with
              connected := true, conn_attempt := 0, err_codes := esp_mqtt_error_codes_t.zero }
            :: (if s._mqttError then [RE_MQTT_ERROR_CLEAR] else []))
    ∧ (mqttEventHandler cfg env d (beforeConnects cfg env n s))._mqttError = false := by
  have hb := beforeConnects_spec cfg env n s h0
  refine ⟨by rw [hb.1, Nat.mod_eq_of_lt hn], ?_⟩
  generalize beforeConnects cfg env n s = sn at hb ⊢
  have hposted : postedEvents (newCalls sn (connectedState env sn))
      = RE_MQTT_CONNECTED { sn._mqttData with
            connected := true, conn_attempt := 0, err_codes := esp_mqtt_error_codes_t.zero }
          :: (if s._mqttError then [RE_MQTT_ERROR_CLEAR] else []) := by
    rw [connectedState_eq, newCalls_append sn _ _ rfl, hb.2]
    cases s._mqttError <;> rfl
  have hstate : (connectedState env sn)._mqttData.connected = true
      ∧ (connectedState env sn)._mqttData.conn_attempt = 0
      ∧ (connectedState env sn)._mqttData.err_codes = esp_mqtt_error_codes_t.zero
      ∧ (connectedState env sn)._mqttError = false := by
    rw [connectedState_eq]
    exact ⟨rfl, rfl, rfl, rfl⟩
  rw [mqttEventHandler_connected cfg env d sn hid]
  rcases hpub with hoff | hok
  · rw [hoff]
    exact ⟨hstate.1, hstate.2.1, hstate.2.2.1, hposted, hstate.2.2.2⟩
  · split
    · obtain ⟨l, hl, hp⟩ := mqttPublish_no_error env
        (mqttTopicStatusGet cfg (connectedState env sn)).1
        (some cfg.CONFIG_MQTT_STATUS_ONLINE_PAYLOAD) cfg.CONFIG_MQTT_STATUS_QOS
        cfg.CONFIG_MQTT_STATUS_RETAINED true false false
        (mqttTopicStatusGet cfg (connectedState env sn)).2 hok
      rw [hl, mqttTopicStatusGet_frame]
      refine ⟨hstate.1, hstate.2.1, hstate.2.2.1, ?_, hstate.2.2.2⟩
      have hsplit : newCalls sn
          { ({ connectedState env sn with
              _mqttTopicStatus := (mqttTopicStatusGet cfg
                (connectedState env sn)).2._mqttTopicStatus } : State) with
            trace := (connectedState env sn).trace ++ l }
            = newCalls sn (connectedState env sn) ++ l := by
        rw [newCalls, newCalls, connectedState_eq]
        simp
      rw [hsplit, postedEvents_append, hp, List.append_nil, hposted]
    · exact ⟨hstate.1, hstate.2.1, hstate.2.2.1, hposted, hstate.2.2.2⟩

/-- C13, as amended, with three announced attempts on the session started on
the primary broker, no publication of the online status
being configured. -/
theorem connected_resets_session_witness :
    (startedOnPrimary._mqttData.conn_attempt = 0
      ∧ 3 < 2 ^ Config.sample.conn_attempt_bits)
    ∧ (beforeConnects Config.sample Env.allOk 3 startedOnPrimary)._mqttData.conn_attempt = 3
    ∧ (mqttEventHandler Config.sample Env.allOk (plainEvent MQTT_EVENT_CONNECTED)
        (beforeConnects Config.sample Env.allOk 3 startedOnPrimary))._mqttData.conn_attempt = 0
    ∧ (mqttEventHandler Config.sample Env.allOk (plainEvent MQTT_EVENT_CONNECTED)
        (beforeConnects Config.sample Env.allOk 3 startedOnPrimary))._mqttData.connected = true
    ∧ (mqttEventHandler Config.sample Env.allOk (plainEvent MQTT_EVENT_CONNECTED)
        (beforeConnects Config.sample Env.allOk 3 startedOnPrimary))._mqttError = false :=
  have hw := connected_resets_session Config.sample Env.allOk startedOnPrimary 3
    (plainEvent MQTT_EVENT_CONNECTED) (by decide) (by decide) rfl (Or.inl rfl)
  ⟨⟨by decide, by decide⟩, hw.1, hw.2.2.1, hw.2.1, hw.2.2.2.2.2⟩

/-! ## Return-to-primary timer -/

theorem TimerStep_refl (cfg : Config) (s : State) : TimerStep cfg s s := ⟨id, id⟩

theorem TimerStep_trans {cfg : Config} {s s' s'' : State} (h1 : TimerStep cfg s s')
    (h2 : TimerStep cfg s' s'') : TimerStep cfg s s'' :=
  ⟨fun h => h2.1 (h1.1 h), fun h => h2.2 (h1.2 h)⟩

/-- A step that leaves the three timer fields as they were. -/
theorem TimerStep_of_fields {cfg : Config} {s s' : State} (h : timerFields s' = timerFields s) :
    TimerStep cfg s s' := by
  simp only [timerFields, Prod.mk.injEq] at h
  obtain ⟨h1, h2, h3⟩ := h
  exact ⟨fun hi hp => by rw [h2]; exact hi (by rw [← h1]; exact hp), fun h0 => by rw [h3]; exact h0⟩

theorem timerFields_mqttStart (cfg : Config) (env : Env) (s : State) :
    timerFields (mqttStart cfg env s).2 = timerFields s := by
  rw [mqttStart_frame]; rfl

theorem timerFields_mqttTaskStop (cfg : Config) (env : Env) (s : State) :
    timerFields (mqttTaskStop cfg env s).2 = timerFields s := by
  rw [mqttTaskStop_frame]; rfl

theorem timerFields_mqttTaskSuspend (env : Env) (s : State) :
    timerFields (mqttTaskSuspend env s).2 = timerFields s := by
  rw [mqttTaskSuspend_frame]; rfl

theorem timerFields_mqttTaskResume (env : Env) (s : State) :
    timerFields (mqttTaskResume env s).2 = timerFields s := by
  rw [mqttTaskResume_frame]; rfl

/-- Selecting the primary slot and cancelling the countdown: the handler is
unregistered and the counter zeroed when the return-to-primary time is
configured. -/
theorem timerFields_cancel (cfg : Config) (s : State) (a : Nat) :
    timerFields (backToPrimaryCancel cfg { s with _mqttPrimary := true, _mqttServer2Activate := a })
      = if cfg.CONFIG_MQTT_BACK_TO_PRIMARY_TIME_MINUTES > 0 then (true, false, 0)
        else (true, s.timeHandlerRegistered, s._mqttBackToPrimarty) := by
  unfold backToPrimaryCancel
  split <;> rfl

/-- Selecting the reserved slot and arming the countdown: the handler is
registered and the counter zeroed when the return-to-primary time is
configured. -/
theorem timerFields_arm (cfg : Config) (s : State) (a : Nat) :
    timerFields (backToPrimaryArm cfg { s with _mqttPrimary := false, _mqttServer2Activate := a })
      = if cfg.CONFIG_MQTT_BACK_TO_PRIMARY_TIME_MINUTES > 0 then (false, true, 0)
        else (false, s.timeHandlerRegistered, s._mqttBackToPrimarty) := by
  unfold backToPrimaryArm
  split <;> rfl

/-- A step that ends with the timer fields of a cancelled countdown. -/
theorem TimerStep_of_cancel {cfg : Config} {s s' : State}
    (h : timerFields s' = if cfg.CONFIG_MQTT_BACK_TO_PRIMARY_TIME_MINUTES > 0 then (true, false, 0)
        else (true, s.timeHandlerRegistered, s._mqttBackToPrimarty)) :
    TimerStep cfg s s' := by
  by_cases hT : cfg.CONFIG_MQTT_BACK_TO_PRIMARY_TIME_MINUTES > 0
  · rw [if_pos hT] at h
    simp only [timerFields, Prod.mk.injEq] at h
    exact ⟨fun _ _ => h.2.1, fun _ => h.2.2⟩
  · rw [if_neg hT] at h
    simp only [timerFields, Prod.mk.injEq] at h
    exact ⟨fun hi _ => by rw [h.2.1]; exact hi (Or.inr (by omega)),
      fun h0 => by rw [h.2.2]; exact h0⟩

/-- A step that ends with the timer fields of an armed countdown. -/
theorem TimerStep_of_arm {cfg : Config} {s s' : State}
    (h : timerFields s' = if cfg.CONFIG_MQTT_BACK_TO_PRIMARY_TIME_MINUTES > 0 then (false, true, 0)
        else (false, s.timeHandlerRegistered, s._mqttBackToPrimarty)) :
    TimerStep cfg s s' := by
  by_cases hT : cfg.CONFIG_MQTT_BACK_TO_PRIMARY_TIME_MINUTES > 0
  · rw [if_pos hT] at h
    simp only [timerFields, Prod.mk.injEq] at h
    refine ⟨fun _ hp => ?_, fun _ => h.2.2⟩
    rcases hp with hp | hp
    · rw [h.1] at hp; exact absurd hp (by simp)
    · omega
  · rw [if_neg hT] at h
    simp only [timerFields, Prod.mk.injEq] at h
    exact ⟨fun hi _ => by rw [h.2.1]; exact hi (Or.inr (by omega)),
      fun h0 => by rw [h.2.2]; exact h0⟩

theorem timerFields_mqttServer1Start (cfg : Config) (env : Env) (s : State) :
    timerFields (mqttServer1Start cfg env s).2
      = if cfg.CONFIG_MQTT_BACK_TO_PRIMARY_TIME_MINUTES > 0 then (true, false, 0)
        else (true, s.timeHandlerRegistered, s._mqttBackToPrimarty) := by
  unfold mqttServer1Start
  rw [timerFields_mqttStart, timerFields_cancel]

theorem timerFields_mqttServer1Select (cfg : Config) (env : Env) (s : State) :
    timerFields (mqttServer1Select cfg env s).2
      = if cfg.CONFIG_MQTT_BACK_TO_PRIMARY_TIME_MINUTES > 0 then (true, false, 0)
        else (true, s.timeHandlerRegistered, s._mqttBackToPrimarty) := by
  unfold mqttServer1Select eventLoopPost
  exact timerFields_cancel cfg s 0

theorem timerFields_mqttServer2Start (cfg : Config) (env : Env) (s : State) :
    timerFields (mqttServer2Start cfg env s).2
      = if cfg.CONFIG_MQTT_BACK_TO_PRIMARY_TIME_MINUTES > 0 then (false, true, 0)
        else (false, s.timeHandlerRegistered, s._mqttBackToPrimarty) := by
  unfold mqttServer2Start
  rw [timerFields_mqttStart, timerFields_arm]

theorem timerFields_mqttServer2Select (cfg : Config) (env : Env) (s : State) :
    timerFields (mqttServer2Select cfg env s).2
      = if cfg.CONFIG_MQTT_BACK_TO_PRIMARY_TIME_MINUTES > 0 then (false, true, 0)
        else (false, s.timeHandlerRegistered, s._mqttBackToPrimarty) := by
  unfold mqttServer2Select eventLoopPost
  exact timerFields_arm cfg s _

theorem TimerStep_mqttServerSelectAuto (cfg : Config) (env : Env) (s : State) :
    TimerStep cfg s (mqttServerSelectAuto cfg env s).2 := by
  have c1 : TimerStep cfg s (mqttServer1Start cfg env s).2 :=
    TimerStep_of_cancel (timerFields_mqttServer1Start cfg env s)
  have c2 : TimerStep cfg s (mqttServer1Select cfg env s).2 :=
    TimerStep_of_cancel (timerFields_mqttServer1Select cfg env s)
  have c3 : TimerStep cfg s (mqttServer2Start cfg env s).2 :=
    TimerStep_of_arm (timerFields_mqttServer2Start cfg env s)
  have c4 : TimerStep cfg s (mqttServer2Select cfg env s).2 :=
    TimerStep_of_arm (timerFields_mqttServer2Select cfg env s)
  have c5 : TimerStep cfg s (mqttTaskResume env s).2 :=
    TimerStep_of_fields (timerFields_mqttTaskResume env s)
  have c6 : TimerStep cfg s (mqttTaskSuspend env s).2 :=
    TimerStep_of_fields (timerFields_mqttTaskSuspend env s)
  have c0 := TimerStep_refl cfg s
  unfold mqttServerSelectAuto mqttServer1Acivate mqttServer2Acivate
  split
  · split
    · exact c1
    · split
      · exact c2
      · exact c0
    · split
      · exact c5
      · exact c2
  · split
    · split
      · exact c3
      · split
        · exact c4
        · exact c0
      · split
        · exact c5
        · exact c4
    · split
      · exact c6
      · exact c0

theorem TimerStep_mqttServer1SetAvailable (cfg : Config) (env : Env) (b : Bool) (s : State) :
    TimerStep cfg s (mqttServer1SetAvailable cfg env b s).2 := by
  unfold mqttServer1SetAvailable
  split
  · exact TimerStep_mqttServerSelectAuto cfg env { s with _mqttServer1Available := b }
  · exact TimerStep_refl cfg s

theorem TimerStep_mqttServer2SetAvailable (cfg : Config) (env : Env) (b : Bool) (s : State) :
    TimerStep cfg s (mqttServer2SetAvailable cfg env b s).2 := by
  unfold mqttServer2SetAvailable
  split
  · exact TimerStep_mqttServerSelectAuto cfg env { s with _mqttServer2Available := b }
  · exact TimerStep_refl cfg s

theorem TimerStep_mqttServerSelectInet (cfg : Config) (env : Env) (b : Bool) (s : State) :
    TimerStep cfg s (mqttServerSelectInet cfg env b s).2 := by
  unfold mqttServerSelectInet
  split
  · exact TimerStep_mqttServerSelectAuto cfg env { s with _mqttInternetAvailable := b }
  · exact TimerStep_refl cfg s

theorem TimerInv_mqttErrorEventClear (cfg : Config) (env : Env) (s : State)
    (hi : TimerInv cfg s) : TimerInv cfg (mqttErrorEventClear env s) := by
  unfold mqttErrorEventClear
  split
  · exact hi
  · exact hi

theorem TimerInv_mqttPublish (cfg : Config) (env : Env) (t p : Option String) (q : Int)
    (r f ft fp : Bool) (s : State) (hi : TimerInv cfg s) :
    TimerInv cfg (mqttPublish env t p q r f ft fp s).2 := by
  unfold mqttPublish
  dsimp only
  split
  · exact hi
  · split
    · split
      · exact hi
      · exact hi
    · exact hi

theorem TimerInv_mqttSubscribe (cfg : Config) (env : Env) (t : String) (q : Int) (s : State)
    (hi : TimerInv cfg s) : TimerInv cfg (mqttSubscribe env t q s).2 := by
  unfold mqttSubscribe
  dsimp only
  split
  · split
    · exact hi
    · exact hi
  · exact hi

theorem TimerInv_mqttUnsubscribe (cfg : Config) (env : Env) (t : String) (s : State)
    (hi : TimerInv cfg s) : TimerInv cfg (mqttUnsubscribe env t s).2 := by
  unfold mqttUnsubscribe
  dsimp only
  split
  · split
    · exact hi
    · exact hi
  · exact hi

theorem TimerInv_mqttEventHandlerRegister (cfg : Config) (env : Env) (s : State)
    (hi : TimerInv cfg s) : TimerInv cfg (mqttEventHandlerRegister cfg env s).2 := by
  have key : ∀ (l : List HandlerId) (acc : Bool × State), TimerInv cfg acc.2 →
      TimerInv cfg (l.foldl
        (fun acc h => if acc.1 then eventHandlerRegister env h acc.2 else acc) acc).2 := by
    intro l
    induction l with
    | nil => intro acc h; exact h
    | cons a l ih =>
      intro acc h
      rw [List.foldl_cons]
      apply ih
      split
      · exact h
      · exact h
  exact key _ (true, s) hi

theorem TimerInv_mqttEventHandler (cfg : Config) (env : Env) (d : esp_mqtt_event_t) (s : State)
    (hi : TimerInv cfg s) : TimerInv cfg (mqttEventHandler cfg env d s) := by
  cases hid : d.event_id
  · simp only [mqttEventHandler, hid]; exact hi
  · rw [mqttEventHandler_connected cfg env d s hid]
    have h3 : TimerInv cfg (connectedState env s) :=
      TimerInv_mqttErrorEventClear cfg env _ hi
    have h4 : TimerInv cfg (mqttTopicStatusGet cfg (connectedState env s)).2 := by
      rw [mqttTopicStatusGet_frame]; exact h3
    split
    · exact TimerInv_mqttPublish cfg env _ _ _ _ _ _ _ _ h4
    · exact h3
  · rw [mqttEventHandler_disconnected cfg env d s hid]
    have hx : TimerInv cfg (exhaustedState env s) := hi
    split_ifs
    · exact hi
    · exact (TimerStep_mqttServer1SetAvailable cfg env false _).1 hx
    · exact (TimerStep_mqttServer2SetAvailable cfg env false _).1 hx
    · exact hi
  · simp only [mqttEventHandler, hid]
    exact TimerInv_mqttErrorEventClear cfg env _ hi
  · simp only [mqttEventHandler, hid]
    exact TimerInv_mqttErrorEventClear cfg env _ hi
  · simp only [mqttEventHandler, hid]
    exact TimerInv_mqttErrorEventClear cfg env _ hi
  · simp only [mqttEventHandler, hid]
    unfold mqttEventHandler_DATA
    dsimp only
    have h1 : TimerInv cfg (if d.current_data_offset = 0 then
        { (calloc env (d.total_data_len + 1)
              { s with in_buffer := re_mqtt_incoming_data_t.zero }).2 with
          in_buffer := { (calloc env (d.total_data_len + 1)
              { s with in_buffer := re_mqtt_incoming_data_t.zero }).2.in_buffer with
            data := (calloc env (d.total_data_len + 1)
              { s with in_buffer := re_mqtt_incoming_data_t.zero }).1 } }
        else { s with in_buffer := re_mqtt_incoming_data_t.zero }) := by
      split
      · exact hi
      · exact hi
    split
    · split
      · exact h1
      · exact h1
    · exact h1
  · simp only [mqttEventHandler, hid]; exact hi
  · simp only [mqttEventHandler, hid]; exact hi

theorem TimerInv_run (cfg : Config) (env : Env) (op : Op) (s : State) (hi : TimerInv cfg s) :
    TimerInv cfg (op.run cfg env s) := by
  cases op with
  | mqttStart => exact (TimerStep_of_fields (timerFields_mqttStart cfg env s)).1 hi
  | mqttTaskStop => exact (TimerStep_of_fields (timerFields_mqttTaskStop cfg env s)).1 hi
  | mqttTaskSuspend => exact (TimerStep_of_fields (timerFields_mqttTaskSuspend env s)).1 hi
  | mqttTaskResume => exact (TimerStep_of_fields (timerFields_mqttTaskResume env s)).1 hi
  | mqttTaskStart b =>
    simp only [Op.run, mqttTaskStart]
    split
    · exact TimerInv_mqttEventHandlerRegister cfg env s hi
    · exact (TimerStep_mqttServerSelectAuto cfg env s).1 hi
  | mqttServerSelectAuto => exact (TimerStep_mqttServerSelectAuto cfg env s).1 hi
  | mqttServer1SetAvailable b => exact (TimerStep_mqttServer1SetAvailable cfg env b s).1 hi
  | mqttServer2SetAvailable b => exact (TimerStep_mqttServer2SetAvailable cfg env b s).1 hi
  | mqttServerSelectInet b => exact (TimerStep_mqttServerSelectInet cfg env b s).1 hi
  | mqttSelfEventHandler e =>
    have h : TimerInv cfg (mqttStart cfg env (vTaskDelay 1000 (mqttTaskStop cfg env s).2)).2 :=
      (TimerStep_of_fields (timerFields_mqttStart cfg env _)).1
        ((TimerStep_of_fields (timerFields_mqttTaskStop cfg env s)).1 hi)
    simp only [Op.run, mqttSelfEventHandler]
    split
    · exact h
    · exact h
    · exact hi
  | mqttTimeEventHandler =>
    simp only [Op.run, mqttTimeEventHandler]
    split
    · exact (TimerStep_mqttServer1SetAvailable cfg env true _).1 hi
    · exact hi
  | mqttWiFiEventHandler e =>
    have h1 := fun b => (TimerStep_mqttServerSelectInet cfg env b s).1 hi
    have h2 := (@TimerStep_of_fields cfg _ _ (timerFields_mqttTaskSuspend env s)).1 hi
    simp only [Op.run, mqttWiFiEventHandler]
    split
    · exact h1 _
    · exact h1 _
    · exact h1 _
    · split
      · exact h2
      · exact hi
    · split
      · exact h2
      · exact hi
    · exact hi
  | mqttEventHandler d => exact TimerInv_mqttEventHandler cfg env d s hi
  | mqttSubscribe t q => exact TimerInv_mqttSubscribe cfg env t q s hi
  | mqttUnsubscribe t => exact TimerInv_mqttUnsubscribe cfg env t s hi
  | mqttPublish t p q r f => exact TimerInv_mqttPublish cfg env t p q r f false false s hi

theorem TimerInv_runOps (cfg : Config) (env : Env) (ops : List Op) (s : State)
    (hi : TimerInv cfg s) : TimerInv cfg (runOps cfg env ops s) := by
  induction ops generalizing s with
  | nil => exact hi
  | cons op ops ih => exact ih _ (TimerInv_run cfg env op s hi)

theorem TimerInv_init (cfg : Config) : TimerInv cfg State.init := fun _ => rfl

theorem head_newCalls_mqttServer1Start (cfg : Config) (env : Env) (s : State)
    (hT : 0 < cfg.CONFIG_MQTT_BACK_TO_PRIMARY_TIME_MINUTES) :
    (newCalls s (mqttServer1Start cfg env s).2).head?
      = some Call.eventHandlerUnregister_RE_TIME_EVERY_MINUTE := by
  unfold mqttServer1Start
  obtain ⟨l, hl⟩ := mqttStart_trace cfg env
    (backToPrimaryCancel cfg { s with _mqttPrimary := true, _mqttServer2Activate := 0 })
  rw [newCalls, hl]
  simp [backToPrimaryCancel, hT, eventHandlerUnregisterTime]

theorem head_newCalls_mqttServer2Start (cfg : Config) (env : Env) (s : State)
    (hT : 0 < cfg.CONFIG_MQTT_BACK_TO_PRIMARY_TIME_MINUTES) :
    (newCalls s (mqttServer2Start cfg env s).2).head?
      = some Call.eventHandlerRegister_RE_TIME_EVERY_MINUTE := by
  unfold mqttServer2Start
  obtain ⟨l, hl⟩ := mqttStart_trace cfg env
    (backToPrimaryArm cfg
      { s with _mqttPrimary := false, _mqttServer2Activate := env.time s.trace.length })
  rw [newCalls, hl]
  simp [backToPrimaryArm, hT, eventHandlerRegisterTime]

/-- C18: in every state reached from the initial state by any sequence of
entry points, whenever the primary slot is selected the tick handler is not
registered.  When the return-to-primary time is configured, the two routines
that select the primary slot, `mqttServer1Start` and `mqttServer1Select`,
first unregister the handler and leave the counter at 0, and the two routines
that select the reserved slot, `mqttServer2Start` and `mqttServer2Select`,
first register it and leave the counter at 0. -/
theorem timer_cancellation_invariant (cfg : Config) (env : Env) (ops : List Op) (s : State) :
    ((runOps cfg env ops State.init)._mqttPrimary = true →
      (runOps cfg env ops State.init).timeHandlerRegistered = false)
    ∧ (0 < cfg.CONFIG_MQTT_BACK_TO_PRIMARY_TIME_MINUTES →
      (timerFields (mqttServer1Start cfg env s).2 = (true, false, 0)
        ∧ (newCalls s (mqttServer1Start cfg env s).2).head?
            = some Call.eventHandlerUnregister_RE_TIME_EVERY_MINUTE)
      ∧ (timerFields (mqttServer1Select cfg env s).2 = (true, false, 0)
        ∧ (newCalls s (mqttServer1Select cfg env s).2).head?
            = some Call.eventHandlerUnregister_RE_TIME_EVERY_MINUTE)
      ∧ (timerFields (mqttServer2Start cfg env s).2 = (false, true, 0)
        ∧ (newCalls s (mqttServer2Start cfg env s).2).head?
            = some Call.eventHandlerRegister_RE_TIME_EVERY_MINUTE)
      ∧ (timerFields (mqttServer2Select cfg env s).2 = (false, true, 0)
        ∧ (newCalls s (mqttServer2Select cfg env s).2).head?
            = some Call.eventHandlerRegister_RE_TIME_EVERY_MINUTE)) := by
  refine ⟨fun hp => TimerInv_runOps cfg env ops State.init (TimerInv_init cfg) (Or.inl hp),
    fun hT => ⟨⟨?_, head_newCalls_mqttServer1Start cfg env s hT⟩, ⟨?_, ?_⟩,
      ⟨?_, head_newCalls_mqttServer2Start cfg env s hT⟩, ⟨?_, ?_⟩⟩⟩
  · rw [timerFields_mqttServer1Start, if_pos hT]
  · rw [timerFields_mqttServer1Select, if_pos hT]
  · simp [mqttServer1Select, eventLoopPost, backToPrimaryCancel, hT, newCalls,
      eventHandlerUnregisterTime]
  · rw [timerFields_mqttServer2Start, if_pos hT]
  · rw [timerFields_mqttServer2Select, if_pos hT]
  · simp [mqttServer2Select, eventLoopPost, backToPrimaryArm, hT, newCalls,
      eventHandlerRegisterTime]

/-- C18 on the execution that starts a session on the reserved broker and then
switches back to the primary broker, and at the routines called in
`stoppedPrimaryDown`. -/
theorem timer_cancellation_invariant_witness :
    (runOps Config.sample Env.allOk
        [Op.mqttServer1SetAvailable false, Op.mqttServerSelectInet true,
         Op.mqttServer1SetAvailable true] State.init)._mqttPrimary = true
    ∧ (runOps Config.sample Env.allOk
        [Op.mqttServer1SetAvailable false, Op.mqttServerSelectInet true,
         Op.mqttServer1SetAvailable true] State.init).timeHandlerRegistered = false
    ∧ 0 < Config.sample.CONFIG_MQTT_BACK_TO_PRIMARY_TIME_MINUTES
    ∧ timerFields (mqttServer2Start Config.sample Env.allOk stoppedPrimaryDown).2
        = (false, true, 0)
    ∧ timerFields (mqttServer1Start Config.sample Env.allOk stoppedPrimaryDown).2
        = (true, false, 0) :=
  have hw := timer_cancellation_invariant Config.sample Env.allOk
    [Op.mqttServer1SetAvailable false, Op.mqttServerSelectInet true,
     Op.mqttServer1SetAvailable true] stoppedPrimaryDown
  ⟨by decide, hw.1 (by decide), by decide, (hw.2 (by decide)).2.2.1.1, (hw.2 (by decide)).1.1⟩

theorem ticks_succ (cfg : Config) (env : Env) (k : Nat) (s : State) :
    ticks cfg env (k + 1) s = mqttTimeEventHandler cfg env (ticks cfg env k s) := by
  simp only [ticks, runOps, List.replicate_succ']
  rw [List.foldl_append]
  rfl

/-- The ticks before the threshold only count. -/
theorem ticks_below (cfg : Config) (env : Env) (s : State) (k : Nat)
    (hT32 : cfg.CONFIG_MQTT_BACK_TO_PRIMARY_TIME_MINUTES < 2 ^ 32)
    (h0 : s._mqttBackToPrimarty = 0) (hk : k < cfg.CONFIG_MQTT_BACK_TO_PRIMARY_TIME_MINUTES) :
    ticks cfg env k s = { s with _mqttBackToPrimarty := k } := by
  induction k with
  | zero =>
    simp only [ticks, runOps, List.replicate_zero, List.foldl_nil]
    rw [← h0]
  | succ k ih =>
    rw [ticks_succ, ih (by omega)]
    have hm : (k + 1) % 2 ^ 32 = k + 1 := Nat.mod_eq_of_lt (by omega)
    simp only [mqttTimeEventHandler, hm]
    rw [if_neg (by simp only [ge_iff_le, not_le]; exact hk)]

/-- C17: with a threshold `T > 0` (a value of the 32-bit counter) and the
counter at 0, each of the first `T - 1` ticks only sets the counter to the
number of ticks so far, everything else staying as it was; the `T`-th tick
resets the counter and calls `mqttServer1SetAvailable(true)`: afterwards the
counter is 0 and the availability flag of the primary broker is true, nothing
changed at all if the flag was true already, and `mqttServerSelectAuto` ran on
the state with the flag set if it was false. -/
theorem return_to_primary_countdown (cfg : Config) (env : Env) (s : State)
    (hT : 0 < cfg.CONFIG_MQTT_BACK_TO_PRIMARY_TIME_MINUTES)
    (hT32 : cfg.CONFIG_MQTT_BACK_TO_PRIMARY_TIME_MINUTES < 2 ^ 32)
    (h0 : s._mqttBackToPrimarty = 0) :
    (∀ k, k < cfg.CONFIG_MQTT_BACK_TO_PRIMARY_TIME_MINUTES →
      ticks cfg env k s = { s with _mqttBackToPrimarty := k })
    ∧ ticks cfg env cfg.CONFIG_MQTT_BACK_TO_PRIMARY_TIME_MINUTES s
        = (mqttServer1SetAvailable cfg env true s).2
    ∧ (ticks cfg env cfg.CONFIG_MQTT_BACK_TO_PRIMARY_TIME_MINUTES s)._mqttBackToPrimarty = 0
    ∧ (ticks cfg env cfg.CONFIG_MQTT_BACK_TO_PRIMARY_TIME_MINUTES s)._mqttServer1Available = true
    ∧ (s._mqttServer1Available = true →
        ticks cfg env cfg.CONFIG_MQTT_BACK_TO_PRIMARY_TIME_MINUTES s = s)
    ∧ (s._mqttServer1Available = false →
        ticks cfg env cfg.CONFIG_MQTT_BACK_TO_PRIMARY_TIME_MINUTES s
          = (mqttServerSelectAuto cfg env { s with _mqttServer1Available := true }).2) := by
  have hlast : ticks cfg env cfg.CONFIG_MQTT_BACK_TO_PRIMARY_TIME_MINUTES s
      = (mqttServer1SetAvailable cfg env true s).2 := by
    obtain ⟨T', hT'⟩ : ∃ T', cfg.CONFIG_MQTT_BACK_TO_PRIMARY_TIME_MINUTES = T' + 1 :=
      ⟨cfg.CONFIG_MQTT_BACK_TO_PRIMARY_TIME_MINUTES - 1, by omega⟩
    have hb := ticks_below cfg env s T' hT32 h0 (by omega)
    rw [hT', ticks_succ, hb]
    have hm : (T' + 1) % 2 ^ 32 = T' + 1 := Nat.mod_eq_of_lt (by omega)
    simp only [mqttTimeEventHandler, hm]
    rw [if_pos (by simp only [ge_iff_le]; omega)]
    have hs : ({ s with _mqttBackToPrimarty := 0 } : State) = s := by
      rw [← h0]
    rw [hs]
  have hav := availability_setter cfg env (SetterCall.server1 true) s
  simp only [availability, SetterCall.run, latestServer1, List.foldl_cons, List.foldl_nil,
    Prod.mk.injEq] at hav
  refine ⟨fun k hk => ticks_below cfg env s k hT32 h0 hk, hlast, ?_, ?_, fun ha => ?_,
    fun ha => ?_⟩
  · rw [hlast]; exact (TimerStep_mqttServer1SetAvailable cfg env true s).2 h0
  · rw [hlast]; exact hav.1
  · rw [hlast]; simp [mqttServer1SetAvailable, ha]
  · rw [hlast]; simp [mqttServer1SetAvailable, ha]

/-- C17 with the threshold 5 of `Config.sample`, on the session connected on
the reserved broker with the primary broker flagged unavailable. -/
theorem return_to_primary_countdown_witness :
    (0 < Config.sample.CONFIG_MQTT_BACK_TO_PRIMARY_TIME_MINUTES
      ∧ Config.sample.CONFIG_MQTT_BACK_TO_PRIMARY_TIME_MINUTES < 2 ^ 32
      ∧ connectedOnReserved._mqttBackToPrimarty = 0
      ∧ connectedOnReserved._mqttServer1Available = false)
    ∧ ticks Config.sample Env.allOk 4 connectedOnReserved
        = { connectedOnReserved with _mqttBackToPrimarty := 4 }
    ∧ (ticks Config.sample Env.allOk 5 connectedOnReserved)._mqttBackToPrimarty = 0
    ∧ (ticks Config.sample Env.allOk 5 connectedOnReserved)._mqttServer1Available = true
    ∧ ticks Config.sample Env.allOk 5 connectedOnReserved
        = (mqttServerSelectAuto Config.sample Env.allOk
            { connectedOnReserved with _mqttServer1Available := true }).2 :=
  have hw := return_to_primary_countdown Config.sample Env.allOk connectedOnReserved
    (by decide) (by decide) (by decide)
  ⟨⟨by decide, by decide, by decide, by decide⟩, hw.1 4 (by decide), hw.2.2.1, hw.2.2.2.1,
    hw.2.2.2.2.2 (by decide)⟩

/-! ## Results of the setters -/

/-- C19, counterexample: on a session suspended by a link-down signal, with
the primary broker eligible before and after, `mqttServer2SetAvailable(false)`
returns `true` (it resumes the session) although the selected broker is the
primary broker before and after the call. -/
theorem setter_true_without_selection_change :
    selectedSlot Config.sample suspendedByLinkDown = some Slot.Primary
    ∧ selectedSlot Config.sample
        (mqttServer2SetAvailable Config.sample Env.allOk false suspendedByLinkDown).2
          = some Slot.Primary
    ∧ (mqttServer2SetAvailable Config.sample Env.allOk false suspendedByLinkDown).1 = true := by
  decide

/-- With every external call succeeding and a client in every state other
than stopped, `mqttServerSelectAuto` returns `true` exactly when the session
was not yet where it wants it. -/
theorem mqttServerSelectAuto_result (cfg : Config) (env : Env) (s : State)
    (hok : ∀ n, env.ok n = true)
    (hcl : s._mqttState ≠ MQTT_CLIENT_STOPPED → s._mqttClient.isSome = true) :
    (mqttServerSelectAuto cfg env s).1 = !settled cfg s := by
  have hstart : ∀ x : State, (mqttStart cfg env x).1 = true := by
    intro x
    rcases hc : x._mqttClient with _ | c
    · rw [mqttStart_ok cfg env x hok hc]
    · rw [mqttStart_some cfg env x c hc, mqttTaskStop_ok cfg env x c hc (hok _)]
  have h1 : (mqttServer1Start cfg env s).1 = true := hstart _
  have h2 : (mqttServer2Start cfg env s).1 = true := hstart _
  have h3 : (mqttServer1Select cfg env s).1 = true := hok _
  have h4 : (mqttServer2Select cfg env s).1 = true := hok _
  have h5 : s._mqttState ≠ MQTT_CLIENT_STOPPED → (mqttTaskResume env s).1 = true
      ∧ (mqttTaskSuspend env s).1 = true := by
    intro hs
    obtain ⟨c, hc⟩ := Option.isSome_iff_exists.mp (hcl hs)
    rw [mqttTaskResume_ok env s c hc (hok _), mqttTaskSuspend_ok env s c hc (hok _)]
    exact ⟨rfl, rfl⟩
  rcases hsel : selectedSlot cfg s with _ | Y
  · rw [mqttServerSelectAuto_none cfg env s hsel]
    simp only [settled, hsel]
    cases hs : s._mqttState
    · simp
    · simp [(h5 (by simp [hs])).2]
    · simp
  · cases Y with
    | Primary =>
      rw [mqttServerSelectAuto_primary cfg env s hsel]
      simp only [settled, hsel, activeSlot]
      cases hs : s._mqttState
      · simp [h1]
      · by_cases hp : s._mqttPrimary = true <;> simp [hp, h3]
      · by_cases hp : s._mqttPrimary = true <;> simp [hp, h3, (h5 (by simp [hs])).1]
    | Reserved =>
      rw [mqttServerSelectAuto_reserved cfg env s hsel]
      simp only [settled, hsel, activeSlot]
      cases hs : s._mqttState
      · simp [h2]
      · by_cases hp : s._mqttPrimary = true <;> simp [hp, h4]
      · by_cases hp : s._mqttPrimary = true <;> simp [hp, h4, (h5 (by simp [hs])).1]

/-- C19, as amended: a setter called with the value its flag holds returns
`false`; called with another value it stores the value and returns what
`mqttServerSelectAuto` returns on the state with the new flag.  With every
external call succeeding and a client in every state other than stopped, that
is `true` exactly when the session was not yet where `mqttServerSelectAuto`
wants it (started on the slot it acts for, or not started when no broker is
eligible), whether or not the selected broker has changed. -/
theorem setter_return_value (cfg : Config) (env : Env) (s : State) (b : Bool) :
    (mqttServer1SetAvailable cfg env b s
        = if s._mqttServer1Available = b then (false, s)
          else mqttServerSelectAuto cfg env { s with _mqttServer1Available := b })
    ∧ (mqttServer2SetAvailable cfg env b s
        = if s._mqttServer2Available = b then (false, s)
          else mqttServerSelectAuto cfg env { s with _mqttServer2Available := b })
    ∧ (mqttServerSelectInet cfg env b s
        = if s._mqttInternetAvailable = b then (false, s)
          else mqttServerSelectAuto cfg env { s with _mqttInternetAvailable := b })
    ∧ ((∀ n, env.ok n = true) →
        (s._mqttState ≠ MQTT_CLIENT_STOPPED → s._mqttClient.isSome = true) →
        (mqttServer1SetAvailable cfg env b s).1
            = (decide (s._mqttServer1Available ≠ b)
                && !settled cfg { s with _mqttServer1Available := b })
        ∧ (mqttServer2SetAvailable cfg env b s).1
            = (decide (s._mqttServer2Available ≠ b)
                && !settled cfg { s with _mqttServer2Available := b })
        ∧ (mqttServerSelectInet cfg env b s).1
            = (decide (s._mqttInternetAvailable ≠ b)
                && !settled cfg { s with _mqttInternetAvailable := b })) := by
  have e1 : mqttServer1SetAvailable cfg env b s
      = if s._mqttServer1Available = b then (false, s)
        else mqttServerSelectAuto cfg env { s with _mqttServer1Available := b } := by
    unfold mqttServer1SetAvailable
    by_cases h : s._mqttServer1Available = b <;> simp [h]
  have e2 : mqttServer2SetAvailable cfg env b s
      = if s._mqttServer2Available = b then (false, s)
        else mqttServerSelectAuto cfg env { s with _mqttServer2Available := b } := by
    unfold mqttServer2SetAvailable
    by_cases h : s._mqttServer2Available = b <;> simp [h]
  have e3 : mqttServerSelectInet cfg env b s
      = if s._mqttInternetAvailable = b then (false, s)
        else mqttServerSelectAuto cfg env { s with _mqttInternetAvailable := b } := by
    unfold mqttServerSelectInet
    by_cases h : s._mqttInternetAvailable = b <;> simp [h]
  refine ⟨e1, e2, e3, fun hok hcl => ⟨?_, ?_, ?_⟩⟩
  · rw [e1]
    by_cases h : s._mqttServer1Available = b
    · simp [h]
    · simp [h, mqttServerSelectAuto_result cfg env { s with _mqttServer1Available := b } hok hcl]
  · rw [e2]
    by_cases h : s._mqttServer2Available = b
    · simp [h]
    · simp [h, mqttServerSelectAuto_result cfg env { s with _mqttServer2Available := b } hok hcl]
  · rw [e3]
    by_cases h : s._mqttInternetAvailable = b
    · simp [h]
    · simp [h, mqttServerSelectAuto_result cfg env { s with _mqttInternetAvailable := b } hok hcl]

/-- C19, as amended, at the state of the counterexample: the setter returns
`true` because the suspended session has to be resumed. -/
theorem setter_return_value_witness :
    (suspendedByLinkDown._mqttState ≠ MQTT_CLIENT_STOPPED
      ∧ suspendedByLinkDown._mqttClient.isSome = true)
    ∧ (mqttServer2SetAvailable Config.sample Env.allOk false suspendedByLinkDown).1
        = (decide (suspendedByLinkDown._mqttServer2Available ≠ false)
            && !settled Config.sample { suspendedByLinkDown with _mqttServer2Available := false })
    ∧ settled Config.sample { suspendedByLinkDown with _mqttServer2Available := false } = false :=
  ⟨⟨by decide, by decide⟩,
   ((setter_return_value Config.sample Env.allOk suspendedByLinkDown false).2.2.2
      (fun _ => rfl) (fun _ => by decide)).2.1,
   by decide⟩

/-! ## Delivery of inbound messages -/

/-- What a `MQTT_EVENT_DATA` callback posts as `RE_MQTT_INCOMING_DATA`: the
whole message, and only when the fragment starts at offset 0, the allocation
succeeds and the fragment is the whole message. -/
theorem incomingMessages_mqttEventHandler_DATA (cfg : Config) (env : Env)
    (d : esp_mqtt_event_t) (s : State) (hid : d.event_id = MQTT_EVENT_DATA) :
    incomingMessages (newCalls s (mqttEventHandler cfg env d s))
      = if d.current_data_offset = 0 ∧ env.ok s.trace.length = true
            ∧ d.data.length = d.total_data_len then
          [{ topic := some d.topic, data := some (d.data ++ [0]), topic_len := d.topic.length,
             data_len := d.total_data_len }]
        else [] := by
  by_cases h0 : d.current_data_offset = 0
  · cases hok : env.ok s.trace.length
    · simp [mqttEventHandler, hid, mqttEventHandler_DATA, h0, calloc, hok, newCalls,
        incomingMessages, re_mqtt_incoming_data_t.zero]
    · by_cases hl : d.data.length = d.total_data_len
      · simp [mqttEventHandler, hid, mqttEventHandler_DATA, h0, calloc, hok, newCalls,
          incomingMessages, re_mqtt_incoming_data_t.zero, hl, eventLoopPost, ledSysActivity,
          memcpy]
      · simp [mqttEventHandler, hid, mqttEventHandler_DATA, h0, calloc, hok, newCalls,
          incomingMessages, re_mqtt_incoming_data_t.zero, hl]
  · rw [mqttEventHandler_DATA_later_fragment cfg env d s hid h0]
    simp [newCalls, incomingMessages, h0]

/-- Fragments that do not start at offset 0 change nothing but `in_buffer`,
which is left zeroed. -/
theorem later_fragments_dropped (cfg : Config) (env : Env) (rest : List esp_mqtt_event_t)
    (s : State)
    (hrest : ∀ d ∈ rest, d.event_id = MQTT_EVENT_DATA ∧ d.current_data_offset ≠ 0)
    (hb : s.in_buffer = re_mqtt_incoming_data_t.zero) :
    runOps cfg env (rest.map Op.mqttEventHandler) s = s := by
  induction rest generalizing s with
  | nil => rfl
  | cons d rest ih =>
    have hd := hrest d (List.mem_cons_self _ _)
    have e : mqttEventHandler cfg env d s = s := by
      rw [mqttEventHandler_DATA_later_fragment cfg env d s hd.1 hd.2, ← hb]
    show runOps cfg env (rest.map Op.mqttEventHandler) (mqttEventHandler cfg env d s) = s
    rw [e]
    exact ih s (fun x hx => hrest x (List.mem_cons_of_mem _ hx)) hb

/-- C21: when the allocation made for a fragment with offset 0 fails, that
callback and all the following callbacks for fragments with an offset other
than 0 make no external call but the failed `calloc`: no
`RE_MQTT_INCOMING_DATA` event is posted, and `in_buffer` stays zeroed.  And
whatever a `MQTT_EVENT_DATA` callback posts is a whole message: the fragment
then starts at offset 0, has the total length, and the posted buffer is the
fragment followed by a zero byte. -/
theorem allocation_failure_drops_message (cfg : Config) (env : Env) (s : State)
    (first : esp_mqtt_event_t) (rest : List esp_mqtt_event_t)
    (hid : first.event_id = MQTT_EVENT_DATA) (h0 : first.current_data_offset = 0)
    (hfail : env.ok s.trace.length = false)
    (hrest : ∀ d ∈ rest, d.event_id = MQTT_EVENT_DATA ∧ d.current_data_offset ≠ 0) :
    newCalls s (runOps cfg env ((first :: rest).map Op.mqttEventHandler) s)
        = [Call.calloc (first.total_data_len + 1) false]
    ∧ incomingMessages (newCalls s (runOps cfg env ((first :: rest).map Op.mqttEventHandler) s))
        = []
    ∧ (runOps cfg env ((first :: rest).map Op.mqttEventHandler) s).in_buffer
        = re_mqtt_incoming_data_t.zero
    ∧ ∀ (d : esp_mqtt_event_t) (x : State) (m : re_mqtt_incoming_data_t),
        d.event_id = MQTT_EVENT_DATA →
        m ∈ incomingMessages (newCalls x (mqttEventHandler cfg env d x)) →
          d.current_data_offset = 0 ∧ d.data.length = d.total_data_len
          ∧ m.data = some (d.data ++ [0]) ∧ m.data_len = d.total_data_len := by
  have e1 : mqttEventHandler cfg env first s
      = { s with in_buffer := re_mqtt_incoming_data_t.zero,
                 trace := s.trace ++ [Call.calloc (first.total_data_len + 1) false] } := by
    simp [mqttEventHandler, hid, mqttEventHandler_DATA, h0, calloc, hfail,
      re_mqtt_incoming_data_t.zero]
  have e : runOps cfg env ((first :: rest).map Op.mqttEventHandler) s
      = { s with in_buffer := re_mqtt_incoming_data_t.zero,
                 trace := s.trace ++ [Call.calloc (first.total_data_len + 1) false] } := by
    show runOps cfg env (rest.map Op.mqttEventHandler) (mqttEventHandler cfg env first s) = _
    rw [e1]
    exact later_fragments_dropped cfg env rest _ hrest rfl
  rw [e]
  refine ⟨by simp [newCalls], by simp [newCalls, incomingMessages], rfl, ?_⟩
  intro d x m hd hm
  rw [incomingMessages_mqttEventHandler_DATA cfg env d x hd] at hm
  split at hm
  · rename_i h
    rw [List.mem_singleton] at hm
    subst hm
    exact ⟨h.1, h.2.2, rfl, rfl⟩
  · exact absurd hm (List.not_mem_nil _)

/-- C21 for the 12-byte message in three fragments when every allocation
fails: the only external call is the failed `calloc` of 13 bytes. -/
theorem allocation_failure_drops_message_witness :
    Env.allFail.ok State.init.trace.length = false
    ∧ newCalls State.init
        (runOps Config.sample Env.allFail (callbacks12.map Op.mqttEventHandler) State.init)
        = [Call.calloc 13 false]
    ∧ incomingMessages (newCalls State.init
        (runOps Config.sample Env.allFail (callbacks12.map Op.mqttEventHandler) State.init))
        = [] :=
  have hw := allocation_failure_drops_message Config.sample Env.allFail State.init
    (dataFragment [116, 47, 97] 12 0 [1, 2, 3, 4, 5])
    [dataFragment [116, 47, 97] 12 5 [6, 7, 8, 9], dataFragment [116, 47, 97] 12 9 [10, 11, 12]]
    rfl rfl rfl (by decide)
  ⟨rfl, hw.1, hw.2.1⟩

/-- C22: a `MQTT_EVENT_DATA` callback for a fragment at offset 0 that is the
whole message, the allocation succeeding, posts exactly one event, the
`RE_MQTT_INCOMING_DATA` whose buffer has `total_data_len + 1` bytes, the bytes
of the fragment followed by a zero byte, whose `data_len` is `total_data_len`,
and whose topic is the topic of the callback with its length. -/
theorem single_fragment_delivery (cfg : Config) (env : Env) (d : esp_mqtt_event_t) (s : State)
    (hid : d.event_id = MQTT_EVENT_DATA) (h0 : d.current_data_offset = 0)
    (hl : d.data.length = d.total_data_len) (hok : env.ok s.trace.length = true) :
    postedEvents (newCalls s (mqttEventHandler cfg env d s))
        = [RE_MQTT_INCOMING_DATA
            { topic := some d.topic, data := some (d.data ++ [0]),
              topic_len := d.topic.length, data_len := d.total_data_len }]
    ∧ incomingMessages (newCalls s (mqttEventHandler cfg env d s))
        = [{ topic := some d.topic, data := some (d.data ++ [0]),
             topic_len := d.topic.length, data_len := d.total_data_len }]
    ∧ (d.data ++ [0]).length = d.total_data_len + 1
    ∧ (d.data ++ [0]).take d.total_data_len = d.data
    ∧ (d.data ++ [0]).drop d.total_data_len = [0]
    ∧ newCalls s (mqttEventHandler cfg env d s)
        = [Call.calloc (d.total_data_len + 1) true,
           Call.eventLoopPost
             (RE_MQTT_INCOMING_DATA
               { topic := some d.topic, data := some (d.data ++ [0]),
                 topic_len := d.topic.length, data_len := d.total_data_len })
             (env.ok (s.trace.length + 1)),
           Call.ledSysActivity] := by
  refine ⟨?_, ?_, by simp [hl], by simp [← hl], by simp [← hl], ?_⟩
  · simp [mqttEventHandler, hid, mqttEventHandler_DATA, h0, calloc, hok, newCalls,
      postedEvents, re_mqtt_incoming_data_t.zero, hl, eventLoopPost, ledSysActivity, memcpy]
  · rw [incomingMessages_mqttEventHandler_DATA cfg env d s hid, if_pos ⟨h0, hok, hl⟩]
  · simp [mqttEventHandler, hid, mqttEventHandler_DATA, h0, calloc, hok, newCalls,
      re_mqtt_incoming_data_t.zero, hl, eventLoopPost, ledSysActivity, memcpy]

/-- C22 for a three-byte message delivered in one fragment to the session
connected on the reserved broker. -/
theorem single_fragment_delivery_witness :
    Env.allOk.ok connectedOnReserved.trace.length = true
    ∧ postedEvents (newCalls connectedOnReserved
        (mqttEventHandler Config.sample Env.allOk (dataFragment [116, 47, 97] 3 0 [7, 8, 9])
          connectedOnReserved))
        = [RE_MQTT_INCOMING_DATA
            { topic := some [116, 47, 97], data := some [7, 8, 9, 0], topic_len := 3,
              data_len := 3 }] :=
  ⟨rfl, (single_fragment_delivery Config.sample Env.allOk (dataFragment [116, 47, 97] 3 0 [7, 8, 9])
    connectedOnReserved rfl rfl rfl rfl).1⟩

/-! ## Exhausted connection attempts -/

/-- C25: a `MQTT_EVENT_DISCONNECTED` callback handled while `connected` is
false posts one `RE_MQTT_CONN_FAILED` event when the attempt counter equals
`CONFIG_MQTT_CONNECT_ATTEMPTS`, and then the availability flag of the selected
slot ends false; when the counter differs from it, below or above, it posts no
`RE_MQTT_CONN_FAILED` event and only posts the error event: the availability
flags, like everything but the error latch, `in_buffer` and the trace, are as
before. -/
theorem conn_failed_only_at_equality (cfg : Config) (env : Env) (data : esp_mqtt_event_t)
    (s : State) (hid : data.event_id = MQTT_EVENT_DISCONNECTED)
    (hc : s._mqttData.connected = false) :
    ((postedEvents (newCalls s (mqttEventHandler cfg env data s))).filter
        re_mqtt_event_id_t.isConnFailed
      = if s._mqttData.conn_attempt = cfg.CONFIG_MQTT_CONNECT_ATTEMPTS
        then [RE_MQTT_CONN_FAILED s._mqttData] else [])
    ∧ (s._mqttData.conn_attempt = cfg.CONFIG_MQTT_CONNECT_ATTEMPTS →
        (if s._mqttPrimary then (mqttEventHandler cfg env data s)._mqttServer1Available
         else (mqttEventHandler cfg env data s)._mqttServer2Available) = false)
    ∧ (s._mqttData.conn_attempt ≠ cfg.CONFIG_MQTT_CONNECT_ATTEMPTS →
        availability (mqttEventHandler cfg env data s) = availability s
        ∧ mqttEventHandler cfg env data s
            = { s with
                in_buffer := re_mqtt_incoming_data_t.zero
                _mqttError := true
                trace := s.trace ++
                  [Call.eventLoopPost (RE_MQTT_ERROR none) (env.ok s.trace.length)] }) := by
  have he := mqttEventHandler_disconnected cfg env data s hid
  rw [if_neg (by simp [hc])] at he
  refine ⟨?_, fun ha => ?_, fun ha => ?_⟩
  · by_cases ha : s._mqttData.conn_attempt = cfg.CONFIG_MQTT_CONNECT_ATTEMPTS
    · rw [if_pos ha] at he
      rw [if_pos ha, he]
      by_cases hp : s._mqttPrimary = true
      · rw [if_pos hp]
        simpa [re_mqtt_event_id_t.isConnFailed] using
          postedEvents_after_exhausted env s _ re_mqtt_event_id_t.isConnFailed
            (FailoverStep_mqttServer1SetAvailable cfg env false (exhaustedState env s)) rfl rfl
      · rw [if_neg hp]
        simpa [re_mqtt_event_id_t.isConnFailed] using
          postedEvents_after_exhausted env s _ re_mqtt_event_id_t.isConnFailed
            (FailoverStep_mqttServer2SetAvailable cfg env false (exhaustedState env s)) rfl rfl
    · rw [if_neg ha] at he
      rw [if_neg ha, he]
      simp [newCalls, postedEvents, re_mqtt_event_id_t.isConnFailed]
  · rw [if_pos ha] at he
    rw [he]
    have hav1 := availability_setter cfg env (SetterCall.server1 false) (exhaustedState env s)
    have hav2 := availability_setter cfg env (SetterCall.server2 false) (exhaustedState env s)
    simp only [availability, SetterCall.run, latestServer1, latestServer2, latestInet,
      List.foldl_cons, List.foldl_nil, Prod.mk.injEq] at hav1 hav2
    by_cases hp : s._mqttPrimary = true
    · simp only [hp, if_true]
      exact hav1.1
    · simp only [hp, if_false]
      exact hav2.2.1
  · rw [if_neg ha] at he
    rw [he]
    exact ⟨rfl, rfl⟩

/-- C25 on the session started on the primary broker, three attempts being
the configured maximum: after three announced attempts the event is posted
and the primary broker is marked unavailable; after none and after four it is
not posted and the flags stay. -/
theorem conn_failed_only_at_equality_witness :
    (threeAttempts._mqttData.connected = false ∧ threeAttempts._mqttData.conn_attempt = 3
      ∧ afterStart._mqttData.connected = false ∧ afterStart._mqttData.conn_attempt = 0
      ∧ (beforeConnects Config.sample Env.allOk 4 afterStart)._mqttData.connected = false
      ∧ (beforeConnects Config.sample Env.allOk 4 afterStart)._mqttData.conn_attempt = 4
      ∧ Config.sample.CONFIG_MQTT_CONNECT_ATTEMPTS = 3)
    ∧ (postedEvents (newCalls threeAttempts
        (mqttEventHandler Config.sample Env.allOk (plainEvent MQTT_EVENT_DISCONNECTED)
          threeAttempts))).filter re_mqtt_event_id_t.isConnFailed
        = [RE_MQTT_CONN_FAILED threeAttempts._mqttData]
    ∧ (postedEvents (newCalls afterStart
        (mqttEventHandler Config.sample Env.allOk (plainEvent MQTT_EVENT_DISCONNECTED)
          afterStart))).filter re_mqtt_event_id_t.isConnFailed = []
    ∧ availability (mqttEventHandler Config.sample Env.allOk (plainEvent MQTT_EVENT_DISCONNECTED)
          (beforeConnects Config.sample Env.allOk 4 afterStart))
        = availability (beforeConnects Config.sample Env.allOk 4 afterStart) :=
  ⟨by decide,
   (conn_failed_only_at_equality Config.sample Env.allOk (plainEvent MQTT_EVENT_DISCONNECTED)
      threeAttempts rfl (by decide)).1.trans (by decide),
   (conn_failed_only_at_equality Config.sample Env.allOk (plainEvent MQTT_EVENT_DISCONNECTED)
      afterStart rfl (by decide)).1.trans (by decide),
   ((conn_failed_only_at_equality Config.sample Env.allOk (plainEvent MQTT_EVENT_DISCONNECTED)
      (beforeConnects Config.sample Env.allOk 4 afterStart) rfl (by decide)).2.2
        (by decide)).1⟩

/-! ## The single-broker build -/

theorem SingleBroker_mqttStart_eq (cfg : Config) (env : Env) (s : State)
    (hp : s._mqttPrimary = true) :
    SingleBroker.mqttStart cfg env s = mqttStart cfg env s := by
  have hc : mqttStart_configure cfg s = mqttSetConfigPrimary cfg
      { s with _mqttState := MQTT_CLIENT_STOPPED, _mqttData := re_mqtt_event_data_t.zero } := by
    unfold mqttStart_configure
    rw [if_pos hp]
  unfold SingleBroker.mqttStart mqttStart
  rw [hc]

/-- The dual-broker `mqttServerSelectAuto`, run with the reserved broker
flagged unavailable and the primary slot selected, is the bookkeeping of the
slot followed by the single-broker `mqttServerSelectAuto`. -/
theorem mqttServerSelectAuto_eq_single (cfg : Config) (env : Env) (s : State)
    (h2 : s._mqttServer2Available = false) (hp : s._mqttPrimary = true) :
    mqttServerSelectAuto cfg env s
      = SingleBroker.mqttServerSelectAuto cfg env (selectionBookkeeping cfg s) := by
  have hb1 : ∀ x : State, mqttServer1Enabled cfg (backToPrimaryCancel cfg x)
      = mqttServer1Enabled cfg x := by
    intro x
    unfold backToPrimaryCancel
    split <;> rfl
  have hb2 : ∀ x : State, (backToPrimaryCancel cfg x)._mqttState = x._mqttState := by
    intro x
    unfold backToPrimaryCancel
    split <;> rfl
  have hb3 : ∀ x : State, (backToPrimaryCancel cfg x)._mqttPrimary = x._mqttPrimary := by
    intro x
    unfold backToPrimaryCancel
    split <;> rfl
  have h2e : mqttServer2Enabled cfg s = false := by simp [mqttServer2Enabled, h2]
  by_cases h1 : mqttServer1Enabled cfg s = true
  · cases hs : s._mqttState
    · have hk : selectionBookkeeping cfg s
          = backToPrimaryCancel cfg { s with _mqttPrimary := true, _mqttServer2Activate := 0 } := by
        simp [selectionBookkeeping, h1, hs]
      have he : mqttServer1Enabled cfg (selectionBookkeeping cfg s) = true := by
        rw [hk, hb1]; exact h1
      have hst : (selectionBookkeeping cfg s)._mqttState = MQTT_CLIENT_STOPPED := by
        rw [hk, hb2]; exact hs
      unfold mqttServerSelectAuto SingleBroker.mqttServerSelectAuto
      rw [if_pos h1, if_pos he]
      unfold mqttServer1Acivate
      rw [hs, hst]
      show mqttServer1Start cfg env s = SingleBroker.mqttStart cfg env (selectionBookkeeping cfg s)
      rw [SingleBroker_mqttStart_eq cfg env _ (by rw [hk, hb3]), hk]
      rfl
    · have hk : selectionBookkeeping cfg s = s := by simp [selectionBookkeeping, hs]
      rw [hk]
      unfold mqttServerSelectAuto SingleBroker.mqttServerSelectAuto
      rw [if_pos h1]
      unfold mqttServer1Acivate
      rw [hs]
      simp [hp, h1]
    · have hk : selectionBookkeeping cfg s = s := by simp [selectionBookkeeping, hs]
      rw [hk]
      unfold mqttServerSelectAuto SingleBroker.mqttServerSelectAuto
      rw [if_pos h1]
      unfold mqttServer1Acivate
      rw [hs]
      simp [hp, h1]
  · have hk : selectionBookkeeping cfg s = s := by simp [selectionBookkeeping, h1]
    rw [hk]
    unfold mqttServerSelectAuto SingleBroker.mqttServerSelectAuto
    rw [if_neg h1, if_neg h1, h2e]
    simp

/-- The bookkeeping of the slot makes no call to the client library: the
trace grows by the unregistration of the tick handler or not at all. -/
theorem selectionBookkeeping_trace (cfg : Config) (s : State) :
    ∃ b, (selectionBookkeeping cfg s).trace = s.trace ++ b ∧ b.filter Call.isTransport = [] := by
  unfold selectionBookkeeping
  split
  · unfold backToPrimaryCancel
    split
    · exact ⟨[Call.eventHandlerUnregister_RE_TIME_EVERY_MINUTE], rfl, rfl⟩
    · exact ⟨[], by simp, rfl⟩
  · exact ⟨[], by simp, rfl⟩

theorem selectionBookkeeping_primary (cfg : Config) (s : State) (hp : s._mqttPrimary = true) :
    (selectionBookkeeping cfg s)._mqttPrimary = true := by
  unfold selectionBookkeeping
  split
  · unfold backToPrimaryCancel
    split <;> rfl
  · exact hp

theorem FailoverStep_single_mqttServerSelectAuto (cfg : Config) (env : Env) (s : State)
    (hp : s._mqttPrimary = true) :
    FailoverStep s (SingleBroker.mqttServerSelectAuto cfg env s).2 := by
  unfold SingleBroker.mqttServerSelectAuto
  split
  · split
    · rw [SingleBroker_mqttStart_eq cfg env s hp]
      exact FailoverStep_mqttStart cfg env s
    · exact FailoverStep_refl s
    · exact FailoverStep_mqttTaskResume env s
  · split
    · exact FailoverStep_mqttTaskSuspend env s
    · exact FailoverStep_refl s

/-- C26: run with the reserved broker flagged unavailable and the primary
slot selected, the dual-broker `mqttServerSelectAuto` behaves as the
single-broker `mqttServerSelectAuto`, whatever the external calls answer.  It
first does the bookkeeping of the slot, which makes no call to the client
library and touches neither the connection state, nor the client, nor the
availability flags; from there on the two builds coincide: same calls to the
client library, same connection state, same returned value, and in fact the
same resulting state. -/
theorem single_broker_equivalence (cfg : Config) (env : Env) (s : State)
    (h2 : s._mqttServer2Available = false) (hp : s._mqttPrimary = true) :
    transportCalls s (mqttServerSelectAuto cfg env s).2
        = transportCalls (selectionBookkeeping cfg s)
            (SingleBroker.mqttServerSelectAuto cfg env (selectionBookkeeping cfg s)).2
    ∧ (mqttServerSelectAuto cfg env s).2._mqttState
        = (SingleBroker.mqttServerSelectAuto cfg env (selectionBookkeeping cfg s)).2._mqttState
    ∧ (mqttServerSelectAuto cfg env s).1
        = (SingleBroker.mqttServerSelectAuto cfg env (selectionBookkeeping cfg s)).1
    ∧ mqttServerSelectAuto cfg env s
        = SingleBroker.mqttServerSelectAuto cfg env (selectionBookkeeping cfg s)
    ∧ transportCalls s (selectionBookkeeping cfg s) = []
    ∧ (selectionBookkeeping cfg s)._mqttState = s._mqttState
    ∧ (selectionBookkeeping cfg s)._mqttClient = s._mqttClient
    ∧ (selectionBookkeeping cfg s)._mqttData = s._mqttData
    ∧ availability (selectionBookkeeping cfg s) = availability s
    ∧ ((cfg.CONFIG_MQTT_BACK_TO_PRIMARY_TIME_MINUTES = 0 ∨ mqttServer1Enabled cfg s = false
          ∨ s._mqttState ≠ MQTT_CLIENT_STOPPED) →
        (selectionBookkeeping cfg s).trace = s.trace) := by
  have he := mqttServerSelectAuto_eq_single cfg env s h2 hp
  obtain ⟨b, hb, hbt⟩ := selectionBookkeeping_trace cfg s
  obtain ⟨_, l, hl, _⟩ := FailoverStep_single_mqttServerSelectAuto cfg env
    (selectionBookkeeping cfg s) (selectionBookkeeping_primary cfg s hp)
  refine ⟨?_, by rw [he], by rw [he], he, ?_, ?_, ?_, ?_, ?_, ?_⟩
  · rw [he]
    unfold transportCalls
    rw [newCalls_append _ _ l hl, newCalls_append s _ (b ++ l) (by rw [hl, hb, List.append_assoc]),
      List.filter_append, hbt, List.nil_append]
  · unfold transportCalls
    rw [newCalls_append s _ b hb, hbt]
  · unfold selectionBookkeeping backToPrimaryCancel
    split <;> [split; skip] <;> rfl
  · unfold selectionBookkeeping backToPrimaryCancel
    split <;> [split; skip] <;> rfl
  · unfold selectionBookkeeping backToPrimaryCancel
    split <;> [split; skip] <;> rfl
  · unfold selectionBookkeeping backToPrimaryCancel
    split <;> [split; skip] <;> rfl
  · intro h
    unfold selectionBookkeeping backToPrimaryCancel
    split
    · rename_i hc
      simp only [Bool.and_eq_true, decide_eq_true_eq] at hc
      split
      · rename_i hT
        rcases h with h | h | h
        · omega
        · rw [hc.1] at h; cases h
        · exact absurd hc.2 h
      · rfl
    · rfl

/-- C26 at start-up with the reserved broker reported unavailable and the
internet reachable, every call succeeding: both builds create, register and
start the client with the profile of the primary broker, end started and
return `true`. -/
theorem single_broker_equivalence_witness :
    (stoppedReservedDown._mqttServer2Available = false ∧ stoppedReservedDown._mqttPrimary = true)
    ∧ transportCalls (selectionBookkeeping Config.sample stoppedReservedDown)
        (SingleBroker.mqttServerSelectAuto Config.sample Env.allOk
          (selectionBookkeeping Config.sample stoppedReservedDown)).2
        = [Call.esp_mqtt_client_init (brokerProfile Config.sample Slot.Primary) (some 1),
           Call.esp_mqtt_client_register_event 1 true, Call.esp_mqtt_client_start 1 true]
    ∧ transportCalls stoppedReservedDown
        (mqttServerSelectAuto Config.sample Env.allOk stoppedReservedDown).2
        = [Call.esp_mqtt_client_init (brokerProfile Config.sample Slot.Primary) (some 1),
           Call.esp_mqtt_client_register_event 1 true, Call.esp_mqtt_client_start 1 true]
    ∧ (mqttServerSelectAuto Config.sample Env.allOk stoppedReservedDown).2._mqttState
        = MQTT_CLIENT_STARTED
    ∧ (mqttServerSelectAuto Config.sample Env.allOk stoppedReservedDown).1 = true :=
  have hw := single_broker_equivalence Config.sample Env.allOk stoppedReservedDown
    (by decide) (by decide)
  ⟨⟨by decide, by decide⟩, by decide, hw.1.trans (by decide), hw.2.1.trans (by decide),
    hw.2.2.1.trans (by decide)⟩

/-! ## Signals and the switch handler -/

/-- C23 (the code departs from the claim): with a local primary broker
flagged available and the internet flag false, the link-up signal
`RE_WIFI_STA_GOT_IP` changes nothing: a session suspended by a link-down
signal stays suspended, and after a start-up that only registered the
handlers the session stays stopped.  The handler calls
`mqttServerSelectInet(false)`, which does nothing when the flag is false
already, in every state and configuration. -/
theorem link_up_ignored_while_internet_flag_false :
    (mqttServer1isLocal Config.localPrimary = true
      ∧ mqttServer1Enabled Config.localPrimary localSuspendedByLinkDown = true
      ∧ localSuspendedByLinkDown._mqttInternetAvailable = false
      ∧ localSuspendedByLinkDown._mqttState = MQTT_CLIENT_SUSPENDED
      ∧ mqttWiFiEventHandler Config.localPrimary Env.allOk
          re_wifi_event_id_t.RE_WIFI_STA_GOT_IP localSuspendedByLinkDown
          = localSuspendedByLinkDown)
    ∧ (mqttServer1Enabled Config.localPrimary handlersRegistered = true
      ∧ handlersRegistered._mqttInternetAvailable = false
      ∧ handlersRegistered._mqttState = MQTT_CLIENT_STOPPED
      ∧ mqttWiFiEventHandler Config.localPrimary Env.allOk
          re_wifi_event_id_t.RE_WIFI_STA_GOT_IP handlersRegistered = handlersRegistered)
    ∧ ∀ (cfg : Config) (env : Env) (s : State),
        mqttWiFiEventHandler cfg env re_wifi_event_id_t.RE_WIFI_STA_GOT_IP
            { s with _mqttInternetAvailable := false }
          = { s with _mqttInternetAvailable := false } := by
  refine ⟨by decide, by decide, fun cfg env s => ?_⟩
  simp [mqttWiFiEventHandler, mqttServerSelectInet]

/-- C24 (the code departs from the claim): from start-up, every call
succeeding, the internet becomes reachable (the session starts on the primary
broker), the primary broker is reported unavailable (a switch is requested:
`RE_MQTT_SERVER_RESERVED` is posted, the only event posted), the internet is
found unreachable (no broker is eligible and the session is suspended), and
then the switch handler processes the posted event: it stops and starts the
session, which is left started while no broker is eligible. -/
theorem started_without_eligible_broker :
    postedEvents (runOps Config.sample Env.allOk switchThenInternetLost State.init).trace
        = [RE_MQTT_SERVER_RESERVED]
    ∧ selectedSlot Config.sample
        (runOps Config.sample Env.allOk switchThenInternetLost State.init) = none
    ∧ (runOps Config.sample Env.allOk switchThenInternetLost State.init)._mqttState
        = MQTT_CLIENT_SUSPENDED
    ∧ startedWithoutBroker
        = mqttSelfEventHandler Config.sample Env.allOk RE_MQTT_SERVER_RESERVED
            (runOps Config.sample Env.allOk switchThenInternetLost State.init)
    ∧ selectedSlot Config.sample startedWithoutBroker = none
    ∧ startedWithoutBroker._mqttState = MQTT_CLIENT_STARTED := by
  decide

/-- The slot `mqttServerSelectAuto` acts for depends on the three flags only. -/
theorem selectedSlot_of_availability (cfg : Config) (s s' : State)
    (h : availability s' = availability s) : selectedSlot cfg s' = selectedSlot cfg s := by
  simp only [availability, Prod.mk.injEq] at h
  simp [selectedSlot, mqttServer1Enabled, mqttServer2Enabled, h.1, h.2.1, h.2.2]

/-- With every call succeeding, `mqttServerSelectAuto` leaves no session
started when no broker is eligible. -/
theorem Quiet_mqttServerSelectAuto (cfg : Config) (env : Env) (s : State)
    (hok : ∀ n, env.ok n = true) (hg : Good s) :
    Quiet cfg (mqttServerSelectAuto cfg env s).2 := by
  refine ⟨Good_mqttServerSelectAuto cfg env s hg, fun hn => ?_⟩
  rw [selectedSlot_of_availability cfg s _ (availability_mqttServerSelectAuto cfg env s)] at hn
  rw [mqttServerSelectAuto_none cfg env s hn]
  split
  · rename_i hs
    obtain ⟨c, hc⟩ := Option.isSome_iff_exists.mp (hg.2.1 (by rw [hs]; decide))
    rw [mqttTaskSuspend_ok env s c hc (hok _)]
    exact fun h => mqtt_client_state_t.noConfusion h
  · assumption

theorem Quiet_setter (cfg : Config) (env : Env) (c : SetterCall) (s : State)
    (hok : ∀ n, env.ok n = true) (hq : Quiet cfg s) : Quiet cfg (c.run cfg env s) := by
  cases c with
  | server1 b =>
    simp only [SetterCall.run, mqttServer1SetAvailable]
    split
    · exact Quiet_mqttServerSelectAuto cfg env _ hok hq.1
    · exact hq
  | server2 b =>
    simp only [SetterCall.run, mqttServer2SetAvailable]
    split
    · exact Quiet_mqttServerSelectAuto cfg env _ hok hq.1
    · exact hq
  | inet b =>
    simp only [SetterCall.run, mqttServerSelectInet]
    split
    · exact Quiet_mqttServerSelectAuto cfg env _ hok hq.1
    · exact hq

theorem Quiet_run (cfg : Config) (env : Env) (op : Op) (s : State)
    (hok : ∀ n, env.ok n = true) (hop : op.isSignal = true) (hq : Quiet cfg s) :
    Quiet cfg (op.run cfg env s) := by
  cases op <;> simp [Op.isSignal] at hop
  case mqttServer1SetAvailable b => exact Quiet_setter cfg env (SetterCall.server1 b) s hok hq
  case mqttServer2SetAvailable b => exact Quiet_setter cfg env (SetterCall.server2 b) s hok hq
  case mqttServerSelectInet b => exact Quiet_setter cfg env (SetterCall.inet b) s hok hq
  case mqttTimeEventHandler =>
    show Quiet cfg (mqttTimeEventHandler cfg env s)
    unfold mqttTimeEventHandler
    dsimp only
    split
    · exact Quiet_setter cfg env (SetterCall.server1 true) _ hok hq
    · exact hq
  case mqttWiFiEventHandler e =>
    show Quiet cfg (mqttWiFiEventHandler cfg env e s)
    have hdown : Quiet cfg
        (if s._mqttState = MQTT_CLIENT_STARTED then (mqttTaskSuspend env s).2 else s) := by
      split
      · rename_i hs
        obtain ⟨c, hc⟩ := Option.isSome_iff_exists.mp (hq.1.2.1 (by rw [hs]; decide))
        refine ⟨Good_mqttTaskSuspend env s hq.1, fun _ => ?_⟩
        rw [mqttTaskSuspend_ok env s c hc (hok _)]
        exact fun h => mqtt_client_state_t.noConfusion h
      · exact hq
    cases e
    · exact Quiet_setter cfg env (SetterCall.inet false) s hok hq
    · exact Quiet_setter cfg env (SetterCall.inet true) s hok hq
    · exact Quiet_setter cfg env (SetterCall.inet false) s hok hq
    · exact hdown
    · exact hdown
    · exact hq

/-- As long as only signals are handled (the availability
setters, the Wi-Fi handler, the tick handler) and every call succeeds, in
every state reached from the initial state the session is not started when
no broker is eligible.  The switch handler is what breaks it. -/
theorem signals_leave_no_session_without_broker (cfg : Config) (env : Env) (ops : List Op)
    (hok : ∀ n, env.ok n = true) (hops : ∀ op ∈ ops, op.isSignal = true) :
    selectedSlot cfg (runOps cfg env ops State.init) = none →
      (runOps cfg env ops State.init)._mqttState ≠ MQTT_CLIENT_STARTED := by
  have key : ∀ (l : List Op) (s : State), (∀ op ∈ l, op.isSignal = true) → Quiet cfg s →
      Quiet cfg (runOps cfg env l s) := by
    intro l
    induction l with
    | nil => exact fun _ _ hq => hq
    | cons op l ih =>
      intro s hl hq
      exact ih _ (fun x hx => hl x (List.mem_cons_of_mem _ hx))
        (Quiet_run cfg env op s hok (hl op (List.mem_cons_self _ _)) hq)
  exact (key ops State.init hops ⟨Good_init, fun _ => by decide⟩).2

/-- With every call succeeding and a client exactly in the states other than
stopped, `mqttServerSelectAuto` acting for the primary broker leaves the
primary slot selected; the session is started if it was stopped or on the
primary slot, and otherwise a switch is requested by posting
`RE_MQTT_SERVER_PRIMARY`, the state staying as it was. -/
theorem mqttServerSelectAuto_acts_for_primary (cfg : Config) (env : Env) (x : State)
    (hsel : selectedSlot cfg x = some Slot.Primary) (hok : ∀ n, env.ok n = true)
    (hcl : x._mqttClient.isSome = true ↔ x._mqttState ≠ MQTT_CLIENT_STOPPED) :
    (mqttServerSelectAuto cfg env x).2._mqttPrimary = true
    ∧ (x._mqttState = MQTT_CLIENT_STOPPED ∨ x._mqttPrimary = true →
        (mqttServerSelectAuto cfg env x).2._mqttState = MQTT_CLIENT_STARTED)
    ∧ (x._mqttState ≠ MQTT_CLIENT_STOPPED → x._mqttPrimary = false →
        (mqttServerSelectAuto cfg env x).2._mqttState = x._mqttState
        ∧ postedEvents (newCalls x (mqttServerSelectAuto cfg env x).2)
          = [RE_MQTT_SERVER_PRIMARY]) := by
  rw [mqttServerSelectAuto_primary cfg env x hsel]
  have hsp := mqttServer1Select_spec cfg env x
  have hspp : (mqttServer1Select cfg env x).2._mqttPrimary = true := by
    have := hsp.1
    unfold activeSlot at this
    split at this
    · assumption
    · cases this
  cases hs : x._mqttState
  · have hc : x._mqttClient = none := by
      cases hcc : x._mqttClient
      · rfl
      · exact absurd hs (hcl.mp (by rw [hcc]; rfl))
    have h1 := mqttServer1Start_ok cfg env x hok hc
    exact ⟨h1.2.2.1, fun _ => h1.2.1, fun h => absurd rfl h⟩
  · by_cases hp : x._mqttPrimary = true
    · dsimp only
      rw [if_pos hp]
      exact ⟨hp, fun _ => hs, fun _ h => by rw [hp] at h; cases h⟩
    · dsimp only
      rw [if_neg hp]
      exact ⟨hspp, fun h => h.elim (fun h => by cases h) (fun h => absurd h hp),
        fun _ _ => ⟨hsp.2.1.trans hs, hsp.2.2.2.1⟩⟩
  · obtain ⟨c, hc⟩ := Option.isSome_iff_exists.mp (hcl.mpr (by rw [hs]; decide))
    by_cases hp : x._mqttPrimary = true
    · dsimp only
      rw [if_pos hp, mqttTaskResume_ok env x c hc (hok _)]
      exact ⟨hp, fun _ => rfl, fun _ h => by rw [hp] at h; cases h⟩
    · dsimp only
      rw [if_neg hp]
      exact ⟨hspp, fun h => h.elim (fun h => by cases h) (fun h => absurd h hp),
        fun _ _ => ⟨hsp.2.1.trans hs, hsp.2.2.2.1⟩⟩

/-- When the internet flag is true on entry, the link-up signal does run
`mqttServerSelectAuto`.  With a local primary broker flagged
available, every call succeeding and a client exactly in the states other
than stopped, the primary slot is selected afterwards; the session is started
if it was stopped or on the primary slot, and otherwise a switch is requested
by posting `RE_MQTT_SERVER_PRIMARY`, the state staying as it was. -/
theorem link_up_acts_when_internet_flag_true (cfg : Config) (env : Env) (s : State)
    (hloc : mqttServer1isLocal cfg = true) (ha : s._mqttServer1Available = true)
    (hi : s._mqttInternetAvailable = true) (hok : ∀ n, env.ok n = true)
    (hcl : s._mqttClient.isSome = true ↔ s._mqttState ≠ MQTT_CLIENT_STOPPED) :
    (mqttWiFiEventHandler cfg env re_wifi_event_id_t.RE_WIFI_STA_GOT_IP s)._mqttPrimary = true
    ∧ (s._mqttState = MQTT_CLIENT_STOPPED ∨ s._mqttPrimary = true →
        (mqttWiFiEventHandler cfg env re_wifi_event_id_t.RE_WIFI_STA_GOT_IP s)._mqttState
          = MQTT_CLIENT_STARTED)
    ∧ (s._mqttState ≠ MQTT_CLIENT_STOPPED → s._mqttPrimary = false →
        (mqttWiFiEventHandler cfg env re_wifi_event_id_t.RE_WIFI_STA_GOT_IP s)._mqttState
          = s._mqttState
        ∧ postedEvents (newCalls s
            (mqttWiFiEventHandler cfg env re_wifi_event_id_t.RE_WIFI_STA_GOT_IP s))
          = [RE_MQTT_SERVER_PRIMARY]) := by
  have he : mqttWiFiEventHandler cfg env re_wifi_event_id_t.RE_WIFI_STA_GOT_IP s
      = (mqttServerSelectAuto cfg env { s with _mqttInternetAvailable := false }).2 := by
    simp [mqttWiFiEventHandler, mqttServerSelectInet, hi]
  have hsel : selectedSlot cfg { s with _mqttInternetAvailable := false } = some Slot.Primary := by
    rw [selectedSlot_primary]
    simp [mqttServer1Enabled, ha, hloc]
  rw [he]
  exact mqttServerSelectAuto_acts_for_primary cfg env { s with _mqttInternetAvailable := false }
    hsel hok hcl

end ReMqtt
